import Mathlib

/-!
# EventHub: ticket issuance, purchase and cascade rules

A shallow embedding of the ticket workflow of the EventHub backend
(`Backend/controllers/{attendee,organizer,admin}.controller.js`,
`Backend/models/*.model.js`).

* A MongoDB collection is a list of documents; the Mongoose calls the
  controllers make (`findById`, `findOne`, `findOneAndDelete`, `deleteMany`,
  `updateMany`, `create`, `save`) are list functions.
* A controller `async function f(req, res)` becomes a function from the parts
  of `req` it reads and the store to the response it sends and the store it
  leaves behind.  A thrown exception is the `catch` block's response.
* Library behaviour that is not in the repository (QR rendering, locale
  formatting of dates, number formatting, `toString` of a populated document)
  is a field of `Env`.
* `sendEmail` (`Backend/services/nodemailer.js`) catches every error of the
  transport and returns nothing, so it contributes neither to a response nor
  to the store (section "Notification" models it and proves this for the
  purchase).  The handlers leave the call out; the property reads made while
  building a message body are modelled where they can throw.
* Mongoose's `updatedAt` timestamp is not part of the ticket shape the
  specification describes and is left out; `createdAt` is kept because the QR
  payload reads it.
-/

namespace EventHub

/-! ## JavaScript string helpers -/

namespace JS

/-- ECMAScript `WhiteSpace` and `LineTerminator` code points: the characters
`String.prototype.trim` strips. -/
def isWhiteSpace (c : Char) : Bool :=
  let n := c.toNat
  n == 0x09 || n == 0x0A || n == 0x0B || n == 0x0C || n == 0x0D || n == 0x20 ||
  n == 0xA0 || n == 0x1680 || (0x2000 ≤ n && n ≤ 0x200A) || n == 0x2028 ||
  n == 0x2029 || n == 0x202F || n == 0x205F || n == 0x3000 || n == 0xFEFF

/-- Strip white space from both ends of a character list. -/
def trimChars (cs : List Char) : List Char :=
  ((cs.dropWhile isWhiteSpace).reverse.dropWhile isWhiteSpace).reverse

/-- JavaScript `String.prototype.trim`. -/
def trim (s : String) : String := ⟨trimChars s.data⟩

/-- JavaScript `String.prototype.padEnd(width, " ")`: pads on the right with spaces up to
`width`; a string that is already that long is returned as it is. -/
def padEnd (s : String) (width : Nat) : String :=
  ⟨s.data ++ List.replicate (width - s.data.length) ' '⟩

/-- The expression `value || "N/A"` for a possibly absent string: absent and empty are falsy. -/
def orNA (v : Option String) : String :=
  match v with
  | none => "N/A"
  | some s => if s = "" then "N/A" else s

end JS

/-! ## Data model (`Backend/models`) -/

/-- A database object id, as its hexadecimal string. -/
abbrev ObjectId := String

/-- A timestamp (milliseconds since the epoch). -/
abbrev Date := Nat

/-- The `role` enum of `UserSchema`. -/
inductive Role where
  | attendee
  | organizer
  | admin
  deriving DecidableEq, Repr

/-- A user document (`UserSchema`). -/
structure User where
  _id : ObjectId
  name : String
  email : String
  password : String
  role : Role
  deriving DecidableEq, Repr

/-- An event document (`EventSchema`).  `price` is a JavaScript number; the model covers its finite
values. -/
structure Event where
  _id : ObjectId
  name : String
  description : String
  genre : String
  category : String
  price : Rat
  organizerId : ObjectId
  createdAt : Date
  deriving DecidableEq

/-- A ticket document (`TicketSchema`): `attendeeId` and `qrCode` default to `null`, `isAvailable`
to `true`. -/
structure Ticket where
  _id : ObjectId
  eventId : ObjectId
  ticketType : String
  attendeeId : Option ObjectId
  qrCode : Option String
  isAvailable : Bool
  createdAt : Date
  deriving DecidableEq, Repr

/-- The three collections. -/
structure Store where
  users : List User
  events : List Event
  tickets : List Ticket
  deriving DecidableEq

/-- Behaviour of the libraries the controllers call. -/
structure Env where
  /-- The renderer `QRCode.toDataURL(text)`; `none` when it throws. -/
  toDataURL : String → Option String
  /-- JavaScript `Date.prototype.toLocaleString()`. -/
  toLocaleString : Date → String
  /-- Conversion of a number inside a template literal. -/
  numberToString : Rat → String
  /-- The result of `toString()` on a populated user document. -/
  docToString : User → String

/-- An organizer as `populate("organizerId", "name email")` leaves it on an
event. -/
structure PopulatedOrganizer where
  name : Option String
  email : Option String
  deriving DecidableEq, Repr

/-- An event with its `organizerId` path populated (`none` when the referenced
user does not exist). -/
structure PopulatedEvent where
  name : String
  genre : String
  price : Rat
  organizerId : Option PopulatedOrganizer
  deriving DecidableEq

/-- The JSON body and status of a response (`res.status(..).json(..)`); a body
key that is not sent is `none`. -/
structure Response where
  status : Nat
  error : Option String := none
  message : Option String := none
  ticket : Option Ticket := none
  deletedEvents : Option Nat := none
  deletedTickets : Option Nat := none
  deriving DecidableEq, Repr

/-! ## Mongoose operations on a collection -/

namespace Mongo

/-- Mongoose `Model.findOne(filter)`. -/
def findOne {α : Type} (p : α → Bool) (c : List α) : Option α := c.find? p

/-- Mongoose `Model.find(filter)`. -/
def find {α : Type} (p : α → Bool) (c : List α) : List α := c.filter p

/-- Mongoose `Model.findOneAndDelete(filter)`: the deleted document, if any, and the
collection without it. -/
def findOneAndDelete {α : Type} (p : α → Bool) (c : List α) : Option α × List α :=
  (c.find? p, c.eraseP p)

/-- Mongoose `Model.deleteMany(filter)`: `deletedCount` and the remaining collection. -/
def deleteMany {α : Type} (p : α → Bool) (c : List α) : Nat × List α :=
  (c.countP p, c.filter (fun d => !p d))

/-- Mongoose `Model.updateMany(filter, update)`. -/
def updateMany {α : Type} (p : α → Bool) (f : α → α) (c : List α) : List α :=
  c.map (fun d => if p d then f d else d)

/-- Mongoose `updateOne(filter, update)`: only the first matching document changes. -/
def updateOne {α : Type} (p : α → Bool) (f : α → α) : List α → List α
  | [] => []
  | d :: c => if p d then f d :: c else d :: updateOne p f c

end Mongo

/-- Mongoose `Ticket.findById(id)`. -/
def Ticket.findById (c : List Ticket) (id : ObjectId) : Option Ticket :=
  Mongo.findOne (fun t => t._id == id) c

/-- Mongoose `Event.findById(id)`. -/
def Event.findById (c : List Event) (id : ObjectId) : Option Event :=
  Mongo.findOne (fun e => e._id == id) c

/-- Mongoose `User.findById(id)`. -/
def User.findById (c : List User) (id : ObjectId) : Option User :=
  Mongo.findOne (fun u => u._id == id) c

/-- Mongoose `populate("organizerId", "name email")` on an event. -/
def populateOrganizer (users : List User) (e : Event) : PopulatedEvent :=
  { name := e.name, genre := e.genre, price := e.price,
    organizerId := (User.findById users e.organizerId).map
      (fun u => { name := some u.name, email := some u.email }) }

/-- Mongoose `populate` of a ticket's `eventId` path with the nested `organizerId`
populate (`null` when the event does not exist). -/
def populateEvent (s : Store) (eventId : ObjectId) : Option PopulatedEvent :=
  (Event.findById s.events eventId).map (populateOrganizer s.users)

/-! ## QR payload codec -/

namespace Organizer

/-- The arrow function `line` of `generateQRData`. -/
def line (label value : String) : String :=
  JS.padEnd label 15 ++ ": " ++ value

/-- The function `generateQRData(ticket, event)` declared inside `createTicket`
(organizer controller).  `none` is the `TypeError` of reading a property of a
`null` event or of a `null` organizer. -/
def generateQRData (env : Env) (ticket : Ticket) (event : Option PopulatedEvent) :
    Option String :=
  match event with
  | none => none
  | some ev =>
    match ev.organizerId with
    | none => none
    | some org =>
      some (JS.trim
        ("\n      " ++ JS.trim (line "Ticket ID" ticket._id) ++
         "\n      " ++ JS.trim (line "Ticket Type" ticket.ticketType) ++
         "\n      " ++ JS.trim (line "Event Name" ev.name) ++
         "\n      " ++ JS.trim (line "Event Genre" ev.genre) ++
         "\n      " ++ JS.trim (line "Event Price" ("$" ++ env.numberToString ev.price)) ++
         "\n      " ++ JS.trim (line "Organizer Name" (JS.orNA org.name)) ++
         "\n      " ++ JS.trim (line "Organizer Email" (JS.orNA org.email)) ++
         "\n      " ++ JS.trim (line "Created At" (env.toLocaleString ticket.createdAt)) ++
         "\n      "))

end Organizer

namespace Attendee

/-- The arrow function `line` of `generateQRData`. -/
def line (label value : String) : String :=
  JS.padEnd label 15 ++ ": " ++ value

/-- The function `generateQRData(ticket, event)` declared inside `buyTicket`
(attendee controller).  `none` is the `TypeError` of reading a property of a
`null` event or of a `null` organizer. -/
def generateQRData (env : Env) (ticket : Ticket) (event : Option PopulatedEvent) :
    Option String :=
  match event with
  | none => none
  | some ev =>
    match ev.organizerId with
    | none => none
    | some org =>
      some (JS.trim
        ("\n      " ++ JS.trim (line "Ticket ID" ticket._id) ++
         "\n      " ++ JS.trim (line "Ticket Type" ticket.ticketType) ++
         "\n      " ++ JS.trim (line "Event Name" ev.name) ++
         "\n      " ++ JS.trim (line "Event Genre" ev.genre) ++
         "\n      " ++ JS.trim (line "Event Price" ("$" ++ env.numberToString ev.price)) ++
         "\n      " ++ JS.trim (line "Organizer Name" (JS.orNA org.name)) ++
         "\n      " ++ JS.trim (line "Organizer Email" (JS.orNA org.email)) ++
         "\n      " ++ JS.trim (line "Created At" (env.toLocaleString ticket.createdAt)) ++
         "\n      "))

end Attendee

/-! ## Attendee controller -/

/-- What `Ticket.findById(id).populate(eventId → organizerId).populate(attendeeId)`
resolves to: the stored document with its two reference paths populated. -/
structure PopulatedTicket where
  doc : Ticket
  eventId : Option PopulatedEvent
  attendeeId : Option User

/-- The first query of `buyTicket`: `Ticket.findById(ticketId)` with its
populates. -/
def findTicketPopulated (s : Store) (ticketId : ObjectId) : Option PopulatedTicket :=
  (Ticket.findById s.tickets ticketId).map (fun t =>
    { doc := t,
      eventId := populateEvent s t.eventId,
      attendeeId := t.attendeeId.bind (User.findById s.users) })

namespace Attendee

/-- The test `ticket.attendeeId && ticket.attendeeId.toString() === req.user.id`
of `buyTicket`, on the populated `attendeeId` path. -/
def alreadyPurchased (env : Env) (attendee : Option User) (user : User) : Bool :=
  match attendee with
  | none => false
  | some u => env.docToString u == user._id

/-- The part of `buyTicket` after its first `await`: `found` is what the first
query returned, `s` is the store the later `save` and re-read act on.
`ticket.save()` writes the three modified paths to the stored document with the
ticket's `_id`; when that document is gone the re-read returns `null` and the
handler ends in its `catch` block. -/
def buyTicketAfterRead (env : Env) (user : User) (found : Option PopulatedTicket)
    (s : Store) : Response × Store :=
  match found with
  | none => ({ status := 404, error := some "Ticket not found" }, s)
  | some ticket =>
    if !ticket.doc.isAvailable then
      ({ status := 400, error := some "Ticket is no longer available" }, s)
    else if alreadyPurchased env ticket.attendeeId user then
      ({ status := 400, error := some "You have already purchased this ticket" }, s)
    else
      let updated : Ticket :=
        { ticket.doc with attendeeId := some user._id, isAvailable := false }
      match generateQRData env updated ticket.eventId with
      | none => ({ status := 500, error := some "Server error while purchasing ticket" }, s)
      | some qrData =>
        match env.toDataURL qrData with
        | none =>
          ({ status := 500, error := some "Server error while purchasing ticket" }, s)
        | some image =>
          let s1 : Store :=
            { s with
              tickets := Mongo.updateOne (fun d => d._id == updated._id)
                (fun d => { d with attendeeId := some user._id, isAvailable := false,
                                   qrCode := some image }) s.tickets }
          match Ticket.findById s1.tickets updated._id with
          | none =>
            ({ status := 500, error := some "Server error while purchasing ticket" }, s1)
          | some updatedTicket =>
            match Event.findById s1.events updatedTicket.eventId with
            | none =>
              ({ status := 500, error := some "Server error while purchasing ticket" }, s1)
            | some _ =>
              ({ status := 200, message := some "Ticket purchased successfully",
                 ticket := some updatedTicket }, s1)

/-- The handler `buyTicket(req, res)`: `ticketId` is `req.params.ticketId` (`none` when it
does not cast to an object id), `user` is `req.user`. -/
def buyTicket (env : Env) (ticketId : Option ObjectId) (user : User) (s : Store) :
    Response × Store :=
  match ticketId with
  | none => ({ status := 400, error := some "Invalid ticket ID" }, s)
  | some tid => buyTicketAfterRead env user (findTicketPopulated s tid) s

/-- Purchase requests for one ticket by the given users, one after another:
the responses in order and the final store. -/
def buySequence (env : Env) (ticketId : ObjectId) : List User → Store → List Response × Store
  | [], s => ([], s)
  | u :: us, s =>
    let r := buyTicket env (some ticketId) u s
    let rest := buySequence env ticketId us r.2
    (r.1 :: rest.1, rest.2)

/-- Two `buyTicket` handlers for the same ticket interleaved at their first
`await`: both run their `findById` query before either continues. -/
def buyTicketRace (env : Env) (ticketId : ObjectId) (a b : User) (s : Store) :
    Response × Response × Store :=
  let foundA := findTicketPopulated s ticketId
  let foundB := findTicketPopulated s ticketId
  let ra := buyTicketAfterRead env a foundA s
  let rb := buyTicketAfterRead env b foundB ra.2
  (ra.1, rb.1, rb.2)

end Attendee

/-! ## Organizer controller -/

namespace Organizer

/-- The handler `createTicket(req, res)`: `eventId` is `req.params.eventId` (`none` when it
does not cast to an object id), `ticketType` is `req.body.ticketType` (`none`
when missing), `user` is `req.user`, `newId` and `now` are the `_id` and
`createdAt` that `Ticket.create` gives the new document.  `Ticket.create`
rejects a trimmed `ticketType` that is empty (schema `required`) and an `_id`
that is already stored (unique index); both end in the `catch` block. -/
def createTicket (env : Env) (eventId : Option ObjectId) (ticketType : Option String)
    (user : User) (newId : ObjectId) (now : Date) (s : Store) : Response × Store :=
  match ticketType with
  | none => ({ status := 400, error := some "Ticket type is required" }, s)
  | some ticketType =>
    if ticketType = "" then
      ({ status := 400, error := some "Ticket type is required" }, s)
    else
      match eventId with
      | none => ({ status := 400, error := some "Invalid event ID" }, s)
      | some eventId =>
        match Mongo.findOne (fun e => e._id == eventId && e.organizerId == user._id)
            s.events with
        | none => ({ status := 404, error := some "Event not found or unauthorized" }, s)
        | some event =>
          if JS.trim ticketType = "" || s.tickets.any (fun d => d._id == newId) then
            ({ status := 500, error := some "Server error while creating ticket" }, s)
          else
            let ticket : Ticket :=
              { _id := newId, eventId := eventId, ticketType := JS.trim ticketType,
                attendeeId := none, qrCode := none, isAvailable := true, createdAt := now }
            let s1 : Store := { s with tickets := s.tickets ++ [ticket] }
            match generateQRData env ticket (some (populateOrganizer s.users event)) with
            | none =>
              ({ status := 500, error := some "Server error while creating ticket" }, s1)
            | some qrData =>
              match env.toDataURL qrData with
              | none =>
                ({ status := 500, error := some "Server error while creating ticket" }, s1)
              | some qrCodeImage =>
                let s2 : Store :=
                  { s1 with
                    tickets := Mongo.updateOne (fun d => d._id == ticket._id)
                      (fun d => { d with qrCode := some qrCodeImage }) s1.tickets }
                match Ticket.findById s2.tickets ticket._id with
                | none =>
                  ({ status := 500, error := some "Server error while creating ticket" }, s2)
                | some populatedTicket =>
                  ({ status := 201, message := some "Ticket created successfully",
                     ticket := some { populatedTicket with qrCode := some qrCodeImage } }, s2)

/-- The handler `deleteEvent(req, res)` of the organizer controller: `id` is
`req.params.id`, `user` is `req.user`. -/
def deleteEvent (id : Option ObjectId) (user : User) (s : Store) : Response × Store :=
  match id with
  | none => ({ status := 400, error := some "Invalid event ID" }, s)
  | some id =>
    match Mongo.findOneAndDelete (fun e => e._id == id && e.organizerId == user._id)
        s.events with
    | (none, _) => ({ status := 404, error := some "Event not found or unauthorized" }, s)
    | (some _, events) =>
      let deleted := Mongo.deleteMany (fun t => t.eventId == id) s.tickets
      ({ status := 200, message := some "Event and associated tickets deleted successfully" },
       { s with events := events, tickets := deleted.2 })

end Organizer

/-! ## Admin controller -/

namespace Admin

/-- The handler `deleteTicket(req, res)`: `id` is `req.params.id`. -/
def deleteTicket (id : Option ObjectId) (s : Store) : Response × Store :=
  match id with
  | none => ({ status := 400, error := some "Invalid ticket ID" }, s)
  | some id =>
    match Mongo.findOneAndDelete (fun t => t._id == id) s.tickets with
    | (none, _) => ({ status := 404, error := some "Ticket not found" }, s)
    | (some _, tickets) =>
      ({ status := 200, message := some "Ticket deleted successfully" },
       { s with tickets := tickets })

/-- The handler `deleteEvent(req, res)` of the admin controller.  The message for the
admin reads `event.organizerId.name` after both deletions; with a `null`
organizer that read throws and the `catch` block answers 500. -/
def deleteEvent (id : Option ObjectId) (s : Store) : Response × Store :=
  match id with
  | none => ({ status := 400, error := some "Invalid event ID" }, s)
  | some id =>
    match Mongo.findOneAndDelete (fun e => e._id == id) s.events with
    | (none, _) => ({ status := 404, error := some "Event not found" }, s)
    | (some event, events) =>
      let deletedTickets := Mongo.deleteMany (fun t => t.eventId == id) s.tickets
      let s1 : Store := { s with events := events, tickets := deletedTickets.2 }
      match (populateOrganizer s.users event).organizerId with
      | none => ({ status := 500, error := some "Server error while deleting event" }, s1)
      | some _ =>
        ({ status := 200,
           message := some "Event and associated tickets deleted successfully",
           deletedTickets := some deletedTickets.1 }, s1)

/-- The handler `deleteAttendee(req, res)`: `id` is `req.params.id`. -/
def deleteAttendee (id : Option ObjectId) (s : Store) : Response × Store :=
  match id with
  | none => ({ status := 400, error := some "Invalid attendee ID" }, s)
  | some id =>
    match Mongo.findOneAndDelete (fun u => u._id == id && u.role == Role.attendee)
        s.users with
    | (none, _) => ({ status := 404, error := some "Attendee not found" }, s)
    | (some _, users) =>
      ({ status := 200,
         message := some
           "Attendee deleted successfully. Associated tickets made available again." },
       { s with
         users := users
         tickets := Mongo.updateMany (fun t => t.attendeeId == some id)
           (fun t => { t with attendeeId := none, isAvailable := true }) s.tickets })

/-- The handler `deleteOrganizer(req, res)`: `id` is `req.params.id`.  The statements run
in the order of the source: `Event.deleteMany` first, then the
`Event.find(..).distinct("_id")` that feeds `Ticket.deleteMany`. -/
def deleteOrganizer (id : Option ObjectId) (s : Store) : Response × Store :=
  match id with
  | none => ({ status := 400, error := some "Invalid organizer ID" }, s)
  | some id =>
    match Mongo.findOneAndDelete (fun u => u._id == id && u.role == Role.organizer)
        s.users with
    | (none, _) => ({ status := 404, error := some "Organizer not found" }, s)
    | (some _, users) =>
      let deletedEvents := Mongo.deleteMany (fun e => e.organizerId == id) s.events
      let eventIds : List ObjectId :=
        ((Mongo.find (fun e => e.organizerId == id) deletedEvents.2).map
          (fun e => e._id)).eraseDups
      let deletedTickets := Mongo.deleteMany (fun t => eventIds.contains t.eventId) s.tickets
      ({ status := 200,
         message := some
           "Organizer deleted successfully. Associated events and tickets removed.",
         deletedEvents := some deletedEvents.1,
         deletedTickets := some deletedTickets.1 },
       { users := users, events := deletedEvents.2, tickets := deletedTickets.2 })

end Admin

/-! ## Sequential executions -/

/-- One request to a controller that writes tickets. -/
inductive Op where
  | createTicket (eventId : Option ObjectId) (ticketType : Option String) (user : User)
      (newId : ObjectId) (now : Date)
  | buyTicket (ticketId : Option ObjectId) (user : User)
  | adminDeleteTicket (id : Option ObjectId)
  | organizerDeleteEvent (id : Option ObjectId) (user : User)
  | adminDeleteEvent (id : Option ObjectId)
  | deleteAttendee (id : Option ObjectId)
  | deleteOrganizer (id : Option ObjectId)

/-- Serve one request. -/
def step (env : Env) (op : Op) (s : Store) : Response × Store :=
  match op with
  | .createTicket eventId ticketType user newId now =>
    Organizer.createTicket env eventId ticketType user newId now s
  | .buyTicket ticketId user => Attendee.buyTicket env ticketId user s
  | .adminDeleteTicket id => Admin.deleteTicket id s
  | .organizerDeleteEvent id user => Organizer.deleteEvent id user s
  | .adminDeleteEvent id => Admin.deleteEvent id s
  | .deleteAttendee id => Admin.deleteAttendee id s
  | .deleteOrganizer id => Admin.deleteOrganizer id s

/-- Serve the requests one at a time, keeping the store. -/
def run (env : Env) (ops : List Op) (s : Store) : Store :=
  ops.foldl (fun st op => (step env op st).2) s

/-- The state invariant of a ticket: available exactly when no attendee is
bound. -/
def Ticket.Consistent (t : Ticket) : Prop :=
  t.isAvailable = t.attendeeId.isNone

/-- Whether a request is `deleteAttendee` for the account `a`. -/
def Op.deletesAttendee (a : ObjectId) : Op → Bool
  | .deleteAttendee (some id) => id == a
  | _ => false

/-- Whether a request is a `createTicket` whose new document gets the id
`tid`. -/
def Op.createsId (tid : ObjectId) : Op → Bool
  | .createTicket _ _ _ newId _ => newId == tid
  | _ => false

/-! ## Event handlers of the organizer controller -/

/-- The `price` key of a request body: absent, a JSON number, or a JSON string
(what the HTML form of the frontend sends).  Other JSON values are not
covered. -/
inductive BodyPrice where
  | undefined
  | number (n : Rat)
  | text (s : String)
  deriving DecidableEq

/-- The body of a `createEvent` or `updateEvent` request: the five keys the
handlers read (`none` when the key is absent), and an `organizerId` key that a
client may send and that the handlers never read. -/
structure EventBody where
  name : Option String
  description : Option String
  genre : Option String
  category : Option String
  price : BodyPrice
  organizerId : Option String := none
  deriving DecidableEq

/-- JavaScript conversions of a string to a number; `none` is `NaN`.  The
model covers strings whose conversion is finite or `NaN`. -/
structure Coercion where
  /-- The conversion `ToNumber` that `price < 0` applies to a string. -/
  toNumber : String → Option Rat
  /-- The function `parseFloat` on a string. -/
  parseFloat : String → Option Rat

/-- The test `price < 0` of the handlers: `undefined` and `NaN` compare
false. -/
def BodyPrice.isNegative (co : Coercion) : BodyPrice → Bool
  | .undefined => false
  | .number n => decide (n < 0)
  | .text s =>
    match co.toNumber s with
    | none => false
    | some q => decide (q < 0)

/-- The value `parseFloat(price)`; `none` is `NaN`.  A finite number prints
and parses back to itself. -/
def BodyPrice.parse (co : Coercion) : BodyPrice → Option Rat
  | .undefined => none
  | .number n => some n
  | .text s => co.parseFloat s

/-- The value of a body key when it is truthy: an absent key and the empty
string are falsy. -/
def JS.ifTruthy (v : Option String) : Option String :=
  match v with
  | none => none
  | some s => if s = "" then none else some s

/-- The JSON body and status of a response that carries an event. -/
structure EventResponse where
  status : Nat
  error : Option String := none
  message : Option String := none
  event : Option Event := none
  deriving DecidableEq

/-- The `updates` object that `updateEvent` builds. -/
structure EventUpdates where
  name : Option String
  description : Option String
  genre : Option String
  category : Option String
  price : Option Rat
  deriving DecidableEq

/-- The effect of `$set`-ting the `updates` object on an event document. -/
def EventUpdates.apply (u : EventUpdates) (e : Event) : Event :=
  { e with
    name := u.name.getD e.name
    description := u.description.getD e.description
    genre := u.genre.getD e.genre
    category := u.category.getD e.category
    price := u.price.getD e.price }

/-- The update validators of `EventSchema` (`runValidators: true`): a text
path that is set must be non-empty (`required`), a price that is set must be
at least 0 (`min: 0`). -/
def EventUpdates.valid (u : EventUpdates) : Bool :=
  u.name != some "" && u.description != some "" && u.genre != some "" &&
  u.category != some "" &&
  (match u.price with
   | none => true
   | some p => decide (0 ≤ p))

namespace Organizer

/-- The handler `createEvent(req, res)`: `body` is `req.body`, `user` is
`req.user`, `newId` and `now` are the `_id` and `createdAt` that `Event.create`
gives the new document.  `Event.create` rejects a price that is `NaN` (cast),
a trimmed text that is empty (schema `required`), a price below 0 (schema
`min: 0`) and an `_id` that is already stored; all end in the `catch` block. -/
def createEvent (co : Coercion) (body : EventBody) (user : User) (newId : ObjectId)
    (now : Date) (s : Store) : EventResponse × Store :=
  match JS.ifTruthy body.name, JS.ifTruthy body.description, JS.ifTruthy body.genre,
      JS.ifTruthy body.category with
  | some name, some description, some genre, some category =>
    if body.price = BodyPrice.undefined then
      ({ status := 400,
         error := some "Name, description, genre, category, and price are required" }, s)
    else if body.price.isNegative co then
      ({ status := 400, error := some "Price cannot be negative" }, s)
    else
      match body.price.parse co with
      | none => ({ status := 500, error := some "Server error while creating event" }, s)
      | some price =>
        if JS.trim name = "" || JS.trim description = "" || JS.trim genre = "" ||
            JS.trim category = "" || decide (price < 0) ||
            s.events.any (fun d => d._id == newId) then
          ({ status := 500, error := some "Server error while creating event" }, s)
        else
          let event : Event :=
            { _id := newId, name := JS.trim name, description := JS.trim description,
              genre := JS.trim genre, category := JS.trim category, price := price,
              organizerId := user._id, createdAt := now }
          let s1 : Store := { s with events := s.events ++ [event] }
          ({ status := 201, message := some "Event created successfully",
             event := Event.findById s1.events event._id }, s1)
  | _, _, _, _ =>
    ({ status := 400,
       error := some "Name, description, genre, category, and price are required" }, s)

/-- The `updates` object that `updateEvent` builds from the body: a truthy
text key is trimmed and set, a price key that is present is parsed and set. -/
def updatesOf (co : Coercion) (body : EventBody) : EventUpdates :=
  { name := (JS.ifTruthy body.name).map JS.trim
    description := (JS.ifTruthy body.description).map JS.trim
    genre := (JS.ifTruthy body.genre).map JS.trim
    category := (JS.ifTruthy body.category).map JS.trim
    price := body.price.parse co }

/-- The handler `updateEvent(req, res)`: `id` is `req.params.id` (`none` when
it does not cast to an object id), `body` is `req.body`, `user` is `req.user`.
`findOneAndUpdate` casts the filter, casts the update (a `NaN` price fails)
and runs the update validators before it queries; their errors end in the
`catch` block. -/
def updateEvent (co : Coercion) (id : Option ObjectId) (body : EventBody) (user : User)
    (s : Store) : EventResponse × Store :=
  if body.price != BodyPrice.undefined && body.price.isNegative co then
    ({ status := 400, error := some "Price cannot be negative" }, s)
  else
    match id with
    | none => ({ status := 400, error := some "Invalid event ID" }, s)
    | some id =>
      if body.price != BodyPrice.undefined && (body.price.parse co).isNone then
        ({ status := 500, error := some "Server error while updating event" }, s)
      else
        let updates := updatesOf co body
        if !updates.valid then
          ({ status := 500, error := some "Server error while updating event" }, s)
        else
          match Mongo.findOne (fun e => e._id == id && e.organizerId == user._id)
              s.events with
          | none => ({ status := 404, error := some "Event not found or unauthorized" }, s)
          | some event =>
            ({ status := 200, message := some "Event updated successfully",
               event := some (updates.apply event) },
             { s with
               events := Mongo.updateOne
                 (fun e => e._id == id && e.organizerId == user._id) updates.apply
                 s.events })

end Organizer

/-- One request to an event-writing handler of the organizer controller. -/
inductive EventOp where
  | createEvent (body : EventBody) (user : User) (newId : ObjectId) (now : Date)
  | updateEvent (id : Option ObjectId) (body : EventBody) (user : User)

/-- Serve one event request. -/
def stepEvent (co : Coercion) (op : EventOp) (s : Store) : EventResponse × Store :=
  match op with
  | .createEvent body user newId now => Organizer.createEvent co body user newId now s
  | .updateEvent id body user => Organizer.updateEvent co id body user s

/-- Serve the event requests one at a time, keeping the store. -/
def runEvents (co : Coercion) (ops : List EventOp) (s : Store) : Store :=
  ops.foldl (fun st op => (stepEvent co op st).2) s

/-! ## Notification service (`Backend/services/nodemailer.js`) -/

/-- The `mailOptions` object of `sendEmail` (`sender` is its `from` key,
`recipient` its `to` key).  The attachment content is cut out of the QR data
URI; the model hands the transport the data URI itself. -/
structure MailOptions where
  sender : String
  recipient : String
  subject : String
  text : String
  qrCode : Option String
  deriving DecidableEq, Repr

/-- The mail transport: `sendMail` answers with `info.response` or rejects
with an error; `emailUser` is `process.env.EMAIL_USER`. -/
structure Mailer where
  emailUser : Option String
  sendMail : MailOptions → Except String String

/-- The function `sendEmail(to, subject, text, qrCodeBase64)`: its whole body
is a `try` whose `catch` logs the error.  The result is how the call
completes: `Except.ok` with the lines written to the console when it returns,
`Except.error` when it throws. -/
def sendEmail (m : Mailer) (toAddress subject text : String)
    (qrCodeBase64 : Option String) :
    Except String (List String) :=
  let mailOptions : MailOptions :=
    { sender := (JS.ifTruthy m.emailUser).getD "kunlexlatest@gmail.com"
      recipient := toAddress, subject := subject, text := text
      qrCode := JS.ifTruthy qrCodeBase64 }
  match m.sendMail mailOptions with
  | .ok response => .ok ["Email sent: " ++ response]
  | .error error => .ok ["Error sending email: " ++ error]

namespace Attendee

/-- The text `ticketMessage` of the purchase confirmation; `today` is
`new Date().toLocaleDateString()`. -/
def ticketMessage (env : Env) (today : String) (user : User) (ticket : Ticket)
    (event : Event) : String :=
  "Dear " ++ user.name ++ ",\n\n" ++
  "Congratulations! You have successfully purchased a ticket.\n\n" ++
  "Ticket Details:\n" ++
  "- Event: " ++ event.name ++ "\n" ++
  "- Ticket Type: " ++ ticket.ticketType ++ "\n" ++
  "- Genre: " ++ event.genre ++ "\n" ++
  "- Price: $" ++ env.numberToString event.price ++ "\n" ++
  "- Purchase Date: " ++ today ++ "\n\n" ++
  "Event Details:\n" ++
  "- Description: " ++ event.description ++ "\n\n" ++
  "Your QR Code Ticket:\n" ++
  "Please find your QR code attached to this email. " ++
  "You can also scan it from your dashboard.\n\n" ++
  "Best regards,\nEventHub Team\nDeveloper: kunlexlatest@gmail.com"

/-- The handler `buyTicket` with the `await sendEmail(..)` of its success path
made explicit: the call sits inside the handler's `try`, after the re-read of
the saved ticket and before `res.json`, so an error thrown by it would be
answered by the `catch` block.  The result is the response, the store, and the
console lines of `sendEmail`. -/
def buyTicketWithMail (env : Env) (m : Mailer) (today : String)
    (ticketId : Option ObjectId) (user : User) (s : Store) :
    (Response × Store) × List String :=
  let r := buyTicket env ticketId user s
  if r.1.status = 200 then
    match r.1.ticket with
    | none => (r, [])
    | some updatedTicket =>
      match Event.findById r.2.events updatedTicket.eventId with
      | none => (r, [])
      | some event =>
        match sendEmail m user.email "EventHub - Ticket Purchase Confirmation"
            (ticketMessage env today user updatedTicket event) updatedTicket.qrCode with
        | .ok log => (r, log)
        | .error _ =>
          (({ status := 500, error := some "Server error while purchasing ticket" }, r.2),
           [])
  else (r, [])

end Attendee

/-! ## Admin account deletion -/

namespace Admin

/-- The handler `deleteAdmin(req, res)`: `id` is `req.params.id`, `user` is
`req.user`.  The statements run in the order of the source:
`User.findOneAndDelete` first, then the comparison of the deleted account with
the requester. -/
def deleteAdmin (id : Option ObjectId) (user : User) (s : Store) : Response × Store :=
  match id with
  | none => ({ status := 400, error := some "Invalid admin ID" }, s)
  | some id =>
    match Mongo.findOneAndDelete (fun u => u._id == id && u.role == Role.admin)
        s.users with
    | (none, _) => ({ status := 404, error := some "Admin not found" }, s)
    | (some deleted, users) =>
      if deleted._id == user._id then
        ({ status := 400, error := some "You cannot delete your own admin account" },
         { s with users := users })
      else
        ({ status := 200, message := some "Admin deleted successfully" },
         { s with users := users })

end Admin

/-! ## Lines of a text -/

namespace JS

/-- The line feed character. -/
def newline : Char := Char.ofNat 10

/-- The pieces of a character list between its line feeds. -/
def splitOnNewline : List Char → List (List Char)
  | [] => [[]]
  | ch :: cs =>
    if ch = newline then [] :: splitOnNewline cs
    else
      match splitOnNewline cs with
      | [] => [[ch]]
      | l :: ls => (ch :: l) :: ls

/-- The white space that the template literal of `generateQRData` puts before
each interpolated line and before its closing quote: a line feed and six
spaces. -/
def indent : List Char := "\n      ".data

/-- The characters of the template literal of `generateQRData` around the
given interpolated lines. -/
def templateChars : List (List Char) → List Char
  | [] => indent
  | l :: ls => indent ++ l ++ templateChars ls

/-- The given lines joined by `indent`. -/
def joinLines : List (List Char) → List Char
  | [] => []
  | [l] => l
  | l :: m :: ls => l ++ indent ++ joinLines (m :: ls)

/-- The lines of a text: JavaScript `text.split("\n")`. -/
def lines (s : String) : List String := (splitOnNewline s.data).map String.mk

/-- A value that is non-empty, does not end with white space and contains no
line feed. -/
def endsClean (v : String) : Bool :=
  match v.data.getLast? with
  | none => false
  | some b => !isWhiteSpace b && v.data.all (fun ch => ch != newline)

/-- A value that is non-empty, carries no leading or trailing white space and
contains no line feed. -/
def isClean (v : String) : Bool :=
  match v.data.head? with
  | none => false
  | some a => !isWhiteSpace a && endsClean v

end JS

/-- Whether a text starts with a character that is not white space. -/
def JS.startsTight (l : List Char) : Bool :=
  match l.head? with
  | none => false
  | some a => !JS.isWhiteSpace a

/-- Whether a text ends with a character that is not white space. -/
def JS.endsTight (l : List Char) : Bool :=
  match l.getLast? with
  | none => false
  | some b => !JS.isWhiteSpace b

/-! ## Capacity of a QR code -/

/-- The characters of the alphanumeric mode of a QR code: the digits, the
upper-case letters, the space and the signs dollar, percent, asterisk, plus,
minus, full stop, slash and colon.  Every other character is encoded in byte
mode, one byte or more each. -/
def QR.isAlphanumeric (c : Char) : Bool :=
  let n := c.toNat
  (48 ≤ n && n ≤ 57) || (65 ≤ n && n ≤ 90) || n == 32 || n == 36 || n == 37 ||
  n == 42 || n == 43 || n == 45 || n == 46 || n == 47 || n == 58

/-- The number of characters of a text that only byte mode can encode. -/
def QR.byteModeCount (text : String) : Nat :=
  text.data.countP (fun c => !QR.isAlphanumeric c)

/-! ## Sample data -/

/-- An environment for the examples: the renderer wraps the payload text in a
data URI, dates and prices print as fixed texts, and a populated user prints
as a bracketed name. -/
def sampleEnv : Env :=
  { toDataURL := fun text => some ("data:image/png;base64," ++ text)
    toLocaleString := fun _ => "1/1/2025, 12:00:00 AM"
    numberToString := fun _ => "25"
    docToString := fun u => "[user " ++ u.name ++ "]" }

/-- An organizer account. -/
def ann : User :=
  { _id := "65a000000000000000000a01", name := "Ann", email := "ann@example.com",
    password := "x", role := Role.organizer }

/-- An attendee account. -/
def bob : User :=
  { _id := "65a000000000000000000b01", name := "Bob", email := "bob@example.com",
    password := "x", role := Role.attendee }

/-- A second attendee account. -/
def cara : User :=
  { _id := "65a000000000000000000c01", name := "Cara", email := "cara@example.com",
    password := "x", role := Role.attendee }

/-- An event of `ann`. -/
def gala : Event :=
  { _id := "65a000000000000000000e01", name := "Gala", description := "Annual gala",
    genre := "Music", category := "Concert", price := 25,
    organizerId := "65a000000000000000000a01", createdAt := 1735689600000 }

/-- Three accounts, one event, no ticket. -/
def emptyTicketStore : Store :=
  { users := [ann, bob, cara], events := [gala], tickets := [] }

/-- A "VIP" ticket for `gala`, as `createTicket` stores it. -/
def vip : Ticket :=
  { _id := "65a000000000000000000f01", eventId := "65a000000000000000000e01",
    ticketType := "VIP", attendeeId := none,
    qrCode := some ("data:image/png;base64," ++
      "Ticket ID      : 65a000000000000000000f01\n      Ticket Type    : VIP\n" ++
      "      Event Name     : Gala\n      Event Genre    : Music\n" ++
      "      Event Price    : $25\n      Organizer Name : Ann\n" ++
      "      Organizer Email: ann@example.com\n      Created At     : 1/1/2025, 12:00:00 AM"),
    isAvailable := true, createdAt := 1735689600000 }

/-- The store after `ann` has issued the ticket `vip` for `gala`. -/
def sampleStore : Store :=
  (Organizer.createTicket sampleEnv (some gala._id) (some "VIP") ann vip._id vip.createdAt
    emptyTicketStore).2

/-- The ticket `vip` sold to `bob`. -/
def vipSold : Ticket :=
  { vip with attendeeId := some bob._id, isAvailable := false }

/-- The sample store after `bob` has bought `vip`. -/
def soldStore : Store :=
  { users := [ann, bob, cara], events := [gala], tickets := [vipSold] }

/-- A second organizer account, owning no event. -/
def dan : User :=
  { _id := "65a000000000000000000d01", name := "Dan", email := "dan@example.com",
    password := "x", role := Role.organizer }

/-- The sample store with the organizer `dan` added. -/
def twoOrganizerStore : Store :=
  { sampleStore with users := [ann, bob, cara, dan] }

/-- Conversions for the examples: the strings "0", "25" and "-5" read as
numbers, every other string is `NaN`. -/
def sampleCoercion : Coercion :=
  { toNumber := fun s =>
      if s = "0" then some 0 else if s = "25" then some 25
      else if s = "-5" then some (-5) else none
    parseFloat := fun s =>
      if s = "0" then some 0 else if s = "25" then some 25
      else if s = "-5" then some (-5) else none }

/-- A transport that delivers every mail. -/
def workingMailer : Mailer :=
  { emailUser := some "hub@example.com", sendMail := fun _ => .ok "250 OK" }

/-- A transport that rejects every mail. -/
def brokenMailer : Mailer :=
  { emailUser := none, sendMail := fun _ => .error "ECONNREFUSED" }

/-- A complete body for a free event. -/
def freeEventBody : EventBody :=
  { name := some "Open day", description := some "Visit us", genre := some "Fair",
    category := some "Public", price := BodyPrice.number 0 }

/-- A body that only sets the price to 0. -/
def zeroPriceBody : EventBody :=
  { name := none, description := none, genre := none, category := none,
    price := BodyPrice.number 0 }

/-- A body that carries a negative price and no name. -/
def negativePriceBody : EventBody :=
  { name := none, description := some "Visit us", genre := some "Fair",
    category := some "Public", price := BodyPrice.number (-5) }

/-- Four accounts, no event, no ticket. -/
def noEventStore : Store :=
  { users := [ann, bob, cara, dan], events := [], tickets := [] }

/-- A complete body with a negative price. -/
def negativeFullBody : EventBody :=
  { freeEventBody with price := BodyPrice.text "-5" }

/-- A body that renames an event and also carries an `organizerId` key. -/
def renameBody : EventBody :=
  { name := some " Gala night ", description := none, genre := none, category := none,
    price := BodyPrice.undefined, organizerId := some "65a000000000000000000d01" }

/-- An admin account. -/
def eve : User :=
  { _id := "65a000000000000000000ad1", name := "Eve", email := "eve@example.com",
    password := "x", role := Role.admin }

/-- The sample store with the admin `eve` added. -/
def adminStore : Store :=
  { sampleStore with users := [ann, bob, cara, eve] }

/-- The sample environment with a renderer of limited capacity.  The largest
QR code at error-correction level M, the default of `QRCode.toDataURL`, holds
2331 bytes in byte mode, and a character outside the alphanumeric set takes at
least one byte whatever the segmentation: a text with more than 2331 such
characters is refused.  Upper-case letters and digits are packed more densely
and do not count. -/
def limitedEnv : Env :=
  { sampleEnv with
    toDataURL := fun text =>
      if QR.byteModeCount text ≤ 2331 then some ("data:image/png;base64," ++ text)
      else none }

/-- A ticket type of 2400 lower-case letters "a". -/
def longTicketType : String := String.mk (List.replicate 2400 (Char.ofNat 97))

/-- The populated form of `gala` in the sample store. -/
def galaPopulated : PopulatedEvent :=
  { name := "Gala", genre := "Music", price := 25,
    organizerId := some { name := some "Ann", email := some "ann@example.com" } }

/-! ## Lemmas on collections -/

/-- With unique ids, looking a stored ticket up by its id finds that ticket. -/
theorem Ticket.findById_of_mem {c : List Ticket} {t : Ticket}
    (hnodup : (c.map (fun d => d._id)).Nodup) (ht : t ∈ c) :
    Ticket.findById c t._id = some t := by
  induction c with
  | nil => simp at ht
  | cons d c ih =>
    simp only [List.map_cons, List.nodup_cons] at hnodup
    rcases List.mem_cons.mp ht with h | h
    · subst h
      simp [Ticket.findById, Mongo.findOne]
    · have hne : d._id ≠ t._id := by
        intro heq
        exact hnodup.1 (heq ▸ List.mem_map_of_mem (fun d => d._id) h)
      have hih := ih hnodup.2 h
      simp only [Ticket.findById, Mongo.findOne] at hih ⊢
      simp [List.find?_cons, hne, hih]

/-- After `updateOne`, a lookup with the same filter finds the updated
document, provided the update keeps the document inside the filter. -/
theorem Mongo.find?_updateOne {α : Type} (p : α → Bool) (f : α → α)
    (hf : ∀ d, p d = true → p (f d) = true) (c : List α) :
    (Mongo.updateOne p f c).find? p = (c.find? p).map f := by
  induction c with
  | nil => simp [Mongo.updateOne]
  | cons d c ih =>
    by_cases h : p d = true
    · simp [Mongo.updateOne, h, hf d h]
    · simp [Mongo.updateOne, h, ih]

/-- A document of the collection after `updateOne` is an old document or the
update of an old document that matched the filter. -/
theorem Mongo.mem_updateOne {α : Type} (p : α → Bool) (f : α → α) (c : List α) (x : α)
    (hx : x ∈ Mongo.updateOne p f c) : x ∈ c ∨ ∃ d ∈ c, p d = true ∧ x = f d := by
  induction c with
  | nil => simp [Mongo.updateOne] at hx
  | cons d c ih =>
    by_cases h : p d = true
    · simp only [Mongo.updateOne, h, if_true, List.mem_cons] at hx
      rcases hx with hx | hx
      · exact Or.inr ⟨d, List.mem_cons_self _ _, h, hx⟩
      · exact Or.inl (List.mem_cons_of_mem _ hx)
    · simp only [Mongo.updateOne, h, Bool.false_eq_true, if_false, List.mem_cons] at hx
      rcases hx with hx | hx
      · exact Or.inl (hx ▸ List.mem_cons_self _ _)
      · rcases ih hx with h1 | ⟨e, he, hpe, hxe⟩
        · exact Or.inl (List.mem_cons_of_mem _ h1)
        · exact Or.inr ⟨e, List.mem_cons_of_mem _ he, hpe, hxe⟩

/-! ## Purchase -/

namespace Attendee

/-- The payload generator fails only on a missing event or organizer. -/
theorem generateQRData_isSome_iff (env : Env) (t : Ticket) (ev : Option PopulatedEvent) :
    (generateQRData env t ev).isSome = true ↔
      ∃ e org, ev = some e ∧ e.organizerId = some org := by
  unfold generateQRData
  cases ev with
  | none => simp
  | some e =>
    cases horg : e.organizerId with
    | none => simp [horg]
    | some org => simp [horg]

/-- A purchase of a sold ticket is refused and writes nothing. -/
theorem buyTicket_of_sold (env : Env) (s : Store) (tid : ObjectId) (t : Ticket) (a : User)
    (hfind : Ticket.findById s.tickets tid = some t) (hsold : t.isAvailable = false) :
    buyTicket env (some tid) a s =
      ({ status := 400, error := some "Ticket is no longer available" }, s) := by
  simp [buyTicket, buyTicketAfterRead, findTicketPopulated, hfind, hsold]

/-- After the write of a purchase, the lookup by id gives the found ticket
bound to the buyer. -/
theorem findById_updateOne_sold (c : List Ticket) (tid buyer : ObjectId) (image : String)
    (t : Ticket) (hfind : Ticket.findById c tid = some t) :
    Ticket.findById (Mongo.updateOne (fun d => d._id == tid)
      (fun d => { d with attendeeId := some buyer, isAvailable := false,
                         qrCode := some image }) c) tid =
      some { t with attendeeId := some buyer, isAvailable := false,
                    qrCode := some image } := by
  have h := Mongo.find?_updateOne (fun d : Ticket => d._id == tid)
    (fun d => { d with attendeeId := some buyer, isAvailable := false,
                       qrCode := some image }) (fun d hd => by simpa using hd) c
  simp only [Ticket.findById, Mongo.findOne] at hfind ⊢
  rw [h, hfind]
  rfl

/-- The successful path of `buyTicket`, computed. -/
theorem buyTicket_eq_ok (env : Env) (s : Store) (tid : ObjectId) (a : User) (t : Ticket)
    (text image : String)
    (hfind : Ticket.findById s.tickets tid = some t) (havail : t.isAvailable = true)
    (hdup : alreadyPurchased env (t.attendeeId.bind (User.findById s.users)) a = false)
    (htext : generateQRData env { t with attendeeId := some a._id, isAvailable := false }
      (populateEvent s t.eventId) = some text)
    (himage : env.toDataURL text = some image) :
    buyTicket env (some tid) a s =
      ({ status := 200, message := some "Ticket purchased successfully",
         ticket := some { t with attendeeId := some a._id, isAvailable := false,
                                 qrCode := some image } },
       { s with
         tickets := Mongo.updateOne (fun d => d._id == tid)
           (fun d => { d with attendeeId := some a._id, isAvailable := false,
                              qrCode := some image }) s.tickets }) := by
  have hid : t._id = tid := by
    have := List.find?_some hfind
    simpa using this
  have hfu := findById_updateOne_sold s.tickets tid a._id image t hfind
  obtain ⟨e, org, he, -⟩ := (generateQRData_isSome_iff env _ _).mp (by rw [htext]; rfl)
  obtain ⟨ev, hev, -⟩ : ∃ ev, Event.findById s.events t.eventId = some ev ∧ True := by
    unfold populateEvent at he
    cases h : Event.findById s.events t.eventId with
    | none => simp [h] at he
    | some ev => exact ⟨ev, rfl, trivial⟩
  subst hid
  simp [buyTicket, buyTicketAfterRead, findTicketPopulated, hfind, havail, hdup, htext,
    himage, hfu, hev]

/-- What a successful purchase found and what it left: the ticket was stored
and available, and afterwards the lookup by its id gives a ticket bound to the
buyer, no longer available, with the image of the payload text. -/
theorem buyTicket_ok_inv (env : Env) (s : Store) (tid : ObjectId) (a : User)
    (hok : (buyTicket env (some tid) a s).1.status = 200) :
    ∃ t text image,
      Ticket.findById s.tickets tid = some t ∧ t.isAvailable = true ∧
      alreadyPurchased env (t.attendeeId.bind (User.findById s.users)) a = false ∧
      generateQRData env { t with attendeeId := some a._id, isAvailable := false }
        (populateEvent s t.eventId) = some text ∧
      env.toDataURL text = some image := by
  cases hfind : Ticket.findById s.tickets tid with
  | none => simp [buyTicket, findTicketPopulated, hfind, buyTicketAfterRead] at hok
  | some t =>
    cases havail : t.isAvailable with
    | false => simp [buyTicket_of_sold env s tid t a hfind havail] at hok
    | true =>
      cases hdup : alreadyPurchased env (t.attendeeId.bind (User.findById s.users)) a with
      | true =>
        simp [buyTicket, findTicketPopulated, hfind, buyTicketAfterRead, havail, hdup] at hok
      | false =>
        cases htext : generateQRData env
            { t with attendeeId := some a._id, isAvailable := false }
            (populateEvent s t.eventId) with
        | none =>
          simp [buyTicket, findTicketPopulated, hfind, buyTicketAfterRead, havail, hdup,
            htext] at hok
        | some text =>
          cases himage : env.toDataURL text with
          | none =>
            simp [buyTicket, findTicketPopulated, hfind, buyTicketAfterRead, havail, hdup,
              htext, himage] at hok
          | some image => exact ⟨t, text, image, rfl, havail, hdup, htext, himage⟩

/-- A successful purchase leaves the ticket bound to the buyer. -/
theorem buyTicket_ok_sold (env : Env) (s : Store) (tid : ObjectId) (a : User)
    (hok : (buyTicket env (some tid) a s).1.status = 200) :
    ∃ t, Ticket.findById (buyTicket env (some tid) a s).2.tickets tid = some t ∧
      t.attendeeId = some a._id ∧ t.isAvailable = false := by
  obtain ⟨t, text, image, hfind, havail, hdup, htext, himage⟩ :=
    buyTicket_ok_inv env s tid a hok
  rw [buyTicket_eq_ok env s tid a t text image hfind havail hdup htext himage]
  exact ⟨_, findById_updateOne_sold s.tickets tid a._id image t hfind, rfl, rfl⟩

/-- Once the ticket is sold, every further purchase request in a sequence is
refused and the store stays as it is. -/
theorem buySequence_of_sold (env : Env) (tid : ObjectId) (us : List User) (s : Store)
    (t : Ticket) (hfind : Ticket.findById s.tickets tid = some t)
    (hsold : t.isAvailable = false) :
    buySequence env tid us s =
      (List.replicate us.length
        { status := 400, error := some "Ticket is no longer available" }, s) := by
  induction us with
  | nil => rfl
  | cons u us ih =>
    simp [buySequence, buyTicket_of_sold env s tid t u hfind hsold, ih, List.replicate_succ]

/-- C1. Purchase postcondition: for a stored ticket that is available and
unbound, whose event and organizer exist, with a renderer that succeeds on the
payload text of this purchase (it may fail on other texts), `buyTicket`
answers 200 and the stored ticket is then bound to the buyer and no longer
available (its other fields but `qrCode` are as before). -/
theorem buyTicket_purchase_postcondition (env : Env) (s : Store) (t : Ticket) (e : Event)
    (o a : User)
    (hnodup : (s.tickets.map (fun d => d._id)).Nodup) (ht : t ∈ s.tickets)
    (havail : t.isAvailable = true) (hatt : t.attendeeId = none)
    (he : Event.findById s.events t.eventId = some e)
    (ho : User.findById s.users e.organizerId = some o)
    (hqr : ∀ text,
      generateQRData env { t with attendeeId := some a._id, isAvailable := false }
        (populateEvent s t.eventId) = some text →
      (env.toDataURL text).isSome = true) :
    (buyTicket env (some t._id) a s).1.status = 200 ∧
    ∃ image sold,
      sold = { t with attendeeId := some a._id, isAvailable := false,
                      qrCode := some image } ∧
      Ticket.findById (buyTicket env (some t._id) a s).2.tickets t._id = some sold ∧
      sold ∈ (buyTicket env (some t._id) a s).2.tickets ∧
      (buyTicket env (some t._id) a s).1.ticket = some sold ∧
      sold.attendeeId = some a._id ∧ sold.isAvailable = false := by
  have hfind := Ticket.findById_of_mem hnodup ht
  have hdup : alreadyPurchased env (t.attendeeId.bind (User.findById s.users)) a = false := by
    simp [hatt, alreadyPurchased]
  have hsome : (generateQRData env { t with attendeeId := some a._id, isAvailable := false }
      (populateEvent s t.eventId)).isSome = true := by
    rw [generateQRData_isSome_iff]
    exact ⟨populateOrganizer s.users e, { name := some o.name, email := some o.email },
      by simp [populateEvent, he], by simp [populateOrganizer, ho]⟩
  obtain ⟨text, htext⟩ := Option.isSome_iff_exists.mp hsome
  obtain ⟨image, himage⟩ := Option.isSome_iff_exists.mp (hqr text htext)
  rw [buyTicket_eq_ok env s t._id a t text image hfind havail hdup htext himage]
  have hfu := findById_updateOne_sold s.tickets t._id a._id image t hfind
  refine ⟨rfl, image, _, rfl, hfu, ?_, rfl, rfl, rfl⟩
  exact List.mem_of_find?_eq_some hfu

/-- C2. Double-sale guard: a purchase request for a stored ticket that is not
available is answered 400 "Ticket is no longer available" and the store is
left as it was. -/
theorem buyTicket_double_sale_guard (env : Env) (s : Store) (t : Ticket) (a : User)
    (hnodup : (s.tickets.map (fun d => d._id)).Nodup) (ht : t ∈ s.tickets)
    (hsold : t.isAvailable = false) :
    buyTicket env (some t._id) a s =
      ({ status := 400, error := some "Ticket is no longer available" }, s) ∧
    Ticket.findById (buyTicket env (some t._id) a s).2.tickets t._id = some t :=
  have hfind := Ticket.findById_of_mem hnodup ht
  have heq := buyTicket_of_sold env s t._id t a hfind hsold
  ⟨heq, by rw [heq]; exact hfind⟩

/-- C3. No double sale, sequentially: in a sequence of purchase requests for
one ticket served one after another, at most one is answered 200; every
request after a successful one is answered 400 "Ticket is no longer
available", and at the end the ticket is bound to the successful buyer. -/
theorem buySequence_no_double_sale (env : Env) (tid : ObjectId) (us : List User)
    (s : Store) :
    (buySequence env tid us s).1.length = us.length ∧
    (buySequence env tid us s).1.countP (fun r => r.status == 200) ≤ 1 ∧
    ∀ (i : Nat) (ri : Response),
      (buySequence env tid us s).1[i]? = some ri → ri.status = 200 →
      (∀ (j : Nat) (rj : Response), i < j → (buySequence env tid us s).1[j]? = some rj →
        rj = { status := 400, error := some "Ticket is no longer available" }) ∧
      ∃ (ui : User) (t : Ticket), us[i]? = some ui ∧
        Ticket.findById (buySequence env tid us s).2.tickets tid = some t ∧
        t.attendeeId = some ui._id ∧ t.isAvailable = false := by
  induction us generalizing s with
  | nil => simp [buySequence]
  | cons u us ih =>
    have hunf : buySequence env tid (u :: us) s =
        ((buyTicket env (some tid) u s).1 ::
          (buySequence env tid us (buyTicket env (some tid) u s).2).1,
         (buySequence env tid us (buyTicket env (some tid) u s).2).2) := rfl
    by_cases hok : (buyTicket env (some tid) u s).1.status = 200
    · obtain ⟨t, hf, hatt, hav⟩ := buyTicket_ok_sold env s tid u hok
      have hrest := buySequence_of_sold env tid us _ t hf hav
      rw [hunf, hrest]
      refine ⟨by simp, ?_, ?_⟩
      · simp [List.countP_cons, List.countP_replicate, hok]
      · intro i ri hi hri
        cases i with
        | zero =>
          refine ⟨?_, u, t, by simp, hf, hatt, hav⟩
          intro j rj hij hj
          cases j with
          | zero => omega
          | succ j =>
            simp only [List.getElem?_cons_succ] at hj
            rw [List.getElem?_replicate] at hj
            split at hj
            · exact (Option.some.inj hj).symm
            · simp at hj
        | succ i =>
          simp only [List.getElem?_cons_succ] at hi
          rw [List.getElem?_replicate] at hi
          split at hi
          · have := (Option.some.inj hi).symm
            subst this
            simp at hri
          · simp at hi
    · obtain ⟨ihlen, ihcount, ihrest⟩ := ih (buyTicket env (some tid) u s).2
      rw [hunf]
      refine ⟨by simp [ihlen], ?_, ?_⟩
      · simpa [List.countP_cons, hok] using ihcount
      · intro i ri hi hri
        cases i with
        | zero =>
          simp only [List.getElem?_cons_zero, Option.some.injEq] at hi
          subst hi
          exact absurd hri hok
        | succ i =>
          simp only [List.getElem?_cons_succ] at hi
          obtain ⟨hlater, ui, t, hui, hft, hatt, hav⟩ := ihrest i ri hi hri
          refine ⟨?_, ui, t, by simpa using hui, hft, hatt, hav⟩
          intro j rj hij hj
          cases j with
          | zero => omega
          | succ j =>
            simp only [List.getElem?_cons_succ] at hj
            exact hlater j rj (by omega) hj

end Attendee

/-! ## The state invariant -/

/-- An update that yields consistent tickets from consistent ones keeps a
consistent collection consistent under `updateOne`. -/
theorem consistent_updateOne (p : Ticket → Bool) (f : Ticket → Ticket) (c : List Ticket)
    (hf : ∀ d, d.Consistent → (f d).Consistent) (hc : ∀ t ∈ c, t.Consistent) :
    ∀ t ∈ Mongo.updateOne p f c, t.Consistent := by
  intro t ht
  rcases Mongo.mem_updateOne p f c t ht with h | ⟨d, hd, -, rfl⟩
  · exact hc t h
  · exact hf d (hc d hd)

/-- The tickets `buyTicketAfterRead` leaves: the old ones, or the old ones
with one ticket bound to the buyer. -/
theorem Attendee.buyTicketAfterRead_tickets (env : Env) (user : User)
    (found : Option PopulatedTicket) (s : Store) :
    (Attendee.buyTicketAfterRead env user found s).2.tickets = s.tickets ∨
    ∃ tid image, (Attendee.buyTicketAfterRead env user found s).2.tickets =
      Mongo.updateOne (fun d => d._id == tid)
        (fun d => { d with attendeeId := some user._id, isAvailable := false,
                           qrCode := some image }) s.tickets := by
  simp only [Attendee.buyTicketAfterRead]
  repeat' split
  all_goals first
    | exact Or.inl rfl
    | exact Or.inr ⟨_, _, rfl⟩

/-- The purchase keeps the invariant. -/
theorem Attendee.buyTicket_consistent (env : Env) (ticketId : Option ObjectId) (user : User)
    (s : Store) (hc : ∀ t ∈ s.tickets, t.Consistent) :
    ∀ t ∈ (Attendee.buyTicket env ticketId user s).2.tickets, t.Consistent := by
  cases ticketId with
  | none => simpa [Attendee.buyTicket] using hc
  | some tid =>
    simp only [Attendee.buyTicket]
    rcases Attendee.buyTicketAfterRead_tickets env user (findTicketPopulated s tid) s with
      h | ⟨id, image, h⟩
    · rw [h]; exact hc
    · rw [h]
      exact consistent_updateOne _ _ _ (fun d _ => by simp [Ticket.Consistent]) hc

/-- The tickets `createTicket` leaves. -/
theorem Organizer.createTicket_tickets (env : Env) (eventId : Option ObjectId)
    (ticketType : Option String) (user : User) (newId : ObjectId) (now : Date) (s : Store) :
    (Organizer.createTicket env eventId ticketType user newId now s).2.tickets = s.tickets ∨
    ∃ eid tt,
      ((Organizer.createTicket env eventId ticketType user newId now s).2.tickets =
        s.tickets ++ [{ _id := newId, eventId := eid, ticketType := tt, attendeeId := none,
                        qrCode := none, isAvailable := true, createdAt := now }]) ∨
      ∃ image, (Organizer.createTicket env eventId ticketType user newId now s).2.tickets =
        Mongo.updateOne (fun d => d._id == newId) (fun d => { d with qrCode := some image })
          (s.tickets ++ [{ _id := newId, eventId := eid, ticketType := tt,
                           attendeeId := none, qrCode := none, isAvailable := true,
                           createdAt := now }]) := by
  simp only [Organizer.createTicket]
  repeat' split
  all_goals first
    | exact Or.inl rfl
    | exact Or.inr ⟨_, _, Or.inl rfl⟩
    | exact Or.inr ⟨_, _, Or.inr ⟨_, rfl⟩⟩

/-- Ticket creation keeps the invariant. -/
theorem Organizer.createTicket_consistent (env : Env) (eventId : Option ObjectId)
    (ticketType : Option String) (user : User) (newId : ObjectId) (now : Date) (s : Store)
    (hc : ∀ t ∈ s.tickets, t.Consistent) :
    ∀ t ∈ (Organizer.createTicket env eventId ticketType user newId now s).2.tickets,
      t.Consistent := by
  have hnew : ∀ (eid : ObjectId) (tt : String),
      ∀ t ∈ s.tickets ++ [Ticket.mk newId eid tt none none true now], t.Consistent := by
    intro eid tt t ht
    rcases List.mem_append.mp ht with h | h
    · exact hc t h
    · simp only [List.mem_singleton] at h
      subst h
      simp [Ticket.Consistent]
  rcases Organizer.createTicket_tickets env eventId ticketType user newId now s with
    h | ⟨eid, tt, h | ⟨image, h⟩⟩
  · rw [h]; exact hc
  · rw [h]; exact hnew eid tt
  · rw [h]
    exact consistent_updateOne _ _ _ (fun d hd => by simpa [Ticket.Consistent] using hd)
      (hnew eid tt)

/-- The organizer's event deletion keeps only old tickets. -/
theorem Organizer.deleteEvent_keeps_old_tickets (id : Option ObjectId) (user : User)
    (s : Store) : ∀ t ∈ (Organizer.deleteEvent id user s).2.tickets, t ∈ s.tickets := by
  simp only [Organizer.deleteEvent]
  repeat' split
  all_goals first
    | exact fun t ht => ht
    | exact fun t ht => (List.mem_filter.mp ht).1

/-- The admin's event deletion keeps only old tickets. -/
theorem Admin.deleteEvent_tickets_subset (id : Option ObjectId) (s : Store) :
    ∀ t ∈ (Admin.deleteEvent id s).2.tickets, t ∈ s.tickets := by
  simp only [Admin.deleteEvent]
  repeat' split
  all_goals first
    | exact fun t ht => ht
    | exact fun t ht => (List.mem_filter.mp ht).1

/-- Ticket deletion keeps only old tickets. -/
theorem Admin.deleteTicket_tickets_subset (id : Option ObjectId) (s : Store) :
    ∀ t ∈ (Admin.deleteTicket id s).2.tickets, t ∈ s.tickets := by
  simp only [Admin.deleteTicket]
  repeat' split
  all_goals first
    | exact fun t ht => ht
    | (rename_i h; intro t ht
       simp only [Mongo.findOneAndDelete, Prod.mk.injEq] at h
       obtain ⟨-, rfl⟩ := h
       exact List.mem_of_mem_eraseP ht)

/-- Organizer deletion keeps only old tickets. -/
theorem Admin.deleteOrganizer_tickets_subset (id : Option ObjectId) (s : Store) :
    ∀ t ∈ (Admin.deleteOrganizer id s).2.tickets, t ∈ s.tickets := by
  simp only [Admin.deleteOrganizer]
  repeat' split
  all_goals first
    | exact fun t ht => ht
    | exact fun t ht => (List.mem_filter.mp ht).1

/-- Attendee deletion keeps the invariant. -/
theorem Admin.deleteAttendee_consistent (id : Option ObjectId) (s : Store)
    (hc : ∀ t ∈ s.tickets, t.Consistent) :
    ∀ t ∈ (Admin.deleteAttendee id s).2.tickets, t.Consistent := by
  simp only [Admin.deleteAttendee]
  repeat' split
  all_goals first
    | exact hc
    | (intro t ht
       simp only [Mongo.updateMany, List.mem_map] at ht
       obtain ⟨d, hd, rfl⟩ := ht
       split
       · simp [Ticket.Consistent]
       · exact hc d hd)

/-- Every request keeps the invariant. -/
theorem step_consistent (env : Env) (op : Op) (s : Store)
    (hc : ∀ t ∈ s.tickets, t.Consistent) :
    ∀ t ∈ (step env op s).2.tickets, t.Consistent := by
  cases op with
  | createTicket eventId ticketType user newId now =>
    exact Organizer.createTicket_consistent env eventId ticketType user newId now s hc
  | buyTicket ticketId user => exact Attendee.buyTicket_consistent env ticketId user s hc
  | adminDeleteTicket id =>
    exact fun t ht => hc t (Admin.deleteTicket_tickets_subset id s t ht)
  | organizerDeleteEvent id user =>
    exact fun t ht => hc t (Organizer.deleteEvent_keeps_old_tickets id user s t ht)
  | adminDeleteEvent id =>
    exact fun t ht => hc t (Admin.deleteEvent_tickets_subset id s t ht)
  | deleteAttendee id => exact Admin.deleteAttendee_consistent id s hc
  | deleteOrganizer id =>
    exact fun t ht => hc t (Admin.deleteOrganizer_tickets_subset id s t ht)

/-- A run keeps the invariant. -/
theorem run_consistent_of_consistent (env : Env) (ops : List Op) (s : Store)
    (hc : ∀ t ∈ s.tickets, t.Consistent) : ∀ t ∈ (run env ops s).tickets, t.Consistent := by
  induction ops generalizing s with
  | nil => simpa [run] using hc
  | cons op ops ih =>
    have := ih (step env op s).2 (step_consistent env op s hc)
    simpa [run] using this

/-- C5. State invariant: in every state reached from a store without tickets
by serving createTicket, buyTicket, admin deleteTicket, organizer and admin
deleteEvent, deleteAttendee and deleteOrganizer requests one at a time, every
stored ticket has isAvailable = (attendeeId = null). -/
theorem run_state_invariant (env : Env) (s0 : Store) (ops : List Op)
    (hempty : s0.tickets = []) :
    ∀ t ∈ (run env ops s0).tickets, t.isAvailable = t.attendeeId.isNone :=
  run_consistent_of_consistent env ops s0 (by simp [hempty])

/-! ## Cascades -/

/-- With unique ids, once the first event matching a filter is erased no event
with its id is left. -/
theorem Event.id_ne_of_mem_eraseP (p : Event → Bool) (c : List Event) (e : Event)
    (hnodup : (c.map (fun d => d._id)).Nodup) (hfind : c.find? p = some e) :
    ∀ x ∈ c.eraseP p, x._id ≠ e._id := by
  induction c with
  | nil => simp at hfind
  | cons d c ih =>
    simp only [List.map_cons, List.nodup_cons] at hnodup
    by_cases hp : p d = true
    · simp only [List.find?_cons, hp, Option.some.injEq] at hfind
      subst hfind
      simp only [List.eraseP_cons, hp, cond_true]
      intro x hx heq
      exact hnodup.1 (heq ▸ List.mem_map_of_mem (fun d => d._id) hx)
    · have hp' : p d = false := by simpa using hp
      simp only [List.find?_cons, hp'] at hfind
      simp only [List.eraseP_cons, hp', cond_false, List.mem_cons]
      intro x hx
      rcases hx with rfl | hx
      · intro heq
        exact hnodup.1 (heq ▸ List.mem_map_of_mem (fun d => d._id)
          (List.mem_of_find?_eq_some hfind))
      · exact ih hnodup.2 hfind x hx

/-- C6. Event cascade completeness: when the organizer's or the admin's
deleteEvent answers 200 for event id E, no stored event has id E any more and
the tickets are exactly the previous tickets whose eventId is not E. -/
theorem deleteEvent_cascade (s : Store) (id : ObjectId) (user : User)
    (hnodup : (s.events.map (fun e => e._id)).Nodup) :
    ((Organizer.deleteEvent (some id) user s).1.status = 200 →
      (∀ e ∈ (Organizer.deleteEvent (some id) user s).2.events, e._id ≠ id) ∧
      (Organizer.deleteEvent (some id) user s).2.tickets =
        s.tickets.filter (fun t => t.eventId != id) ∧
      (∀ t ∈ (Organizer.deleteEvent (some id) user s).2.tickets, t.eventId ≠ id)) ∧
    ((Admin.deleteEvent (some id) s).1.status = 200 →
      (∀ e ∈ (Admin.deleteEvent (some id) s).2.events, e._id ≠ id) ∧
      (Admin.deleteEvent (some id) s).2.tickets =
        s.tickets.filter (fun t => t.eventId != id) ∧
      (∀ t ∈ (Admin.deleteEvent (some id) s).2.tickets, t.eventId ≠ id)) := by
  have hfilter : ∀ t ∈ s.tickets.filter (fun t => !(t.eventId == id)), t.eventId ≠ id := by
    intro t ht
    simpa using (List.mem_filter.mp ht).2
  constructor
  · intro hok
    cases hfind : s.events.find? (fun e => e._id == id && e.organizerId == user._id) with
    | none => simp [Organizer.deleteEvent, Mongo.findOneAndDelete, hfind] at hok
    | some e =>
      have hid : e._id = id := by
        have := List.find?_some hfind
        simp only [Bool.and_eq_true, beq_iff_eq] at this
        exact this.1
      have herase := Event.id_ne_of_mem_eraseP _ s.events e hnodup hfind
      simp only [Organizer.deleteEvent, Mongo.findOneAndDelete, hfind, Mongo.deleteMany]
      rw [hid] at herase
      exact ⟨herase, rfl, hfilter⟩
  · intro hok
    cases hfind : s.events.find? (fun e => e._id == id) with
    | none => simp [Admin.deleteEvent, Mongo.findOneAndDelete, hfind] at hok
    | some e =>
      have hid : e._id = id := by
        have := List.find?_some hfind
        simpa using this
      have herase := Event.id_ne_of_mem_eraseP _ s.events e hnodup hfind
      rw [hid] at herase
      simp only [Admin.deleteEvent, Mongo.findOneAndDelete, hfind, Mongo.deleteMany]
      split
      · exact ⟨herase, rfl, hfilter⟩
      · exact ⟨herase, rfl, hfilter⟩

/-- The `Ticket.deleteMany` of `deleteOrganizer` never matches a ticket: its
list of event ids is read after the organizer's events are gone. -/
theorem Admin.deleteOrganizer_tickets (id : Option ObjectId) (s : Store) :
    (Admin.deleteOrganizer id s).2.tickets = s.tickets := by
  have hnil : ∀ (oid : ObjectId) (c : List Event),
      Mongo.find (fun e => e.organizerId == oid)
        (Mongo.deleteMany (fun e => e.organizerId == oid) c).2 = [] := by
    intro oid c
    simp [Mongo.find, Mongo.deleteMany, List.filter_filter]
  have hdups : (([] : List Event).map (fun e => e._id)).eraseDups = [] := rfl
  simp only [Admin.deleteOrganizer, hnil, hdups]
  repeat' split
  all_goals first
    | rfl
    | simp [Mongo.deleteMany]

set_option maxRecDepth 100000 in
/-- C7. Evaluation of `deleteOrganizer` on the sample store, where organizer
`ann` owns event `gala` carrying ticket `vip`: the call answers 200 and reports one
deleted event and no deleted ticket; the event is gone, the ticket of the
deleted event is still stored. -/
theorem deleteOrganizer_leaves_tickets :
    vip.eventId = gala._id ∧ gala.organizerId = ann._id ∧
    sampleStore.events = [gala] ∧ sampleStore.tickets = [vip] ∧
    (Admin.deleteOrganizer (some ann._id) sampleStore).1.status = 200 ∧
    (Admin.deleteOrganizer (some ann._id) sampleStore).1.deletedEvents = some 1 ∧
    (Admin.deleteOrganizer (some ann._id) sampleStore).1.deletedTickets = some 0 ∧
    (Admin.deleteOrganizer (some ann._id) sampleStore).2.events = [] ∧
    (Admin.deleteOrganizer (some ann._id) sampleStore).2.tickets = [vip] := by
  decide

/-- C8. Release, not delete: when deleteAttendee answers 200 for attendee A,
the tickets are the previous ones with those bound to A rewritten to
attendeeId = null and isAvailable = true; position by position a ticket keeps
its id, eventId, ticketType, qrCode and createdAt, a ticket not bound to A is
unchanged, and the number of tickets is the same. -/
theorem deleteAttendee_releases (s : Store) (id : ObjectId)
    (hok : (Admin.deleteAttendee (some id) s).1.status = 200) :
    (Admin.deleteAttendee (some id) s).2.tickets =
      s.tickets.map (fun t =>
        if t.attendeeId = some id then { t with attendeeId := none, isAvailable := true }
        else t) ∧
    (Admin.deleteAttendee (some id) s).2.tickets.length = s.tickets.length ∧
    ∀ (i : Nat) (t : Ticket), s.tickets[i]? = some t →
      ∃ r, (Admin.deleteAttendee (some id) s).2.tickets[i]? = some r ∧
        r._id = t._id ∧ r.eventId = t.eventId ∧ r.ticketType = t.ticketType ∧
        r.qrCode = t.qrCode ∧ r.createdAt = t.createdAt ∧
        (t.attendeeId = some id → r.attendeeId = none ∧ r.isAvailable = true) ∧
        (t.attendeeId ≠ some id → r = t) := by
  have htickets : (Admin.deleteAttendee (some id) s).2.tickets =
      s.tickets.map (fun t =>
        if t.attendeeId = some id then { t with attendeeId := none, isAvailable := true }
        else t) := by
    cases hfind : s.users.find? (fun u => u._id == id && u.role == Role.attendee) with
    | none => simp [Admin.deleteAttendee, Mongo.findOneAndDelete, hfind] at hok
    | some u =>
      simp [Admin.deleteAttendee, Mongo.findOneAndDelete, hfind, Mongo.updateMany]
  refine ⟨htickets, by simp [htickets], ?_⟩
  intro i t hi
  rw [htickets]
  simp only [List.getElem?_map, hi, Option.map_some']
  by_cases h : t.attendeeId = some id
  · exact ⟨_, rfl, by simp [h]⟩
  · exact ⟨_, rfl, by simp [h]⟩

/-! ## The payload and the attendee -/

/-- The purchase-path generator reads only the id, type and creation date of
the ticket. -/
theorem Attendee.generateQRData_congr (env : Env) (t1 t2 : Ticket)
    (ev : Option PopulatedEvent) (hid : t1._id = t2._id)
    (htype : t1.ticketType = t2.ticketType) (hcreated : t1.createdAt = t2.createdAt) :
    Attendee.generateQRData env t1 ev = Attendee.generateQRData env t2 ev := by
  simp [Attendee.generateQRData, hid, htype, hcreated]

/-- The creation-path generator reads only the id, type and creation date of
the ticket. -/
theorem Organizer.generateQRData_creation_congr (env : Env) (t1 t2 : Ticket)
    (ev : Option PopulatedEvent) (hid : t1._id = t2._id)
    (htype : t1.ticketType = t2.ticketType) (hcreated : t1.createdAt = t2.createdAt) :
    Organizer.generateQRData env t1 ev = Organizer.generateQRData env t2 ev := by
  simp [Organizer.generateQRData, hid, htype, hcreated]

/-- The two generators compute the same text. -/
theorem generateQRData_paths_agree (env : Env) (t : Ticket) (ev : Option PopulatedEvent) :
    Attendee.generateQRData env t ev = Organizer.generateQRData env t ev := rfl

/-- C9. The payload encoder never exposes attendee data: two tickets that
agree on id, ticketType and createdAt get the same text from `generateQRData`,
whatever their attendeeId and isAvailable, in the creation path and in the
purchase path. -/
theorem generateQRData_ignores_attendee (env : Env) (t1 t2 : Ticket)
    (ev : Option PopulatedEvent) (hid : t1._id = t2._id)
    (htype : t1.ticketType = t2.ticketType) (hcreated : t1.createdAt = t2.createdAt) :
    Organizer.generateQRData env t1 ev = Organizer.generateQRData env t2 ev ∧
    Attendee.generateQRData env t1 ev = Attendee.generateQRData env t2 ev :=
  ⟨Organizer.generateQRData_creation_congr env t1 t2 ev hid htype hcreated,
   Attendee.generateQRData_congr env t1 t2 ev hid htype hcreated⟩

set_option maxRecDepth 100000 in
/-- Witness for C9: the unsold and the sold form of ticket `vip`. -/
theorem generateQRData_ignores_attendee_witness :
    vip._id = vipSold._id ∧ vip.ticketType = vipSold.ticketType ∧
    vip.createdAt = vipSold.createdAt ∧ vip.attendeeId ≠ vipSold.attendeeId ∧
    vip.isAvailable ≠ vipSold.isAvailable ∧
    (Organizer.generateQRData sampleEnv vip (populateEvent sampleStore gala._id) =
      Organizer.generateQRData sampleEnv vipSold (populateEvent sampleStore gala._id) ∧
     Attendee.generateQRData sampleEnv vip (populateEvent sampleStore gala._id) =
      Attendee.generateQRData sampleEnv vipSold (populateEvent sampleStore gala._id)) :=
  ⟨rfl, rfl, rfl, by decide, by decide,
    generateQRData_ignores_attendee sampleEnv vip vipSold (populateEvent sampleStore gala._id)
      rfl rfl rfl⟩

set_option maxRecDepth 100000 in
/-- C10, as stated, fails: on the sample store the purchases of ticket `vip` by
`bob` and by `cara` both answer 200, the two payload texts are equal to each
other and to the text encoded at creation, and so are the stored images. -/
theorem buyTicket_payload_same_for_two_buyers :
    bob._id ≠ cara._id ∧
    (Attendee.buyTicket sampleEnv (some vip._id) bob sampleStore).1.status = 200 ∧
    (Attendee.buyTicket sampleEnv (some vip._id) cara sampleStore).1.status = 200 ∧
    Attendee.generateQRData sampleEnv
        { vip with attendeeId := some bob._id, isAvailable := false }
        (populateEvent sampleStore gala._id) =
      Attendee.generateQRData sampleEnv
        { vip with attendeeId := some cara._id, isAvailable := false }
        (populateEvent sampleStore gala._id) ∧
    Attendee.generateQRData sampleEnv
        { vip with attendeeId := some bob._id, isAvailable := false }
        (populateEvent sampleStore gala._id) =
      Organizer.generateQRData sampleEnv vip (populateEvent sampleStore gala._id) ∧
    (Ticket.findById sampleStore.tickets vip._id).bind (fun d => d.qrCode) = vip.qrCode ∧
    (Ticket.findById (Attendee.buyTicket sampleEnv (some vip._id) bob sampleStore).2.tickets
        vip._id).bind (fun d => d.qrCode) = vip.qrCode ∧
    (Ticket.findById (Attendee.buyTicket sampleEnv (some vip._id) cara sampleStore).2.tickets
        vip._id).bind (fun d => d.qrCode) = vip.qrCode := by
  decide

/-- C10, amended: a successful purchase encodes the text that the
creation-path generator yields for the ticket as it was stored, with the event
and organizer as they are at the purchase; the text does not depend on the
buyer, so two purchases of the same ticket from the same store by different
attendees store the same image. -/
theorem buyTicket_payload_independent_of_buyer (env : Env) (s : Store) (tid : ObjectId)
    (a b : User)
    (ha : (Attendee.buyTicket env (some tid) a s).1.status = 200)
    (hb : (Attendee.buyTicket env (some tid) b s).1.status = 200) :
    ∃ t text image,
      Ticket.findById s.tickets tid = some t ∧
      Organizer.generateQRData env t (populateEvent s t.eventId) = some text ∧
      env.toDataURL text = some image ∧
      (Ticket.findById (Attendee.buyTicket env (some tid) a s).2.tickets tid).bind
        (fun d => d.qrCode) = some image ∧
      (Ticket.findById (Attendee.buyTicket env (some tid) b s).2.tickets tid).bind
        (fun d => d.qrCode) = some image := by
  obtain ⟨t, text, image, hfind, havail, hdup, htext, himage⟩ :=
    Attendee.buyTicket_ok_inv env s tid a ha
  obtain ⟨t2, text2, image2, hfind2, havail2, hdup2, htext2, himage2⟩ :=
    Attendee.buyTicket_ok_inv env s tid b hb
  have ht : t2 = t := Option.some.inj (hfind2.symm.trans hfind)
  subst ht
  have hcreation : Organizer.generateQRData env t2 (populateEvent s t2.eventId) = some text := by
    rw [← htext, ← generateQRData_paths_agree]
    exact Attendee.generateQRData_congr env _ _ _ rfl rfl rfl
  have htext2b : Attendee.generateQRData env
      { t2 with attendeeId := some b._id, isAvailable := false }
      (populateEvent s t2.eventId) = some text := by
    rw [← htext]
    exact Attendee.generateQRData_congr env _ _ _ rfl rfl rfl
  have htexts : text2 = text := Option.some.inj (htext2.symm.trans htext2b)
  subst htexts
  have himages : image2 = image := Option.some.inj (himage2.symm.trans himage)
  subst himages
  refine ⟨t2, text2, image2, hfind, hcreation, himage, ?_, ?_⟩
  · rw [Attendee.buyTicket_eq_ok env s tid a t2 text2 image2 hfind havail hdup htext himage,
      Attendee.findById_updateOne_sold s.tickets tid a._id image2 t2 hfind]
    rfl
  · rw [Attendee.buyTicket_eq_ok env s tid b t2 text2 image2 hfind havail hdup2 htext2 himage,
      Attendee.findById_updateOne_sold s.tickets tid b._id image2 t2 hfind]
    rfl

set_option maxRecDepth 100000 in
/-- Witness for C10, amended: `bob` and `cara` buying `vip` from the sample
store. -/
theorem buyTicket_payload_independent_of_buyer_witness :
    (Attendee.buyTicket sampleEnv (some vip._id) bob sampleStore).1.status = 200 ∧
    (Attendee.buyTicket sampleEnv (some vip._id) cara sampleStore).1.status = 200 ∧
    ∃ t text image,
      Ticket.findById sampleStore.tickets vip._id = some t ∧
      Organizer.generateQRData sampleEnv t (populateEvent sampleStore t.eventId) =
        some text ∧
      sampleEnv.toDataURL text = some image ∧
      (Ticket.findById (Attendee.buyTicket sampleEnv (some vip._id) bob sampleStore).2.tickets
        vip._id).bind (fun d => d.qrCode) = some image ∧
      (Ticket.findById (Attendee.buyTicket sampleEnv (some vip._id) cara sampleStore).2.tickets
        vip._id).bind (fun d => d.qrCode) = some image :=
  ⟨by decide, by decide,
    buyTicket_payload_independent_of_buyer sampleEnv sampleStore vip._id bob cara
      (by decide) (by decide)⟩

/-! ## Interleaved purchases -/

/-- Served without interleaving, `buyTicket` is its first query followed by
the rest of the handler on the same store. -/
theorem Attendee.buyTicket_eq_afterRead (env : Env) (tid : ObjectId) (a : User) (s : Store) :
    Attendee.buyTicket env (some tid) a s =
      Attendee.buyTicketAfterRead env a (findTicketPopulated s tid) s := rfl

set_option maxRecDepth 100000 in
/-- C4. Evaluation of two `buyTicket` handlers for ticket `vip` that both run
their `findById` before either saves: both answer 200, the first with the
ticket bound to `bob`, the second with it bound to `cara`, and the stored
ticket ends bound to `cara`. -/
theorem buyTicketRace_double_sale :
    (Attendee.buyTicketRace sampleEnv vip._id bob cara sampleStore).1.status = 200 ∧
    (Attendee.buyTicketRace sampleEnv vip._id bob cara sampleStore).2.1.status = 200 ∧
    (Attendee.buyTicketRace sampleEnv vip._id bob cara sampleStore).1.ticket.bind
      (fun d => d.attendeeId) = some bob._id ∧
    (Attendee.buyTicketRace sampleEnv vip._id bob cara sampleStore).2.1.ticket.bind
      (fun d => d.attendeeId) = some cara._id ∧
    (Ticket.findById (Attendee.buyTicketRace sampleEnv vip._id bob cara sampleStore).2.2.tickets
      vip._id).bind (fun d => d.attendeeId) = some cara._id := by
  decide

/-! ## Instances on the sample store -/

/-- The renderer of `limitedEnv` refuses a text with more than 2331 characters
that only byte mode can encode. -/
theorem limitedEnv_refuses (text : String) (h : 2331 < QR.byteModeCount text) :
    limitedEnv.toDataURL text = none := by
  show (if QR.byteModeCount text ≤ 2331 then _ else none) = none
  rw [if_neg (by omega)]

/-- The renderer of `limitedEnv` does not render every text: it refuses the
2400 lower-case letters of `longTicketType`. -/
theorem limitedEnv_refuses_longTicketType : limitedEnv.toDataURL longTicketType = none := by
  have hd : longTicketType.data = List.replicate 2400 (Char.ofNat 97) := rfl
  have h : QR.byteModeCount longTicketType = 2400 := by
    unfold QR.byteModeCount
    rw [hd, List.countP_replicate, if_pos (by decide)]
  exact limitedEnv_refuses longTicketType (by rw [h]; omega)

set_option maxRecDepth 100000 in
/-- Witness for C1: `bob` buys the available ticket `vip` of the sample store,
with the renderer of `limitedEnv`, which renders the payload text of this
purchase and refuses longer texts. -/
theorem buyTicket_purchase_postcondition_witness :
    (sampleStore.tickets.map (fun d => d._id)).Nodup ∧ vip ∈ sampleStore.tickets ∧
    vip.isAvailable = true ∧ vip.attendeeId = none ∧
    Event.findById sampleStore.events vip.eventId = some gala ∧
    User.findById sampleStore.users gala.organizerId = some ann ∧
    (∀ text,
      Attendee.generateQRData limitedEnv
        { vip with attendeeId := some bob._id, isAvailable := false }
        (populateEvent sampleStore vip.eventId) = some text →
      (limitedEnv.toDataURL text).isSome = true) ∧
    limitedEnv.toDataURL longTicketType = none ∧
    ((Attendee.buyTicket limitedEnv (some vip._id) bob sampleStore).1.status = 200 ∧
     ∃ image sold,
      sold = { vip with attendeeId := some bob._id, isAvailable := false,
                        qrCode := some image } ∧
      Ticket.findById (Attendee.buyTicket limitedEnv (some vip._id) bob sampleStore).2.tickets
        vip._id = some sold ∧
      sold ∈ (Attendee.buyTicket limitedEnv (some vip._id) bob sampleStore).2.tickets ∧
      (Attendee.buyTicket limitedEnv (some vip._id) bob sampleStore).1.ticket = some sold ∧
      sold.attendeeId = some bob._id ∧ sold.isAvailable = false) := by
  have htext : Attendee.generateQRData limitedEnv
      { vip with attendeeId := some bob._id, isAvailable := false }
      (populateEvent sampleStore vip.eventId) = some
      ("Ticket ID      : 65a000000000000000000f01\n      Ticket Type    : VIP\n" ++
       "      Event Name     : Gala\n      Event Genre    : Music\n" ++
       "      Event Price    : $25\n      Organizer Name : Ann\n" ++
       "      Organizer Email: ann@example.com\n      Created At     : 1/1/2025, 12:00:00 AM") := by
    decide
  have hqr : ∀ text,
      Attendee.generateQRData limitedEnv
        { vip with attendeeId := some bob._id, isAvailable := false }
        (populateEvent sampleStore vip.eventId) = some text →
      (limitedEnv.toDataURL text).isSome = true := by
    intro text h
    rw [← Option.some.inj (htext.symm.trans h)]
    decide
  exact ⟨by decide, by decide, rfl, rfl, by decide, by decide, hqr,
    limitedEnv_refuses_longTicketType,
    Attendee.buyTicket_purchase_postcondition limitedEnv sampleStore vip gala ann bob
      (by decide) (by decide) rfl rfl (by decide) (by decide) hqr⟩

set_option maxRecDepth 100000 in
/-- Witness for C2: `cara` asks for ticket `vip` after `bob` has bought it. -/
theorem buyTicket_double_sale_guard_witness :
    (soldStore.tickets.map (fun d => d._id)).Nodup ∧ vipSold ∈ soldStore.tickets ∧
    vipSold.isAvailable = false ∧
    (Attendee.buyTicket sampleEnv (some vipSold._id) cara soldStore =
      ({ status := 400, error := some "Ticket is no longer available" }, soldStore) ∧
     Ticket.findById (Attendee.buyTicket sampleEnv (some vipSold._id) cara soldStore).2.tickets
       vipSold._id = some vipSold) :=
  ⟨by decide, by decide, rfl,
    Attendee.buyTicket_double_sale_guard sampleEnv soldStore vipSold cara
      (by decide) (by decide) rfl⟩

set_option maxRecDepth 100000 in
/-- Witness for C3: `bob`, then `cara`, then `bob` again ask for ticket `vip`;
the first request succeeds, the later ones are refused and the ticket stays
with `bob`. -/
theorem buySequence_no_double_sale_witness :
    (Attendee.buySequence sampleEnv vip._id [bob, cara, bob] sampleStore).1[0]? =
      some (Attendee.buyTicket sampleEnv (some vip._id) bob sampleStore).1 ∧
    (Attendee.buyTicket sampleEnv (some vip._id) bob sampleStore).1.status = 200 ∧
    ((∀ (j : Nat) (rj : Response), 0 < j →
        (Attendee.buySequence sampleEnv vip._id [bob, cara, bob] sampleStore).1[j]? = some rj →
        rj = { status := 400, error := some "Ticket is no longer available" }) ∧
     ∃ (ui : User) (t : Ticket), [bob, cara, bob][0]? = some ui ∧
        Ticket.findById
          (Attendee.buySequence sampleEnv vip._id [bob, cara, bob] sampleStore).2.tickets vip._id =
          some t ∧
        t.attendeeId = some ui._id ∧ t.isAvailable = false) :=
  ⟨by decide, by decide,
    (Attendee.buySequence_no_double_sale sampleEnv vip._id [bob, cara, bob] sampleStore).2.2
      0 (Attendee.buyTicket sampleEnv (some vip._id) bob sampleStore).1 (by decide) (by decide)⟩

set_option maxRecDepth 100000 in
/-- Witness for C5: a ticket is issued, bought by `bob`, released by the
deletion of `bob`, and bought by `cara`. -/
theorem run_state_invariant_witness :
    emptyTicketStore.tickets = [] ∧
    (run sampleEnv
      [Op.createTicket (some gala._id) (some "VIP") ann vip._id vip.createdAt, Op.buyTicket (some vip._id) bob,
       Op.deleteAttendee (some bob._id), Op.buyTicket (some vip._id) cara]
      emptyTicketStore).tickets.map (fun d => d.attendeeId) = [some cara._id] ∧
    ∀ t ∈ (run sampleEnv
      [Op.createTicket (some gala._id) (some "VIP") ann vip._id vip.createdAt, Op.buyTicket (some vip._id) bob,
       Op.deleteAttendee (some bob._id), Op.buyTicket (some vip._id) cara]
      emptyTicketStore).tickets, t.isAvailable = t.attendeeId.isNone :=
  ⟨rfl, by decide, run_state_invariant sampleEnv emptyTicketStore _ rfl⟩

set_option maxRecDepth 100000 in
/-- Witness for C6: `ann`, and the admin, delete event `gala` of the sample
store. -/
theorem deleteEvent_cascade_witness :
    (sampleStore.events.map (fun e => e._id)).Nodup ∧
    (Organizer.deleteEvent (some gala._id) ann sampleStore).1.status = 200 ∧
    ((∀ e ∈ (Organizer.deleteEvent (some gala._id) ann sampleStore).2.events, e._id ≠ gala._id) ∧
      (Organizer.deleteEvent (some gala._id) ann sampleStore).2.tickets =
        sampleStore.tickets.filter (fun t => t.eventId != gala._id) ∧
      (∀ t ∈ (Organizer.deleteEvent (some gala._id) ann sampleStore).2.tickets,
        t.eventId ≠ gala._id)) ∧
    (Admin.deleteEvent (some gala._id) sampleStore).1.status = 200 ∧
    ((∀ e ∈ (Admin.deleteEvent (some gala._id) sampleStore).2.events, e._id ≠ gala._id) ∧
      (Admin.deleteEvent (some gala._id) sampleStore).2.tickets =
        sampleStore.tickets.filter (fun t => t.eventId != gala._id) ∧
      (∀ t ∈ (Admin.deleteEvent (some gala._id) sampleStore).2.tickets, t.eventId ≠ gala._id)) :=
  ⟨by decide, by decide,
    (deleteEvent_cascade sampleStore gala._id ann (by decide)).1 (by decide), by decide,
    (deleteEvent_cascade sampleStore gala._id ann (by decide)).2 (by decide)⟩

set_option maxRecDepth 100000 in
/-- Witness for C8: the admin deletes `bob`, who holds ticket `vip`. -/
theorem deleteAttendee_releases_witness :
    (Admin.deleteAttendee (some bob._id) soldStore).1.status = 200 ∧
    ((Admin.deleteAttendee (some bob._id) soldStore).2.tickets =
      soldStore.tickets.map (fun t =>
        if t.attendeeId = some bob._id then { t with attendeeId := none, isAvailable := true }
        else t) ∧
     (Admin.deleteAttendee (some bob._id) soldStore).2.tickets.length =
       soldStore.tickets.length ∧
     ∀ (i : Nat) (t : Ticket), soldStore.tickets[i]? = some t →
      ∃ r, (Admin.deleteAttendee (some bob._id) soldStore).2.tickets[i]? = some r ∧
        r._id = t._id ∧ r.eventId = t.eventId ∧ r.ticketType = t.ticketType ∧
        r.qrCode = t.qrCode ∧ r.createdAt = t.createdAt ∧
        (t.attendeeId = some bob._id → r.attendeeId = none ∧ r.isAvailable = true) ∧
        (t.attendeeId ≠ some bob._id → r = t)) :=
  ⟨by decide, deleteAttendee_releases soldStore bob._id (by decide)⟩

/-! ## Ticket creation -/

/-- With unique event ids, the lookup by id and owner finds a stored event of
that owner. -/
theorem Event.findOne_owned {c : List Event} {e : Event} (uid : ObjectId)
    (hnodup : (c.map (fun d => d._id)).Nodup) (he : e ∈ c) (hown : e.organizerId = uid) :
    Mongo.findOne (fun d => d._id == e._id && d.organizerId == uid) c = some e := by
  induction c with
  | nil => simp at he
  | cons d c ih =>
    simp only [List.map_cons, List.nodup_cons] at hnodup
    rcases List.mem_cons.mp he with h | h
    · subst h
      simp [Mongo.findOne, hown]
    · have hne : d._id ≠ e._id := by
        intro heq
        exact hnodup.1 (heq ▸ List.mem_map_of_mem (fun d => d._id) h)
      have hih := ih hnodup.2 h
      simp only [Mongo.findOne] at hih ⊢
      simp [List.find?_cons, hne, hih]

/-- The lookup by id and owner finds nothing when no stored event with that id
has that owner. -/
theorem Event.findOne_not_owned (c : List Event) (eid uid : ObjectId)
    (hno : ∀ e ∈ c, e._id = eid → e.organizerId ≠ uid) :
    Mongo.findOne (fun d => d._id == eid && d.organizerId == uid) c = none := by
  simp only [Mongo.findOne, List.find?_eq_none]
  intro e he
  have := hno e he
  simp only [Bool.and_eq_true, beq_iff_eq, not_and]
  exact this

/-- When no old document matches the filter, `updateOne` on a collection with
one matching document appended changes exactly that document. -/
theorem Mongo.updateOne_append_fresh {α : Type} (p : α → Bool) (f : α → α) (c : List α)
    (d : α) (hc : ∀ x ∈ c, p x = false) (hd : p d = true) :
    Mongo.updateOne p f (c ++ [d]) = c ++ [f d] := by
  induction c with
  | nil => simp [Mongo.updateOne, hd]
  | cons x c ih =>
    have hx : p x = false := hc x (List.mem_cons_self _ _)
    have := ih (fun y hy => hc y (List.mem_cons_of_mem _ hy))
    simp [Mongo.updateOne, hx, this]

/-- Trimming the empty string gives the empty string. -/
theorem JS.trim_empty : JS.trim "" = "" := rfl

/-- A request whose ticket type is missing or empty is answered 400 before any
lookup. -/
theorem Organizer.createTicket_of_falsy_type (env : Env) (eventId : Option ObjectId)
    (ticketType : Option String) (user : User) (newId : ObjectId) (now : Date) (s : Store)
    (h : ticketType = none ∨ ticketType = some "") :
    Organizer.createTicket env eventId ticketType user newId now s =
      ({ status := 400, error := some "Ticket type is required" }, s) := by
  rcases h with h | h <;> subst h <;> simp [Organizer.createTicket]

/-- A request for an event that the lookup by id and owner does not find is
answered 404 and writes nothing. -/
theorem Organizer.createTicket_of_not_found (env : Env) (eid : ObjectId)
    (ticketType : String) (user : User) (newId : ObjectId) (now : Date) (s : Store)
    (htype : ticketType ≠ "")
    (hno : ∀ e ∈ s.events, e._id = eid → e.organizerId ≠ user._id) :
    Organizer.createTicket env (some eid) (some ticketType) user newId now s =
      ({ status := 404, error := some "Event not found or unauthorized" }, s) := by
  simp [Organizer.createTicket, htype, Event.findOne_not_owned s.events eid user._id hno]

/-- C11. Ticket creation postcondition: for a stored event owned by the stored
organizer, a ticket type whose trimmed form is non-empty, a fresh id and a
renderer that succeeds on the payload text of this request (it may fail on
other texts), `createTicket` answers 201 and the tickets afterwards
are the previous ones followed by one new ticket with the event's id, the
trimmed type, isAvailable = true, attendeeId = null and the image of the
payload text of that ticket, event and organizer; events and users are as
before. -/
theorem createTicket_postcondition (env : Env) (s : Store) (e : Event) (o : User)
    (ticketType : String) (newId : ObjectId) (now : Date)
    (hnodup : (s.events.map (fun d => d._id)).Nodup) (he : e ∈ s.events)
    (hown : e.organizerId = o._id) (ho : User.findById s.users o._id = some o)
    (htrim : JS.trim ticketType ≠ "") (hfresh : ∀ t ∈ s.tickets, t._id ≠ newId)
    (hqr : ∀ text,
      Organizer.generateQRData env
        { _id := newId, eventId := e._id, ticketType := JS.trim ticketType,
          attendeeId := none, qrCode := none, isAvailable := true, createdAt := now }
        (some (populateOrganizer s.users e)) = some text →
      (env.toDataURL text).isSome = true) :
    ∃ text image created,
      created = { _id := newId, eventId := e._id, ticketType := JS.trim ticketType,
                  attendeeId := none, qrCode := some image, isAvailable := true,
                  createdAt := now } ∧
      Organizer.generateQRData env created (some (populateOrganizer s.users e)) =
        some text ∧
      env.toDataURL text = some image ∧
      (Organizer.createTicket env (some e._id) (some ticketType) o newId now s).1.status
        = 201 ∧
      (Organizer.createTicket env (some e._id) (some ticketType) o newId now s).1.ticket
        = some created ∧
      (Organizer.createTicket env (some e._id) (some ticketType) o newId now s).2.tickets
        = s.tickets ++ [created] ∧
      (Organizer.createTicket env (some e._id) (some ticketType) o newId now s).2.events
        = s.events ∧
      (Organizer.createTicket env (some e._id) (some ticketType) o newId now s).2.users
        = s.users := by
  have htype : ticketType ≠ "" := by
    intro h
    exact htrim (h ▸ JS.trim_empty)
  have hfind := Event.findOne_owned o._id hnodup he hown
  have hany : s.tickets.any (fun d => d._id == newId) = false := by
    simp only [List.any_eq_false, beq_iff_eq]
    exact fun t ht => hfresh t ht
  have hpop : (populateOrganizer s.users e).organizerId =
      some { name := some o.name, email := some o.email } := by
    simp [populateOrganizer, hown, ho]
  have hsome : (Organizer.generateQRData env
      { _id := newId, eventId := e._id, ticketType := JS.trim ticketType,
        attendeeId := none, qrCode := none, isAvailable := true, createdAt := now }
      (some (populateOrganizer s.users e))).isSome = true := by
    simp [Organizer.generateQRData, hpop]
  obtain ⟨text, htext⟩ := Option.isSome_iff_exists.mp hsome
  obtain ⟨image, himage⟩ := Option.isSome_iff_exists.mp (hqr text htext)
  have hupd := Mongo.updateOne_append_fresh (fun d : Ticket => d._id == newId)
    (fun d => { d with qrCode := some image }) s.tickets
    { _id := newId, eventId := e._id, ticketType := JS.trim ticketType,
      attendeeId := none, qrCode := none, isAvailable := true, createdAt := now }
    (by intro x hx; simpa using hfresh x hx) (by simp)
  have hfound : Ticket.findById (s.tickets ++
      [Ticket.mk newId e._id (JS.trim ticketType) none (some image) true now]) newId =
      some (Ticket.mk newId e._id (JS.trim ticketType) none (some image) true now) := by
    simp only [Ticket.findById, Mongo.findOne, List.find?_append]
    have hnone : s.tickets.find? (fun t => t._id == newId) = none := by
      simp only [List.find?_eq_none, beq_iff_eq]
      exact fun t ht => hfresh t ht
    simp [hnone]
  refine ⟨text, image, _, rfl, ?_, himage, ?_⟩
  · rw [← htext]
    exact Organizer.generateQRData_creation_congr env _ _ _ rfl rfl rfl
  · simp [Organizer.createTicket, htype, htrim, hfind, hany, htext, himage, hupd, hfound]

/-- C12. Only the owning organizer can issue tickets: for a stored event whose
organizerId is not the id of the requesting principal, `createTicket` answers
with an error (400 for a missing or empty ticket type, else 404), returns no
ticket and leaves the store as it was. -/
theorem createTicket_only_owner (env : Env) (s : Store) (e : Event) (p : User)
    (ticketType : Option String) (newId : ObjectId) (now : Date)
    (hnodup : (s.events.map (fun d => d._id)).Nodup) (he : e ∈ s.events)
    (hne : e.organizerId ≠ p._id) :
    ((Organizer.createTicket env (some e._id) ticketType p newId now s).1.status = 400 ∨
     (Organizer.createTicket env (some e._id) ticketType p newId now s).1.status = 404) ∧
    (Organizer.createTicket env (some e._id) ticketType p newId now s).1.error.isSome
      = true ∧
    (Organizer.createTicket env (some e._id) ticketType p newId now s).1.ticket = none ∧
    (Organizer.createTicket env (some e._id) ticketType p newId now s).2 = s := by
  have hno : ∀ d ∈ s.events, d._id = e._id → d.organizerId ≠ p._id := by
    intro d hd hid
    have := List.inj_on_of_nodup_map hnodup hd he hid
    rw [this]
    exact hne
  by_cases hfalsy : ticketType = none ∨ ticketType = some ""
  · rw [Organizer.createTicket_of_falsy_type env _ _ p newId now s hfalsy]
    simp
  · cases ticketType with
    | none => exact absurd (Or.inl rfl) hfalsy
    | some tt =>
      have htt : tt ≠ "" := fun h => hfalsy (Or.inr (by rw [h]))
      rw [Organizer.createTicket_of_not_found env e._id tt p newId now s htt hno]
      simp

set_option maxRecDepth 100000 in
/-- Witness for C12: the organizer `dan` asks for a ticket on `gala`, an event
of `ann`. -/
theorem createTicket_only_owner_witness :
    (twoOrganizerStore.events.map (fun d => d._id)).Nodup ∧
    gala ∈ twoOrganizerStore.events ∧ gala.organizerId ≠ dan._id ∧
    (((Organizer.createTicket sampleEnv (some gala._id) (some "VIP") dan
        "65a000000000000000000f02" 1735689600001 twoOrganizerStore).1.status = 400 ∨
      (Organizer.createTicket sampleEnv (some gala._id) (some "VIP") dan
        "65a000000000000000000f02" 1735689600001 twoOrganizerStore).1.status = 404) ∧
     (Organizer.createTicket sampleEnv (some gala._id) (some "VIP") dan
        "65a000000000000000000f02" 1735689600001 twoOrganizerStore).1.error.isSome = true ∧
     (Organizer.createTicket sampleEnv (some gala._id) (some "VIP") dan
        "65a000000000000000000f02" 1735689600001 twoOrganizerStore).1.ticket = none ∧
     (Organizer.createTicket sampleEnv (some gala._id) (some "VIP") dan
        "65a000000000000000000f02" 1735689600001 twoOrganizerStore).2 = twoOrganizerStore) :=
  ⟨by decide, by decide, by decide,
    createTicket_only_owner sampleEnv twoOrganizerStore gala dan (some "VIP")
      "65a000000000000000000f02" 1735689600001 (by decide) (by decide) (by decide)⟩

set_option maxRecDepth 100000 in
/-- C13, as stated, fails: `gala` is stored and belongs to `ann`; the request
of the organizer `dan` for a ticket on it is answered 404, not 401 or 403, with
the same response as a request for an event id that is not stored. -/
theorem createTicket_other_owner_is_404 :
    gala ∈ twoOrganizerStore.events ∧ gala.organizerId ≠ dan._id ∧
    (Organizer.createTicket sampleEnv (some gala._id) (some "VIP") dan
      "65a000000000000000000f02" 1735689600001 twoOrganizerStore).1.status = 404 ∧
    (Organizer.createTicket sampleEnv (some gala._id) (some "VIP") dan
      "65a000000000000000000f02" 1735689600001 twoOrganizerStore).1.status ≠ 401 ∧
    (Organizer.createTicket sampleEnv (some gala._id) (some "VIP") dan
      "65a000000000000000000f02" 1735689600001 twoOrganizerStore).1.status ≠ 403 ∧
    (∀ ev ∈ twoOrganizerStore.events, ev._id ≠ "65a000000000000000000e99") ∧
    (Organizer.createTicket sampleEnv (some gala._id) (some "VIP") dan
      "65a000000000000000000f02" 1735689600001 twoOrganizerStore).1 =
    (Organizer.createTicket sampleEnv (some "65a000000000000000000e99") (some "VIP") dan
      "65a000000000000000000f02" 1735689600001 twoOrganizerStore).1 := by
  decide

/-- C13, amended: `createTicket` does not tell its two lookup failures apart:
for a non-empty ticket type, when no stored event with the requested id
belongs to the requesting organizer (there is no such event, or it belongs to
another organizer), the answer is 404 "Event not found or unauthorized" and
the store is left as it was. -/
theorem createTicket_lookup_failures_alike (env : Env) (s : Store) (eid : ObjectId)
    (ticketType : String) (p : User) (newId : ObjectId) (now : Date)
    (htype : ticketType ≠ "")
    (hno : ∀ e ∈ s.events, e._id = eid → e.organizerId ≠ p._id) :
    Organizer.createTicket env (some eid) (some ticketType) p newId now s =
      ({ status := 404, error := some "Event not found or unauthorized" }, s) :=
  Organizer.createTicket_of_not_found env eid ticketType p newId now s htype hno

set_option maxRecDepth 100000 in
/-- Witness for C13, amended: `dan` asks for a ticket on `gala`, which belongs
to `ann`, and on an event id that is not stored. -/
theorem createTicket_lookup_failures_alike_witness :
    ("VIP" ≠ "" ∧
     (∀ e ∈ twoOrganizerStore.events, e._id = gala._id → e.organizerId ≠ dan._id) ∧
     Organizer.createTicket sampleEnv (some gala._id) (some "VIP") dan
       "65a000000000000000000f02" 1735689600001 twoOrganizerStore =
       ({ status := 404, error := some "Event not found or unauthorized" },
        twoOrganizerStore)) ∧
    ((∀ e ∈ twoOrganizerStore.events,
        e._id = "65a000000000000000000e99" → e.organizerId ≠ dan._id) ∧
     Organizer.createTicket sampleEnv (some "65a000000000000000000e99") (some "VIP") dan
       "65a000000000000000000f02" 1735689600001 twoOrganizerStore =
       ({ status := 404, error := some "Event not found or unauthorized" },
        twoOrganizerStore)) :=
  ⟨⟨by decide, by decide,
     createTicket_lookup_failures_alike sampleEnv twoOrganizerStore gala._id "VIP" dan
       "65a000000000000000000f02" 1735689600001 (by decide) (by decide)⟩,
   ⟨by decide,
     createTicket_lookup_failures_alike sampleEnv twoOrganizerStore
       "65a000000000000000000e99" "VIP" dan "65a000000000000000000f02" 1735689600001
       (by decide) (by decide)⟩⟩

set_option maxRecDepth 100000 in
/-- C14. Evaluation of `createTicket` with the ticket type "   " (three
spaces), whose trimmed form is empty: for the stored event `gala` and its
owner `ann` the answer is 500 "Server error while creating ticket", for an
event id that is not stored it is 404; neither is 400, and no ticket is
persisted.  The empty and the missing ticket type are answered 400. -/
theorem createTicket_blank_type_not_400 :
    JS.trim "   " = "" ∧
    Organizer.createTicket sampleEnv (some gala._id) (some "   ") ann
      "65a000000000000000000f02" 1735689600001 sampleStore =
      ({ status := 500, error := some "Server error while creating ticket" }, sampleStore) ∧
    Organizer.createTicket sampleEnv (some "65a000000000000000000e99") (some "   ") ann
      "65a000000000000000000f02" 1735689600001 sampleStore =
      ({ status := 404, error := some "Event not found or unauthorized" }, sampleStore) ∧
    Organizer.createTicket sampleEnv (some gala._id) (some "") ann
      "65a000000000000000000f02" 1735689600001 sampleStore =
      ({ status := 400, error := some "Ticket type is required" }, sampleStore) ∧
    Organizer.createTicket sampleEnv (some "65a000000000000000000e99") none ann
      "65a000000000000000000f02" 1735689600001 sampleStore =
      ({ status := 400, error := some "Ticket type is required" }, sampleStore) := by
  decide

/-! ## Admin ticket deletion -/

/-- With unique ids, erasing the first ticket with an id removes every ticket
with that id. -/
theorem Ticket.eraseP_eq_filter (c : List Ticket) (id : ObjectId)
    (hnodup : (c.map (fun d => d._id)).Nodup) :
    c.eraseP (fun d => d._id == id) = c.filter (fun d => d._id != id) := by
  induction c with
  | nil => rfl
  | cons d c ih =>
    simp only [List.map_cons, List.nodup_cons] at hnodup
    by_cases hd : d._id = id
    · have hrest : c.filter (fun x => x._id != id) = c := by
        rw [List.filter_eq_self]
        intro x hx
        have : x._id ≠ d._id := fun h =>
          hnodup.1 (h ▸ List.mem_map_of_mem (fun d => d._id) hx)
        simpa [hd] using this
      simp [List.eraseP_cons, List.filter_cons, hd, hrest]
    · simp [List.eraseP_cons, List.filter_cons, hd, ih hnodup.2]

/-- C15. Admin ticket deletion is an unconditional hard delete: `deleteTicket`
answers 404 exactly when no stored ticket has the id; otherwise, whatever the
state of the ticket, it answers 200 and the tickets afterwards are the
previous ones without that ticket, all others kept, events and users as
before. -/
theorem deleteTicket_hard_delete (s : Store) (id : ObjectId) :
    ((Admin.deleteTicket (some id) s).1.status = 404 ↔ ∀ t ∈ s.tickets, t._id ≠ id) ∧
    ∀ t ∈ s.tickets, t._id = id → (s.tickets.map (fun d => d._id)).Nodup →
      (Admin.deleteTicket (some id) s).1.status = 200 ∧
      (Admin.deleteTicket (some id) s).2.tickets =
        s.tickets.filter (fun d => d._id != id) ∧
      t ∉ (Admin.deleteTicket (some id) s).2.tickets ∧
      (∀ d ∈ s.tickets, d ≠ t → d ∈ (Admin.deleteTicket (some id) s).2.tickets) ∧
      (Admin.deleteTicket (some id) s).2.tickets.length + 1 = s.tickets.length ∧
      (Admin.deleteTicket (some id) s).2.events = s.events ∧
      (Admin.deleteTicket (some id) s).2.users = s.users := by
  constructor
  · cases hfind : s.tickets.find? (fun t => t._id == id) with
    | none =>
      have hno : ∀ t ∈ s.tickets, t._id ≠ id := by
        simpa using hfind
      simp only [Admin.deleteTicket, Mongo.findOneAndDelete, hfind]
      exact ⟨fun _ => hno, fun _ => trivial⟩
    | some t =>
      have hmem := List.mem_of_find?_eq_some hfind
      have hid : t._id = id := by simpa using List.find?_some hfind
      simp only [Admin.deleteTicket, Mongo.findOneAndDelete, hfind]
      constructor
      · intro h
        simp at h
      · intro h
        exact absurd hid (h t hmem)
  · intro t ht hid hnodup
    have hfind : s.tickets.find? (fun d => d._id == id) = some t := by
      have := Ticket.findById_of_mem hnodup ht
      simpa [Ticket.findById, Mongo.findOne, hid] using this
    have herase := Ticket.eraseP_eq_filter s.tickets id hnodup
    simp only [Admin.deleteTicket, Mongo.findOneAndDelete, hfind]
    refine ⟨trivial, herase, ?_, ?_, ?_, trivial, trivial⟩
    · rw [herase]
      simp [hid]
    · intro d hd hne
      rw [herase]
      have hdid : d._id ≠ id := by
        intro h
        exact hne (List.inj_on_of_nodup_map hnodup hd ht (h.trans hid.symm))
      simp [hd, hdid]
    · exact List.length_eraseP_add_one ht (by simp [hid])

set_option maxRecDepth 100000 in
/-- Witness for C15: the admin deletes the sold ticket of `soldStore`. -/
theorem deleteTicket_hard_delete_witness :
    vipSold ∈ soldStore.tickets ∧ (soldStore.tickets.map (fun d => d._id)).Nodup ∧
    vipSold.isAvailable = false ∧
    ((Admin.deleteTicket (some vipSold._id) soldStore).1.status = 200 ∧
      (Admin.deleteTicket (some vipSold._id) soldStore).2.tickets =
        soldStore.tickets.filter (fun d => d._id != vipSold._id) ∧
      vipSold ∉ (Admin.deleteTicket (some vipSold._id) soldStore).2.tickets ∧
      (∀ d ∈ soldStore.tickets, d ≠ vipSold →
        d ∈ (Admin.deleteTicket (some vipSold._id) soldStore).2.tickets) ∧
      (Admin.deleteTicket (some vipSold._id) soldStore).2.tickets.length + 1 =
        soldStore.tickets.length ∧
      (Admin.deleteTicket (some vipSold._id) soldStore).2.events = soldStore.events ∧
      (Admin.deleteTicket (some vipSold._id) soldStore).2.users = soldStore.users) :=
  ⟨by decide, by decide, rfl,
    (deleteTicket_hard_delete soldStore vipSold._id).2 vipSold (by decide) rfl
      (by decide)⟩

set_option maxRecDepth 100000 in
/-- Witness for C11: `ann` issues a ticket of type " VIP " for `gala` in the
store without tickets, with the renderer of `limitedEnv`, which renders the
payload text of this request and refuses longer texts. -/
theorem createTicket_postcondition_witness :
    (emptyTicketStore.events.map (fun d => d._id)).Nodup ∧ gala ∈ emptyTicketStore.events ∧
    gala.organizerId = ann._id ∧ User.findById emptyTicketStore.users ann._id = some ann ∧
    JS.trim " VIP " ≠ "" ∧ (∀ t ∈ emptyTicketStore.tickets, t._id ≠ vip._id) ∧
    (∀ text,
      Organizer.generateQRData limitedEnv
        { _id := vip._id, eventId := gala._id, ticketType := JS.trim " VIP ",
          attendeeId := none, qrCode := none, isAvailable := true,
          createdAt := vip.createdAt }
        (some (populateOrganizer emptyTicketStore.users gala)) = some text →
      (limitedEnv.toDataURL text).isSome = true) ∧
    limitedEnv.toDataURL longTicketType = none ∧
    ∃ text image created,
      created = { _id := vip._id, eventId := gala._id, ticketType := JS.trim " VIP ",
                  attendeeId := none, qrCode := some image, isAvailable := true,
                  createdAt := vip.createdAt } ∧
      Organizer.generateQRData limitedEnv created
        (some (populateOrganizer emptyTicketStore.users gala)) = some text ∧
      limitedEnv.toDataURL text = some image ∧
      (Organizer.createTicket limitedEnv (some gala._id) (some " VIP ") ann vip._id
        vip.createdAt emptyTicketStore).1.status = 201 ∧
      (Organizer.createTicket limitedEnv (some gala._id) (some " VIP ") ann vip._id
        vip.createdAt emptyTicketStore).1.ticket = some created ∧
      (Organizer.createTicket limitedEnv (some gala._id) (some " VIP ") ann vip._id
        vip.createdAt emptyTicketStore).2.tickets = emptyTicketStore.tickets ++ [created] ∧
      (Organizer.createTicket limitedEnv (some gala._id) (some " VIP ") ann vip._id
        vip.createdAt emptyTicketStore).2.events = emptyTicketStore.events ∧
      (Organizer.createTicket limitedEnv (some gala._id) (some " VIP ") ann vip._id
        vip.createdAt emptyTicketStore).2.users = emptyTicketStore.users := by
  have htext : Organizer.generateQRData limitedEnv
      { _id := vip._id, eventId := gala._id, ticketType := JS.trim " VIP ",
        attendeeId := none, qrCode := none, isAvailable := true,
        createdAt := vip.createdAt }
      (some (populateOrganizer emptyTicketStore.users gala)) = some
      ("Ticket ID      : 65a000000000000000000f01\n      Ticket Type    : VIP\n" ++
       "      Event Name     : Gala\n      Event Genre    : Music\n" ++
       "      Event Price    : $25\n      Organizer Name : Ann\n" ++
       "      Organizer Email: ann@example.com\n      Created At     : 1/1/2025, 12:00:00 AM") := by
    decide
  have hqr : ∀ text,
      Organizer.generateQRData limitedEnv
        { _id := vip._id, eventId := gala._id, ticketType := JS.trim " VIP ",
          attendeeId := none, qrCode := none, isAvailable := true,
          createdAt := vip.createdAt }
        (some (populateOrganizer emptyTicketStore.users gala)) = some text →
      (limitedEnv.toDataURL text).isSome = true := by
    intro text h
    rw [← Option.some.inj (htext.symm.trans h)]
    decide
  exact ⟨by decide, by decide, rfl, by decide, by decide, by decide, hqr,
    limitedEnv_refuses_longTicketType,
    createTicket_postcondition limitedEnv emptyTicketStore gala ann " VIP " vip._id
      vip.createdAt (by decide) (by decide) rfl (by decide) (by decide) (by decide) hqr⟩

/-! ## Notification -/

/-- Whatever the transport does, `sendEmail` returns. -/
theorem sendEmail_returns (m : Mailer) (toAddress subject text : String)
    (qrCodeBase64 : Option String) :
    ∃ log, sendEmail m toAddress subject text qrCodeBase64 = Except.ok log := by
  simp only [sendEmail]
  split
  · exact ⟨_, rfl⟩
  · exact ⟨_, rfl⟩

/-- No call of `sendEmail` throws. -/
theorem sendEmail_ne_error (m : Mailer) (toAddress subject text : String)
    (qrCodeBase64 : Option String) (e : String) :
    sendEmail m toAddress subject text qrCodeBase64 ≠ Except.error e := by
  obtain ⟨log, hlog⟩ := sendEmail_returns m toAddress subject text qrCodeBase64
  rw [hlog]
  intro h
  cases h

/-- The response and the store of the purchase with its mail step are those of
the purchase without it. -/
theorem Attendee.buyTicketWithMail_fst (env : Env) (m : Mailer) (today : String)
    (ticketId : Option ObjectId) (user : User) (s : Store) :
    (Attendee.buyTicketWithMail env m today ticketId user s).1 =
      Attendee.buyTicket env ticketId user s := by
  simp only [Attendee.buyTicketWithMail]
  split
  · split
    · rfl
    · split
      · rfl
      · split
        · rfl
        · rename_i herr
          exact absurd herr (sendEmail_ne_error _ _ _ _ _ _)
  · rfl

/-- C16. Notification failure never fails a purchase: `sendEmail` returns
whatever the mail transport does, so the response of `buyTicket` and the store
it leaves are the same for any two transports, and they are those of the
handler without its mail step. -/
theorem buyTicket_mail_independent (env : Env) (m1 m2 : Mailer) (today : String)
    (ticketId : Option ObjectId) (user : User) (s : Store) :
    (Attendee.buyTicketWithMail env m1 today ticketId user s).1 =
      (Attendee.buyTicketWithMail env m2 today ticketId user s).1 ∧
    (Attendee.buyTicketWithMail env m1 today ticketId user s).1 =
      Attendee.buyTicket env ticketId user s ∧
    ∀ (m : Mailer) (toAddress subject text : String) (qrCodeBase64 : Option String),
      ∃ log, sendEmail m toAddress subject text qrCodeBase64 = Except.ok log :=
  ⟨by rw [Attendee.buyTicketWithMail_fst, Attendee.buyTicketWithMail_fst],
   Attendee.buyTicketWithMail_fst env m1 today ticketId user s,
   sendEmail_returns⟩

/-! ## Binding of a sold ticket -/

/-- The tickets `buyTicket` leaves: the old ones, or, when the requested
ticket was found available, the old ones with that ticket bound to the
buyer. -/
theorem Attendee.buyTicket_tickets_cases (env : Env) (ticketId : Option ObjectId)
    (user : User) (s : Store) :
    (Attendee.buyTicket env ticketId user s).2.tickets = s.tickets ∨
    ∃ tid t image, ticketId = some tid ∧ Ticket.findById s.tickets tid = some t ∧
      t.isAvailable = true ∧
      (Attendee.buyTicket env ticketId user s).2.tickets =
        Mongo.updateOne (fun d => d._id == tid)
          (fun d => { d with attendeeId := some user._id, isAvailable := false,
                             qrCode := some image }) s.tickets := by
  cases ticketId with
  | none => exact Or.inl rfl
  | some tid =>
    cases hfind : Ticket.findById s.tickets tid with
    | none =>
      left
      simp [Attendee.buyTicket, findTicketPopulated, hfind, Attendee.buyTicketAfterRead]
    | some t =>
      cases havail : t.isAvailable with
      | false =>
        left
        rw [Attendee.buyTicket_of_sold env s tid t user hfind havail]
      | true =>
        have hid : t._id = tid := by
          have := List.find?_some hfind
          simpa using this
        subst hid
        simp only [Attendee.buyTicket, findTicketPopulated, hfind, Option.map_some',
          Attendee.buyTicketAfterRead, havail]
        repeat' split
        all_goals first
          | exact Or.inl rfl
          | exact Or.inr ⟨_, t, _, rfl, hfind, havail, rfl⟩

/-- A request other than the deletion of attendee `a` and the creation of a
ticket with id `tid` keeps every ticket with id `tid` bound to `a`. -/
theorem step_keeps_attendee (env : Env) (op : Op) (s : Store) (tid a : ObjectId)
    (hcons : ∀ t ∈ s.tickets, t.Consistent)
    (hbound : ∀ t ∈ s.tickets, t._id = tid → t.attendeeId = some a)
    (hdel : op.deletesAttendee a = false) (hcreate : op.createsId tid = false) :
    ∀ t ∈ (step env op s).2.tickets, t._id = tid → t.attendeeId = some a := by
  cases op with
  | createTicket eventId ticketType user newId now =>
    have hnew : newId ≠ tid := by simpa [Op.createsId] using hcreate
    have happ : ∀ (eid : ObjectId) (tt : String),
        ∀ t ∈ s.tickets ++ [Ticket.mk newId eid tt none none true now],
          t._id = tid → t.attendeeId = some a := by
      intro eid tt t ht hid
      rcases List.mem_append.mp ht with h | h
      · exact hbound t h hid
      · simp only [List.mem_singleton] at h
        subst h
        exact absurd hid hnew
    simp only [step]
    rcases Organizer.createTicket_tickets env eventId ticketType user newId now s with
      h | ⟨eid, tt, h | ⟨image, h⟩⟩
    · rw [h]; exact hbound
    · rw [h]; exact happ eid tt
    · rw [h]
      intro t ht hid
      rcases Mongo.mem_updateOne _ _ _ t ht with h1 | ⟨d, hd, -, rfl⟩
      · exact happ eid tt t h1 hid
      · exact happ eid tt d hd hid
  | buyTicket ticketId user =>
    simp only [step]
    rcases Attendee.buyTicket_tickets_cases env ticketId user s with
      h | ⟨tid2, t0, image, -, hfind, havail, h⟩
    · rw [h]; exact hbound
    · rw [h]
      intro t ht hid
      rcases Mongo.mem_updateOne _ _ _ t ht with h1 | ⟨d, -, hpd, rfl⟩
      · exact hbound t h1 hid
      · exfalso
        have hd : d._id = tid2 := by simpa using hpd
        have ht0mem : t0 ∈ s.tickets := List.mem_of_find?_eq_some hfind
        have ht0id : t0._id = tid2 := by
          have := List.find?_some hfind
          simpa using this
        have hb := hbound t0 ht0mem (ht0id.trans (hd.symm.trans hid))
        have hc := hcons t0 ht0mem
        simp [Ticket.Consistent, hb, havail] at hc
  | adminDeleteTicket id =>
    exact fun t ht => hbound t (Admin.deleteTicket_tickets_subset id s t ht)
  | organizerDeleteEvent id user =>
    exact fun t ht => hbound t (Organizer.deleteEvent_keeps_old_tickets id user s t ht)
  | adminDeleteEvent id =>
    exact fun t ht => hbound t (Admin.deleteEvent_tickets_subset id s t ht)
  | deleteAttendee id =>
    simp only [step, Admin.deleteAttendee]
    repeat' split
    all_goals first
      | exact hbound
      | (intro t ht hid
         rename_i id2 _ _ _ _
         have hne : id2 ≠ a := by simpa [Op.deletesAttendee] using hdel
         simp only [Mongo.updateMany, List.mem_map] at ht
         obtain ⟨d, hd, rfl⟩ := ht
         split at hid
         · rename_i hmatch
           have hb := hbound d hd hid
           rw [hb] at hmatch
           simp at hmatch
           exact absurd hmatch.symm hne
         · rename_i hmatch
           simp only [hmatch]
           exact hbound d hd hid)
  | deleteOrganizer id =>
    exact fun t ht => hbound t (Admin.deleteOrganizer_tickets_subset id s t ht)

set_option maxRecDepth 100000 in
/-- C17, as stated, fails: after `bob` has bought the ticket `vip` its
attendeeId is `bob`; after the deletion of `bob` and a purchase by `cara` the
same ticket is still stored and its attendeeId is `cara`. -/
theorem attendee_changes_after_release :
    bob._id ≠ cara._id ∧
    (Ticket.findById (run sampleEnv [Op.buyTicket (some vip._id) bob]
      sampleStore).tickets vip._id).bind (fun d => d.attendeeId) = some bob._id ∧
    (Ticket.findById (run sampleEnv
      [Op.buyTicket (some vip._id) bob, Op.deleteAttendee (some bob._id)]
      sampleStore).tickets vip._id).map (fun d => d.attendeeId) = some none ∧
    (Ticket.findById (run sampleEnv
      [Op.buyTicket (some vip._id) bob, Op.deleteAttendee (some bob._id),
       Op.buyTicket (some vip._id) cara]
      sampleStore).tickets vip._id).bind (fun d => d.attendeeId) = some cara._id := by
  decide

/-- C17, amended: in a state that satisfies the state invariant, once the
ticket with id `tid` has attendeeId = a, it keeps that attendeeId in every
later state in which it is stored, through every sequence of requests that
neither deletes the attendee a (deleteAttendee releases the tickets of a) nor
issues the id `tid` anew. -/
theorem attendee_kept_until_released (env : Env) (s : Store) (tid a : ObjectId)
    (ops : List Op)
    (hcons : ∀ t ∈ s.tickets, t.Consistent)
    (hbound : ∀ t ∈ s.tickets, t._id = tid → t.attendeeId = some a)
    (hops : ∀ op ∈ ops, op.deletesAttendee a = false ∧ op.createsId tid = false) :
    ∀ t ∈ (run env ops s).tickets, t._id = tid → t.attendeeId = some a := by
  induction ops generalizing s with
  | nil => simpa [run] using hbound
  | cons op ops ih =>
    have hop := hops op (List.mem_cons_self _ _)
    have := ih (step env op s).2 (step_consistent env op s hcons)
      (step_keeps_attendee env op s tid a hcons hbound hop.1 hop.2)
      (fun o ho => hops o (List.mem_cons_of_mem _ ho))
    simpa [run] using this

set_option maxRecDepth 100000 in
/-- Witness for C17, amended: the ticket of `soldStore` is bound to `bob`;
`cara` asks for it, the admin deletes `cara`, and `ann` issues another
ticket. -/
theorem attendee_kept_until_released_witness :
    (∀ t ∈ soldStore.tickets, t.isAvailable = t.attendeeId.isNone) ∧
    (∀ t ∈ soldStore.tickets, t._id = vip._id → t.attendeeId = some bob._id) ∧
    (∀ op ∈ [Op.buyTicket (some vip._id) cara, Op.deleteAttendee (some cara._id),
        Op.createTicket (some gala._id) (some "Standard") ann "65a000000000000000000f02"
          1735689600001],
      op.deletesAttendee bob._id = false ∧ op.createsId vip._id = false) ∧
    ∀ t ∈ (run sampleEnv
        [Op.buyTicket (some vip._id) cara, Op.deleteAttendee (some cara._id),
         Op.createTicket (some gala._id) (some "Standard") ann "65a000000000000000000f02"
           1735689600001] soldStore).tickets,
      t._id = vip._id → t.attendeeId = some bob._id :=
  ⟨by decide, by decide, by decide,
    attendee_kept_until_released sampleEnv soldStore vip._id bob._id _
      (by simp only [Ticket.Consistent]; decide) (by decide) (by decide)⟩

/-! ## Event ownership and price -/

/-- Position by position, `updateOne` leaves a document as it is or replaces a
matching one by its update. -/
theorem Mongo.get_updateOne {α : Type} (p : α → Bool) (f : α → α) (docs : List α)
    (i : Nat) (d : α) (hd : docs[i]? = some d) :
    (Mongo.updateOne p f docs)[i]? = some d ∨
    (p d = true ∧ (Mongo.updateOne p f docs)[i]? = some (f d)) := by
  induction docs generalizing i with
  | nil => simp at hd
  | cons x docs ih =>
    by_cases hx : p x = true
    · cases i with
      | zero =>
        simp only [List.getElem?_cons_zero, Option.some.injEq] at hd
        subst hd
        exact Or.inr ⟨hx, by simp [Mongo.updateOne, hx]⟩
      | succ i =>
        simp only [List.getElem?_cons_succ] at hd
        exact Or.inl (by simp [Mongo.updateOne, hx, hd])
    · cases i with
      | zero =>
        simp only [List.getElem?_cons_zero, Option.some.injEq] at hd
        subst hd
        exact Or.inl (by simp [Mongo.updateOne, hx])
      | succ i =>
        simp only [List.getElem?_cons_succ] at hd
        rcases ih i hd with h | ⟨hp, h⟩
        · exact Or.inl (by simp [Mongo.updateOne, hx, h])
        · exact Or.inr ⟨hp, by simp [Mongo.updateOne, hx, h]⟩

/-- The length of a collection is kept by `updateOne`. -/
theorem Mongo.length_updateOne {α : Type} (p : α → Bool) (f : α → α) (c : List α) :
    (Mongo.updateOne p f c).length = c.length := by
  induction c with
  | nil => rfl
  | cons x c ih =>
    by_cases hx : p x = true
    · simp [Mongo.updateOne, hx]
    · simp [Mongo.updateOne, hx, ih]

/-- The events `updateEvent` leaves: the old ones, or the old ones with the
validated updates applied to the first event of the requested id and owner;
users and tickets are kept. -/
theorem Organizer.updateEvent_store (co : Coercion) (id : Option ObjectId)
    (body : EventBody) (user : User) (s : Store) :
    (Organizer.updateEvent co id body user s).2.users = s.users ∧
    (Organizer.updateEvent co id body user s).2.tickets = s.tickets ∧
    ((Organizer.updateEvent co id body user s).2.events = s.events ∨
     ∃ eid, (Organizer.updatesOf co body).valid = true ∧
       (body.price = BodyPrice.undefined ∨ (body.price.parse co).isSome = true) ∧
       (Organizer.updateEvent co id body user s).2.events =
         Mongo.updateOne (fun e => e._id == eid && e.organizerId == user._id)
           (Organizer.updatesOf co body).apply s.events) := by
  simp only [Organizer.updateEvent]
  split
  · exact ⟨rfl, rfl, Or.inl rfl⟩
  · split
    · exact ⟨rfl, rfl, Or.inl rfl⟩
    · split
      · exact ⟨rfl, rfl, Or.inl rfl⟩
      · rename_i hparse
        split
        · exact ⟨rfl, rfl, Or.inl rfl⟩
        · rename_i hvalid
          split
          · exact ⟨rfl, rfl, Or.inl rfl⟩
          · refine ⟨rfl, rfl, Or.inr ⟨_, by simpa using hvalid, ?_, rfl⟩⟩
            by_cases hu : body.price = BodyPrice.undefined
            · exact Or.inl hu
            · right
              exact Option.isSome_iff_ne_none.mpr (by simpa [hu] using hparse)

/-- C19. Frame of `updateEvent`: whatever the body carries, after the call the
events are position by position the previous ones with the same id,
organizerId and createdAt; a name, description, genre or category differs from
before only by being the trimmed value the body supplies, the price only by
being the parsed price of the body; tickets and users are as before. -/
theorem updateEvent_frame (co : Coercion) (id : Option ObjectId) (body : EventBody)
    (user : User) (s : Store) :
    (Organizer.updateEvent co id body user s).2.tickets = s.tickets ∧
    (Organizer.updateEvent co id body user s).2.users = s.users ∧
    (Organizer.updateEvent co id body user s).2.events.length = s.events.length ∧
    ∀ (i : Nat) (e : Event), s.events[i]? = some e →
      ∃ r, (Organizer.updateEvent co id body user s).2.events[i]? = some r ∧
        r._id = e._id ∧ r.organizerId = e.organizerId ∧ r.createdAt = e.createdAt ∧
        (r.name = e.name ∨ ∃ v, body.name = some v ∧ r.name = JS.trim v) ∧
        (r.description = e.description ∨
          ∃ v, body.description = some v ∧ r.description = JS.trim v) ∧
        (r.genre = e.genre ∨ ∃ v, body.genre = some v ∧ r.genre = JS.trim v) ∧
        (r.category = e.category ∨ ∃ v, body.category = some v ∧ r.category = JS.trim v) ∧
        (r.price = e.price ∨
          (body.price ≠ BodyPrice.undefined ∧ body.price.parse co = some r.price)) := by
  have htext : ∀ (v : Option String) (old : String),
      ((JS.ifTruthy v).map JS.trim).getD old = old ∨
      ∃ w, v = some w ∧ ((JS.ifTruthy v).map JS.trim).getD old = JS.trim w := by
    intro v old
    cases v with
    | none => exact Or.inl rfl
    | some w =>
      by_cases hw : w = ""
      · exact Or.inl (by simp [JS.ifTruthy, hw])
      · exact Or.inr ⟨w, rfl, by simp [JS.ifTruthy, hw]⟩
  have hprice : ∀ (old : Rat), (body.price.parse co).getD old = old ∨
      (body.price ≠ BodyPrice.undefined ∧
        body.price.parse co = some ((body.price.parse co).getD old)) := by
    intro old
    cases hp : body.price.parse co with
    | none => exact Or.inl rfl
    | some q =>
      refine Or.inr ⟨?_, rfl⟩
      intro hu
      rw [hu] at hp
      simp [BodyPrice.parse] at hp
  obtain ⟨husers, htickets, hevents⟩ := Organizer.updateEvent_store co id body user s
  refine ⟨htickets, husers, ?_, ?_⟩
  · rcases hevents with h | ⟨eid, -, -, h⟩
    · rw [h]
    · rw [h, Mongo.length_updateOne]
  · intro i e hi
    rcases hevents with h | ⟨eid, -, -, h⟩
    · rw [h]
      exact ⟨e, hi, rfl, rfl, rfl, Or.inl rfl, Or.inl rfl, Or.inl rfl, Or.inl rfl,
        Or.inl rfl⟩
    · rw [h]
      rcases Mongo.get_updateOne _ (Organizer.updatesOf co body).apply s.events i e hi
        with h1 | ⟨-, h1⟩
      · exact ⟨e, h1, rfl, rfl, rfl, Or.inl rfl, Or.inl rfl, Or.inl rfl, Or.inl rfl,
          Or.inl rfl⟩
      · exact ⟨_, h1, rfl, rfl, rfl, htext body.name e.name,
          htext body.description e.description, htext body.genre e.genre,
          htext body.category e.category, hprice e.price⟩

/-- A negative price is a price that is present. -/
theorem BodyPrice.ne_undefined_of_isNegative (co : Coercion) (price : BodyPrice)
    (h : price.isNegative co = true) : price ≠ BodyPrice.undefined := by
  intro hu
  rw [hu] at h
  simp [BodyPrice.isNegative] at h

/-- An `updateEvent` request that carries a negative price is answered 400
before anything else and writes nothing. -/
theorem Organizer.updateEvent_of_negative (co : Coercion) (id : Option ObjectId)
    (body : EventBody) (user : User) (s : Store)
    (hneg : body.price.isNegative co = true) :
    Organizer.updateEvent co id body user s =
      ({ status := 400, error := some "Price cannot be negative" }, s) := by
  have hu := BodyPrice.ne_undefined_of_isNegative co body.price hneg
  simp [Organizer.updateEvent, hneg, hu]

set_option maxRecDepth 100000 in
/-- C18, as stated, fails: `gala` belongs to `ann`; the `updateEvent` request
of the organizer `dan` for it with a body whose price is -5 is answered 400
"Price cannot be negative", not 404. -/
theorem updateEvent_other_owner_negative_price_is_400 :
    gala ∈ twoOrganizerStore.events ∧ gala.organizerId ≠ dan._id ∧
    negativePriceBody.price = BodyPrice.number (-5) ∧
    Organizer.updateEvent sampleCoercion (some gala._id) negativePriceBody dan
      twoOrganizerStore =
      ({ status := 400, error := some "Price cannot be negative" }, twoOrganizerStore) ∧
    (Organizer.updateEvent sampleCoercion (some gala._id) negativePriceBody dan
      twoOrganizerStore).1.status ≠ 404 := by
  decide

/-- C18, amended: for a stored event whose organizerId is not the id of the
requesting principal, the organizer's `deleteEvent` answers 404 and
`updateEvent` answers 400 "Price cannot be negative" when the body carries a
negative price, 500 when the body fails the cast or the validators of the
schema, and 404 otherwise; in every case the store, with all its events and
tickets, is left as it was. -/
theorem event_untouched_by_other_organizer (co : Coercion) (s : Store) (e : Event)
    (p : User) (body : EventBody)
    (hnodup : (s.events.map (fun d => d._id)).Nodup) (he : e ∈ s.events)
    (hne : e.organizerId ≠ p._id) :
    Organizer.deleteEvent (some e._id) p s =
      ({ status := 404, error := some "Event not found or unauthorized" }, s) ∧
    (Organizer.updateEvent co (some e._id) body p s).2 = s ∧
    (body.price.isNegative co = true →
      (Organizer.updateEvent co (some e._id) body p s).1 =
        { status := 400, error := some "Price cannot be negative" }) ∧
    (body.price.isNegative co = false →
      ((body.price = BodyPrice.undefined ∨ (body.price.parse co).isSome = true) ∧
        (Organizer.updatesOf co body).valid = true →
        (Organizer.updateEvent co (some e._id) body p s).1 =
          { status := 404, error := some "Event not found or unauthorized" }) ∧
      (¬((body.price = BodyPrice.undefined ∨ (body.price.parse co).isSome = true) ∧
          (Organizer.updatesOf co body).valid = true) →
        (Organizer.updateEvent co (some e._id) body p s).1 =
          { status := 500, error := some "Server error while updating event" })) := by
  have hno : ∀ d ∈ s.events, d._id = e._id → d.organizerId ≠ p._id := by
    intro d hd hid
    rw [List.inj_on_of_nodup_map hnodup hd he hid]
    exact hne
  have hfind := Event.findOne_not_owned s.events e._id p._id hno
  have hfind2 : s.events.find? (fun d => d._id == e._id && d.organizerId == p._id) = none :=
    hfind
  have hstore : (Organizer.updateEvent co (some e._id) body p s).2 = s := by
    simp only [Organizer.updateEvent]
    repeat' split
    all_goals first
      | rfl
      | (rename_i hsome; rw [hfind] at hsome; cases hsome)
  refine ⟨?_, hstore, ?_, ?_⟩
  · simp [Organizer.deleteEvent, Mongo.findOneAndDelete, hfind2]
  · intro hneg
    rw [Organizer.updateEvent_of_negative co _ body p s hneg]
  · intro hneg
    constructor
    · rintro ⟨hparse, hvalid⟩
      rcases hparse with hu | hsome
      · simp [Organizer.updateEvent, hneg, hu, hvalid, hfind]
      · have hnone : body.price.parse co ≠ none := Option.isSome_iff_ne_none.mp hsome
        simp [Organizer.updateEvent, hneg, hnone, hvalid, hfind]
    · intro hbad
      by_cases hparse : body.price = BodyPrice.undefined ∨ (body.price.parse co).isSome = true
      · have hvalid : (Organizer.updatesOf co body).valid = false := by
          cases hv : (Organizer.updatesOf co body).valid with
          | false => rfl
          | true => exact absurd ⟨hparse, hv⟩ hbad
        rcases hparse with hu | hsome
        · simp [Organizer.updateEvent, hneg, hu, hvalid]
        · have hnone : body.price.parse co ≠ none := Option.isSome_iff_ne_none.mp hsome
          simp [Organizer.updateEvent, hneg, hnone, hvalid]
      · have hu : body.price ≠ BodyPrice.undefined := fun h => hparse (Or.inl h)
        have hnone : body.price.parse co = none := by
          cases hp : body.price.parse co with
          | none => rfl
          | some q => exact absurd (Or.inr (by simp [hp])) hparse
        simp [Organizer.updateEvent, hneg, hu, hnone]

set_option maxRecDepth 100000 in
/-- Witness for C18, amended: `dan` asks to delete `gala`, an event of `ann`,
and to set its price to 0. -/
theorem event_untouched_by_other_organizer_witness :
    (twoOrganizerStore.events.map (fun d => d._id)).Nodup ∧
    gala ∈ twoOrganizerStore.events ∧ gala.organizerId ≠ dan._id ∧
    zeroPriceBody.price.isNegative sampleCoercion = false ∧
    ((zeroPriceBody.price = BodyPrice.undefined ∨
        (zeroPriceBody.price.parse sampleCoercion).isSome = true) ∧
      (Organizer.updatesOf sampleCoercion zeroPriceBody).valid = true) ∧
    Organizer.deleteEvent (some gala._id) dan twoOrganizerStore =
      ({ status := 404, error := some "Event not found or unauthorized" },
       twoOrganizerStore) ∧
    (Organizer.updateEvent sampleCoercion (some gala._id) zeroPriceBody dan
      twoOrganizerStore).2 = twoOrganizerStore ∧
    (Organizer.updateEvent sampleCoercion (some gala._id) zeroPriceBody dan
      twoOrganizerStore).1 =
      { status := 404, error := some "Event not found or unauthorized" } :=
  ⟨by decide, by decide, by decide, by decide, by decide,
    (event_untouched_by_other_organizer sampleCoercion twoOrganizerStore gala dan
      zeroPriceBody (by decide) (by decide) (by decide)).1,
    (event_untouched_by_other_organizer sampleCoercion twoOrganizerStore gala dan
      zeroPriceBody (by decide) (by decide) (by decide)).2.1,
    ((event_untouched_by_other_organizer sampleCoercion twoOrganizerStore gala dan
      zeroPriceBody (by decide) (by decide) (by decide)).2.2.2 (by decide)).1
      (by decide)⟩

/-- The store `createEvent` leaves: users and tickets as before; the events
as before, or followed by one new event whose price is not negative. -/
theorem Organizer.createEvent_store (co : Coercion) (body : EventBody) (user : User)
    (newId : ObjectId) (now : Date) (s : Store) :
    (Organizer.createEvent co body user newId now s).2.users = s.users ∧
    (Organizer.createEvent co body user newId now s).2.tickets = s.tickets ∧
    ((Organizer.createEvent co body user newId now s).2.events = s.events ∨
     ∃ ev : Event, 0 ≤ ev.price ∧
       (Organizer.createEvent co body user newId now s).2.events = s.events ++ [ev]) := by
  simp only [Organizer.createEvent]
  repeat' split
  all_goals first
    | exact ⟨rfl, rfl, Or.inl rfl⟩
    | (rename_i hguard
       refine ⟨rfl, rfl, Or.inr ⟨_, ?_, rfl⟩⟩
       simp only [Bool.or_eq_true, decide_eq_true_eq, not_or, not_lt] at hguard
       exact hguard.1.2)

/-- A `createEvent` request that carries a negative price is answered 400 and
writes nothing; when the four texts are supplied the error is "Price cannot be
negative". -/
theorem Organizer.createEvent_of_negative (co : Coercion) (body : EventBody) (user : User)
    (newId : ObjectId) (now : Date) (s : Store)
    (hneg : body.price.isNegative co = true) :
    (Organizer.createEvent co body user newId now s).1.status = 400 ∧
    (Organizer.createEvent co body user newId now s).2 = s ∧
    ((JS.ifTruthy body.name).isSome = true → (JS.ifTruthy body.description).isSome = true →
      (JS.ifTruthy body.genre).isSome = true → (JS.ifTruthy body.category).isSome = true →
      (Organizer.createEvent co body user newId now s).1 =
        { status := 400, error := some "Price cannot be negative" }) := by
  have hu := BodyPrice.ne_undefined_of_isNegative co body.price hneg
  cases hn : JS.ifTruthy body.name with
  | none => simp [Organizer.createEvent, hn]
  | some n =>
    cases hd : JS.ifTruthy body.description with
    | none => simp [Organizer.createEvent, hn, hd]
    | some d =>
      cases hg : JS.ifTruthy body.genre with
      | none => simp [Organizer.createEvent, hn, hd, hg]
      | some g =>
        cases hc : JS.ifTruthy body.category with
        | none => simp [Organizer.createEvent, hn, hd, hg, hc]
        | some c => simp [Organizer.createEvent, hn, hd, hg, hc, hu, hneg]

/-- Every event request keeps all stored prices at or above 0. -/
theorem stepEvent_price_nonneg (co : Coercion) (op : EventOp) (s : Store)
    (h : ∀ e ∈ s.events, 0 ≤ e.price) :
    ∀ e ∈ (stepEvent co op s).2.events, 0 ≤ e.price := by
  cases op with
  | createEvent body user newId now =>
    simp only [stepEvent]
    rcases (Organizer.createEvent_store co body user newId now s).2.2 with
      hs | ⟨ev, hev, hs⟩
    · rw [hs]; exact h
    · rw [hs]
      intro e he
      rcases List.mem_append.mp he with h1 | h1
      · exact h e h1
      · simp only [List.mem_singleton] at h1
        rw [h1]; exact hev
  | updateEvent id body user =>
    simp only [stepEvent]
    rcases (Organizer.updateEvent_store co id body user s).2.2 with
      hs | ⟨eid, hvalid, -, hs⟩
    · rw [hs]; exact h
    · rw [hs]
      intro e he
      rcases Mongo.mem_updateOne _ _ _ e he with h1 | ⟨d, hd, -, rfl⟩
      · exact h e h1
      · simp only [EventUpdates.apply]
        cases hp : (Organizer.updatesOf co body).price with
        | none => simpa using h d hd
        | some q =>
          simp only [EventUpdates.valid, hp, Bool.and_eq_true, decide_eq_true_eq] at hvalid
          simpa using hvalid.2

/-- A run of event requests keeps all stored prices at or above 0. -/
theorem runEvents_price_nonneg (co : Coercion) (ops : List EventOp) (s : Store)
    (h : ∀ e ∈ s.events, 0 ≤ e.price) :
    ∀ e ∈ (runEvents co ops s).events, 0 ≤ e.price := by
  induction ops generalizing s with
  | nil => simpa [runEvents] using h
  | cons op ops ih =>
    have := ih (stepEvent co op s).2 (stepEvent_price_nonneg co op s h)
    simpa [runEvents] using this

/-- The successful path of `createEvent` for a body whose price is the number
0. -/
theorem Organizer.createEvent_zero_price (co : Coercion) (body : EventBody) (user : User)
    (newId : ObjectId) (now : Date) (s : Store) (name description genre category : String)
    (hn : body.name = some name) (hd : body.description = some description)
    (hg : body.genre = some genre) (hc : body.category = some category)
    (hp : body.price = BodyPrice.number 0)
    (hnt : JS.trim name ≠ "") (hdt : JS.trim description ≠ "") (hgt : JS.trim genre ≠ "")
    (hct : JS.trim category ≠ "") (hfresh : ∀ e ∈ s.events, e._id ≠ newId) :
    (Organizer.createEvent co body user newId now s).1.status = 201 ∧
    (Organizer.createEvent co body user newId now s).2.events =
      s.events ++ [{ _id := newId, name := JS.trim name,
                     description := JS.trim description, genre := JS.trim genre,
                     category := JS.trim category, price := 0, organizerId := user._id,
                     createdAt := now }] := by
  have hne : ∀ (v : String), JS.trim v ≠ "" → JS.ifTruthy (some v) = some v := by
    intro v hv
    have : v ≠ "" := fun h => hv (h ▸ JS.trim_empty)
    simp [JS.ifTruthy, this]
  have hany : s.events.any (fun d => d._id == newId) = false := by
    simp only [List.any_eq_false, beq_iff_eq]
    exact fun e he => hfresh e he
  simp [Organizer.createEvent, hn, hd, hg, hc, hp, hne name hnt, hne description hdt,
    hne genre hgt, hne category hct, BodyPrice.isNegative, BodyPrice.parse, hnt, hdt, hgt,
    hct, hany]

/-- The successful path of `updateEvent` for the owner and a body whose price
is the number 0. -/
theorem Organizer.updateEvent_zero_price (co : Coercion) (body : EventBody) (user : User)
    (s : Store) (e : Event)
    (hnodup : (s.events.map (fun d => d._id)).Nodup) (he : e ∈ s.events)
    (hown : e.organizerId = user._id) (hp : body.price = BodyPrice.number 0)
    (hvalid : (Organizer.updatesOf co body).valid = true) :
    (Organizer.updateEvent co (some e._id) body user s).1.status = 200 ∧
    (Organizer.updateEvent co (some e._id) body user s).1.event =
      some ((Organizer.updatesOf co body).apply e) ∧
    ((Organizer.updatesOf co body).apply e).price = 0 ∧
    ((Organizer.updatesOf co body).apply e)._id = e._id ∧
    (Organizer.updatesOf co body).apply e ∈
      (Organizer.updateEvent co (some e._id) body user s).2.events := by
  have hfind := Event.findOne_owned user._id hnodup he hown
  have hfind2 : s.events.find? (fun d => d._id == e._id && d.organizerId == user._id) =
      some e := hfind
  have hmem : (Organizer.updatesOf co body).apply e ∈
      Mongo.updateOne (fun d => d._id == e._id && d.organizerId == user._id)
        (Organizer.updatesOf co body).apply s.events := by
    have h := Mongo.find?_updateOne (fun d : Event => d._id == e._id &&
      d.organizerId == user._id) (Organizer.updatesOf co body).apply
      (fun d hd => by simpa [EventUpdates.apply] using hd) s.events
    rw [hfind2] at h
    exact List.mem_of_find?_eq_some h
  have hprice : ((Organizer.updatesOf co body).apply e).price = 0 := by
    simp [EventUpdates.apply, Organizer.updatesOf, hp, BodyPrice.parse]
  refine ⟨?_, ?_, hprice, rfl, ?_⟩
  · simp [Organizer.updateEvent, hp, BodyPrice.isNegative, BodyPrice.parse, hvalid, hfind]
  · simp [Organizer.updateEvent, hp, BodyPrice.isNegative, BodyPrice.parse, hvalid, hfind]
  · simpa [Organizer.updateEvent, hp, BodyPrice.isNegative, BodyPrice.parse, hvalid, hfind]
      using hmem

set_option maxRecDepth 100000 in
/-- C20, as stated, fails: the `createEvent` request with a price of -5 and no
name is answered 400 with the error about required fields, not "Price cannot
be negative". -/
theorem createEvent_negative_price_other_error :
    negativePriceBody.price = BodyPrice.number (-5) ∧
    negativePriceBody.price.isNegative sampleCoercion = true ∧
    Organizer.createEvent sampleCoercion negativePriceBody ann "65a000000000000000000e02"
      1735689600001 sampleStore =
      ({ status := 400,
         error := some "Name, description, genre, category, and price are required" },
       sampleStore) ∧
    (Organizer.createEvent sampleCoercion negativePriceBody ann "65a000000000000000000e02"
      1735689600001 sampleStore).1.error ≠ some "Price cannot be negative" := by
  decide

/-- C20, amended: in every state reached from a store without events by
`createEvent` and `updateEvent` requests every stored event has price >= 0; a
request that carries a negative price is answered 400 and leaves the store as
it was, with the error "Price cannot be negative" from `updateEvent` always
and from `createEvent` when name, description, genre and category are all
supplied (`createEvent` reports missing required fields first); a price of
exactly 0 is accepted by both operations. -/
theorem price_never_negative (co : Coercion) :
    (∀ (s0 : Store) (ops : List EventOp), s0.events = [] →
      ∀ e ∈ (runEvents co ops s0).events, 0 ≤ e.price) ∧
    (∀ (id : Option ObjectId) (body : EventBody) (user : User) (s : Store),
      body.price.isNegative co = true →
      Organizer.updateEvent co id body user s =
        ({ status := 400, error := some "Price cannot be negative" }, s)) ∧
    (∀ (body : EventBody) (user : User) (newId : ObjectId) (now : Date) (s : Store),
      body.price.isNegative co = true →
      (Organizer.createEvent co body user newId now s).1.status = 400 ∧
      (Organizer.createEvent co body user newId now s).2 = s ∧
      ((JS.ifTruthy body.name).isSome = true →
        (JS.ifTruthy body.description).isSome = true →
        (JS.ifTruthy body.genre).isSome = true →
        (JS.ifTruthy body.category).isSome = true →
        (Organizer.createEvent co body user newId now s).1 =
          { status := 400, error := some "Price cannot be negative" })) ∧
    (∀ (body : EventBody) (user : User) (newId : ObjectId) (now : Date) (s : Store)
      (name description genre category : String),
      body.name = some name → body.description = some description →
      body.genre = some genre → body.category = some category →
      body.price = BodyPrice.number 0 →
      JS.trim name ≠ "" → JS.trim description ≠ "" → JS.trim genre ≠ "" →
      JS.trim category ≠ "" → (∀ e ∈ s.events, e._id ≠ newId) →
      (Organizer.createEvent co body user newId now s).1.status = 201 ∧
      (Organizer.createEvent co body user newId now s).2.events =
        s.events ++ [{ _id := newId, name := JS.trim name,
                       description := JS.trim description, genre := JS.trim genre,
                       category := JS.trim category, price := 0, organizerId := user._id,
                       createdAt := now }]) ∧
    (∀ (body : EventBody) (user : User) (s : Store) (e : Event),
      (s.events.map (fun d => d._id)).Nodup → e ∈ s.events → e.organizerId = user._id →
      body.price = BodyPrice.number 0 → (Organizer.updatesOf co body).valid = true →
      (Organizer.updateEvent co (some e._id) body user s).1.status = 200 ∧
      (Organizer.updateEvent co (some e._id) body user s).1.event =
        some ((Organizer.updatesOf co body).apply e) ∧
      ((Organizer.updatesOf co body).apply e).price = 0 ∧
      ((Organizer.updatesOf co body).apply e)._id = e._id ∧
      (Organizer.updatesOf co body).apply e ∈
        (Organizer.updateEvent co (some e._id) body user s).2.events) :=
  ⟨fun s0 ops h0 => runEvents_price_nonneg co ops s0 (by simp [h0]),
   fun id body user s hneg => Organizer.updateEvent_of_negative co id body user s hneg,
   fun body user newId now s hneg =>
     Organizer.createEvent_of_negative co body user newId now s hneg,
   fun body user newId now s name description genre category hn hd hg hc hp hnt hdt hgt
       hct hfresh =>
     Organizer.createEvent_zero_price co body user newId now s name description genre
       category hn hd hg hc hp hnt hdt hgt hct hfresh,
   fun body user s e hnodup he hown hp hvalid =>
     Organizer.updateEvent_zero_price co body user s e hnodup he hown hp hvalid⟩

set_option maxRecDepth 100000 in
/-- Witness for C20, amended: on a store without events `ann` creates a free
event, sets its price to 25 and asks for a negative price; negative prices are
refused by both handlers; the price 0 is accepted by both. -/
theorem price_never_negative_witness :
    (noEventStore.events = [] ∧
     (runEvents sampleCoercion
        [EventOp.createEvent freeEventBody ann "65a000000000000000000e02" 1735689600001,
         EventOp.updateEvent (some "65a000000000000000000e02")
           { zeroPriceBody with price := BodyPrice.text "25" } ann,
         EventOp.updateEvent (some "65a000000000000000000e02") negativeFullBody ann]
        noEventStore).events.map (fun e => e.price) = [25] ∧
     ∀ e ∈ (runEvents sampleCoercion
        [EventOp.createEvent freeEventBody ann "65a000000000000000000e02" 1735689600001,
         EventOp.updateEvent (some "65a000000000000000000e02")
           { zeroPriceBody with price := BodyPrice.text "25" } ann,
         EventOp.updateEvent (some "65a000000000000000000e02") negativeFullBody ann]
        noEventStore).events, 0 ≤ e.price) ∧
    (negativeFullBody.price.isNegative sampleCoercion = true ∧
     Organizer.updateEvent sampleCoercion (some gala._id) negativeFullBody ann sampleStore =
       ({ status := 400, error := some "Price cannot be negative" }, sampleStore)) ∧
    ((JS.ifTruthy negativeFullBody.name).isSome = true ∧
     (JS.ifTruthy negativeFullBody.description).isSome = true ∧
     (JS.ifTruthy negativeFullBody.genre).isSome = true ∧
     (JS.ifTruthy negativeFullBody.category).isSome = true ∧
     (Organizer.createEvent sampleCoercion negativeFullBody ann "65a000000000000000000e02"
        1735689600001 sampleStore).2 = sampleStore ∧
     (Organizer.createEvent sampleCoercion negativeFullBody ann "65a000000000000000000e02"
        1735689600001 sampleStore).1 =
       { status := 400, error := some "Price cannot be negative" }) ∧
    ((∀ e ∈ sampleStore.events, e._id ≠ "65a000000000000000000e02") ∧
     (Organizer.createEvent sampleCoercion freeEventBody ann "65a000000000000000000e02"
        1735689600001 sampleStore).1.status = 201 ∧
     (Organizer.createEvent sampleCoercion freeEventBody ann "65a000000000000000000e02"
        1735689600001 sampleStore).2.events =
       sampleStore.events ++
         [{ _id := "65a000000000000000000e02", name := JS.trim "Open day",
            description := JS.trim "Visit us", genre := JS.trim "Fair",
            category := JS.trim "Public", price := 0, organizerId := ann._id,
            createdAt := 1735689600001 }]) ∧
    ((sampleStore.events.map (fun d => d._id)).Nodup ∧ gala ∈ sampleStore.events ∧
     gala.organizerId = ann._id ∧
     (Organizer.updatesOf sampleCoercion zeroPriceBody).valid = true ∧
     (Organizer.updateEvent sampleCoercion (some gala._id) zeroPriceBody ann
        sampleStore).1.status = 200 ∧
     ((Organizer.updatesOf sampleCoercion zeroPriceBody).apply gala).price = 0 ∧
     (Organizer.updatesOf sampleCoercion zeroPriceBody).apply gala ∈
       (Organizer.updateEvent sampleCoercion (some gala._id) zeroPriceBody ann
         sampleStore).2.events) :=
  ⟨⟨rfl, by decide, (price_never_negative sampleCoercion).1 noEventStore _ rfl⟩,
   ⟨by decide,
    (price_never_negative sampleCoercion).2.1 (some gala._id) negativeFullBody ann
      sampleStore (by decide)⟩,
   ⟨by decide, by decide, by decide, by decide,
    ((price_never_negative sampleCoercion).2.2.1 negativeFullBody ann
      "65a000000000000000000e02" 1735689600001 sampleStore (by decide)).2.1,
    ((price_never_negative sampleCoercion).2.2.1 negativeFullBody ann
      "65a000000000000000000e02" 1735689600001 sampleStore (by decide)).2.2
      (by decide) (by decide) (by decide) (by decide)⟩,
   ⟨by decide,
    (price_never_negative sampleCoercion).2.2.2.1 freeEventBody ann
      "65a000000000000000000e02" 1735689600001 sampleStore "Open day" "Visit us" "Fair"
      "Public" rfl rfl rfl rfl rfl (by decide) (by decide) (by decide) (by decide)
      (by decide)⟩,
   ⟨by decide, by decide, rfl, by decide,
    ((price_never_negative sampleCoercion).2.2.2.2 zeroPriceBody ann sampleStore gala
      (by decide) (by decide) rfl rfl (by decide)).1,
    ((price_never_negative sampleCoercion).2.2.2.2 zeroPriceBody ann sampleStore gala
      (by decide) (by decide) rfl rfl (by decide)).2.2.1,
    ((price_never_negative sampleCoercion).2.2.2.2 zeroPriceBody ann sampleStore gala
      (by decide) (by decide) rfl rfl (by decide)).2.2.2.2⟩⟩

set_option maxRecDepth 100000 in
/-- Instance of C16 on the sample store: with a transport that rejects every
mail and with one that delivers, the purchase of `vip` by `bob` is answered 200
and leaves the same store; only the console lines differ. -/
theorem buyTicket_mail_independent_instance :
    (Attendee.buyTicketWithMail sampleEnv brokenMailer "1/1/2025" (some vip._id) bob
      sampleStore).1.1.status = 200 ∧
    (Attendee.buyTicketWithMail sampleEnv brokenMailer "1/1/2025" (some vip._id) bob
      sampleStore).2 = ["Error sending email: ECONNREFUSED"] ∧
    (Attendee.buyTicketWithMail sampleEnv workingMailer "1/1/2025" (some vip._id) bob
      sampleStore).2 = ["Email sent: 250 OK"] ∧
    (Attendee.buyTicketWithMail sampleEnv brokenMailer "1/1/2025" (some vip._id) bob
      sampleStore).1 =
    (Attendee.buyTicketWithMail sampleEnv workingMailer "1/1/2025" (some vip._id) bob
      sampleStore).1 :=
  ⟨by decide, by decide, by decide,
    (buyTicket_mail_independent sampleEnv brokenMailer workingMailer "1/1/2025"
      (some vip._id) bob sampleStore).1⟩

set_option maxRecDepth 100000 in
/-- Witness for C19: `ann` renames `gala` with a body that also carries the id
of `dan` as `organizerId`; the event keeps `ann` as its organizer. -/
theorem updateEvent_frame_witness :
    sampleStore.events[0]? = some gala ∧
    (Organizer.updateEvent sampleCoercion (some gala._id) renameBody ann
      sampleStore).1.status = 200 ∧
    (Organizer.updateEvent sampleCoercion (some gala._id) renameBody ann
      sampleStore).2.events.map (fun e => (e.name, e.organizerId)) =
      [("Gala night", ann._id)] ∧
    ∃ r, (Organizer.updateEvent sampleCoercion (some gala._id) renameBody ann
        sampleStore).2.events[0]? = some r ∧
      r._id = gala._id ∧ r.organizerId = gala.organizerId ∧ r.createdAt = gala.createdAt ∧
      (r.name = gala.name ∨ ∃ v, renameBody.name = some v ∧ r.name = JS.trim v) ∧
      (r.description = gala.description ∨
        ∃ v, renameBody.description = some v ∧ r.description = JS.trim v) ∧
      (r.genre = gala.genre ∨ ∃ v, renameBody.genre = some v ∧ r.genre = JS.trim v) ∧
      (r.category = gala.category ∨
        ∃ v, renameBody.category = some v ∧ r.category = JS.trim v) ∧
      (r.price = gala.price ∨
        (renameBody.price ≠ BodyPrice.undefined ∧
          renameBody.price.parse sampleCoercion = some r.price)) :=
  ⟨by decide, by decide, by decide,
    (updateEvent_frame sampleCoercion (some gala._id) renameBody ann sampleStore).2.2.2
      0 gala (by decide)⟩

/-! ## Reports, guards and failures of the handlers -/

/-- The admin's event deletion reports the number of tickets that referenced
the event. -/
theorem Admin.deleteEvent_reports_count (id : ObjectId) (s : Store)
    (hok : (Admin.deleteEvent (some id) s).1.status = 200) :
    (Admin.deleteEvent (some id) s).1.deletedTickets =
      some (s.tickets.countP (fun t => t.eventId == id)) := by
  cases hfind : s.events.find? (fun e => e._id == id) with
  | none => simp [Admin.deleteEvent, Mongo.findOneAndDelete, hfind] at hok
  | some e =>
    simp only [Admin.deleteEvent, Mongo.findOneAndDelete, hfind, Mongo.deleteMany] at hok ⊢
    split
    · rename_i hnone
      simp [hnone] at hok
    · rfl

/-- The organizer's event deletion never sends a `deletedTickets` key. -/
theorem Organizer.deleteEvent_reports_nothing (id : Option ObjectId) (user : User)
    (s : Store) : (Organizer.deleteEvent id user s).1.deletedTickets = none := by
  simp only [Organizer.deleteEvent]
  repeat' split
  all_goals rfl

set_option maxRecDepth 100000 in
/-- C24. Evaluation of the two event deletions on the sample store, where one
ticket references `gala`: both answer 200; the admin's response carries
deletedTickets = 1, the response of the owning organizer `ann` carries no
deletedTickets field. -/
theorem deleteEvent_organizer_sends_no_count :
    sampleStore.tickets.countP (fun t => t.eventId == gala._id) = 1 ∧
    gala.organizerId = ann._id ∧
    (Organizer.deleteEvent (some gala._id) ann sampleStore).1 =
      { status := 200, message := some "Event and associated tickets deleted successfully" } ∧
    (Organizer.deleteEvent (some gala._id) ann sampleStore).1.deletedTickets = none ∧
    (Admin.deleteEvent (some gala._id) sampleStore).1 =
      { status := 200, message := some "Event and associated tickets deleted successfully",
        deletedTickets := some 1 } := by
  decide

/-- The response "You have already purchased this ticket" is sent only for a
stored ticket that is available and has an attendee. -/
theorem Attendee.buyTicket_already_purchased_inv (env : Env) (ticketId : Option ObjectId)
    (a : User) (s : Store)
    (h : (Attendee.buyTicket env ticketId a s).1.error =
      some "You have already purchased this ticket") :
    ∃ tid t, ticketId = some tid ∧ Ticket.findById s.tickets tid = some t ∧
      t.isAvailable = true ∧ t.attendeeId ≠ none := by
  cases ticketId with
  | none => simp [Attendee.buyTicket] at h
  | some tid =>
    cases hfind : Ticket.findById s.tickets tid with
    | none =>
      simp [Attendee.buyTicket, findTicketPopulated, hfind, Attendee.buyTicketAfterRead] at h
    | some t =>
      cases havail : t.isAvailable with
      | false =>
        rw [Attendee.buyTicket_of_sold env s tid t a hfind havail] at h
        simp at h
      | true =>
        cases hdup : Attendee.alreadyPurchased env
            (t.attendeeId.bind (User.findById s.users)) a with
        | true =>
          refine ⟨tid, t, rfl, hfind, havail, ?_⟩
          intro hnone
          simp [hnone, Attendee.alreadyPurchased] at hdup
        | false =>
          exfalso
          cases htext : Attendee.generateQRData env
              { t with attendeeId := some a._id, isAvailable := false }
              (populateEvent s t.eventId) with
          | none =>
            simp [Attendee.buyTicket, findTicketPopulated, hfind,
              Attendee.buyTicketAfterRead, havail, hdup, htext] at h
          | some text =>
            cases himage : env.toDataURL text with
            | none =>
              simp [Attendee.buyTicket, findTicketPopulated, hfind,
                Attendee.buyTicketAfterRead, havail, hdup, htext, himage] at h
            | some image =>
              rw [Attendee.buyTicket_eq_ok env s tid a t text image hfind havail hdup
                htext himage] at h
              simp at h

/-- C25. The "already purchased" check is unreachable under the state
invariant: when every stored ticket has isAvailable = (attendeeId = null),
`buyTicket` never answers "You have already purchased this ticket"; an answer
with that error comes from a stored ticket that is available and has an
attendee. -/
theorem already_purchased_unreachable (env : Env) (ticketId : Option ObjectId) (a : User)
    (s : Store) :
    ((∀ t ∈ s.tickets, t.isAvailable = t.attendeeId.isNone) →
      (Attendee.buyTicket env ticketId a s).1.error ≠
        some "You have already purchased this ticket") ∧
    ((Attendee.buyTicket env ticketId a s).1.error =
        some "You have already purchased this ticket" →
      ∃ tid t, ticketId = some tid ∧ Ticket.findById s.tickets tid = some t ∧
        t ∈ s.tickets ∧ t.isAvailable = true ∧ t.attendeeId ≠ none) := by
  constructor
  · intro hinv h
    obtain ⟨tid, t, -, hfind, havail, hatt⟩ :=
      Attendee.buyTicket_already_purchased_inv env ticketId a s h
    have hc := hinv t (List.mem_of_find?_eq_some hfind)
    rw [havail] at hc
    cases hopt : t.attendeeId with
    | none => exact hatt hopt
    | some v => simp [hopt] at hc
  · intro h
    obtain ⟨tid, t, hid, hfind, havail, hatt⟩ :=
      Attendee.buyTicket_already_purchased_inv env ticketId a s h
    exact ⟨tid, t, hid, hfind, List.mem_of_find?_eq_some hfind, havail, hatt⟩

/-- A purchase that is not answered 200 writes nothing. -/
theorem Attendee.buyTicket_store_of_failure (env : Env) (ticketId : Option ObjectId)
    (a : User) (s : Store) (h : (Attendee.buyTicket env ticketId a s).1.status ≠ 200) :
    (Attendee.buyTicket env ticketId a s).2 = s := by
  cases ticketId with
  | none => rfl
  | some tid =>
    cases hfind : Ticket.findById s.tickets tid with
    | none =>
      simp [Attendee.buyTicket, findTicketPopulated, hfind, Attendee.buyTicketAfterRead]
    | some t =>
      cases havail : t.isAvailable with
      | false => rw [Attendee.buyTicket_of_sold env s tid t a hfind havail]
      | true =>
        cases hdup : Attendee.alreadyPurchased env
            (t.attendeeId.bind (User.findById s.users)) a with
        | true =>
          simp [Attendee.buyTicket, findTicketPopulated, hfind, Attendee.buyTicketAfterRead,
            havail, hdup]
        | false =>
          cases htext : Attendee.generateQRData env
              { t with attendeeId := some a._id, isAvailable := false }
              (populateEvent s t.eventId) with
          | none =>
            simp [Attendee.buyTicket, findTicketPopulated, hfind,
              Attendee.buyTicketAfterRead, havail, hdup, htext]
          | some text =>
            cases himage : env.toDataURL text with
            | none =>
              simp [Attendee.buyTicket, findTicketPopulated, hfind,
                Attendee.buyTicketAfterRead, havail, hdup, htext, himage]
            | some image =>
              exfalso
              apply h
              rw [Attendee.buyTicket_eq_ok env s tid a t text image hfind havail hdup
                htext himage]

/-- C28. Purchase is atomic on failure: whenever `buyTicket` answers with a
status other than 200, the store after the call is the store before it; every
stored ticket keeps its attendeeId, isAvailable and qrCode. -/
theorem buyTicket_atomic_on_failure (env : Env) (ticketId : Option ObjectId) (a : User)
    (s : Store) (h : (Attendee.buyTicket env ticketId a s).1.status ≠ 200) :
    (Attendee.buyTicket env ticketId a s).2 = s ∧
    (Attendee.buyTicket env ticketId a s).2.tickets = s.tickets :=
  ⟨Attendee.buyTicket_store_of_failure env ticketId a s h,
   by rw [Attendee.buyTicket_store_of_failure env ticketId a s h]⟩

set_option maxRecDepth 100000 in
/-- Witness for C28: `cara` asks for the sold ticket of `soldStore`; `bob` asks
for `vip` with a renderer that refuses every text. -/
theorem buyTicket_atomic_on_failure_witness :
    ((Attendee.buyTicket sampleEnv (some vip._id) cara soldStore).1.status ≠ 200 ∧
     (Attendee.buyTicket sampleEnv (some vip._id) cara soldStore).2 = soldStore ∧
     (Attendee.buyTicket sampleEnv (some vip._id) cara soldStore).2.tickets =
       soldStore.tickets) ∧
    ((Attendee.buyTicket { sampleEnv with toDataURL := fun _ => none } (some vip._id) bob
        sampleStore).1.status = 500 ∧
     (Attendee.buyTicket { sampleEnv with toDataURL := fun _ => none } (some vip._id) bob
        sampleStore).2 = sampleStore ∧
     (Attendee.buyTicket { sampleEnv with toDataURL := fun _ => none } (some vip._id) bob
        sampleStore).2.tickets = sampleStore.tickets) :=
  ⟨⟨by decide,
     buyTicket_atomic_on_failure sampleEnv (some vip._id) cara soldStore (by decide)⟩,
   ⟨by decide,
     buyTicket_atomic_on_failure { sampleEnv with toDataURL := fun _ => none }
       (some vip._id) bob sampleStore (by decide)⟩⟩

set_option maxRecDepth 100000 in
/-- Witness for C25: in the sample store, which satisfies the invariant, the
purchase is not answered with the "already purchased" error. -/
theorem already_purchased_unreachable_witness :
    (∀ t ∈ sampleStore.tickets, t.isAvailable = t.attendeeId.isNone) ∧
    (Attendee.buyTicket sampleEnv (some vip._id) bob sampleStore).1.error ≠
      some "You have already purchased this ticket" :=
  ⟨by decide,
    (already_purchased_unreachable sampleEnv (some vip._id) bob sampleStore).1
      (by decide)⟩

set_option maxRecDepth 100000 in
/-- C27. Evaluation of `deleteAdmin` when the admin `eve` asks to delete her
own account: the answer is 400 "You cannot delete your own admin account", and
the account, stored before the call, is no longer stored after it. -/
theorem deleteAdmin_self_deletes_account :
    eve ∈ adminStore.users ∧ eve.role = Role.admin ∧
    (Admin.deleteAdmin (some eve._id) eve adminStore).1 =
      { status := 400, error := some "You cannot delete your own admin account" } ∧
    eve ∉ (Admin.deleteAdmin (some eve._id) eve adminStore).2.users ∧
    (Admin.deleteAdmin (some eve._id) eve adminStore).2.users = [ann, bob, cara] ∧
    User.findById (Admin.deleteAdmin (some eve._id) eve adminStore).2.users eve._id
      = none := by
  decide

/-- C26. The two payload generators are the same function: for every ticket
and event the generator of the creation path and the generator of the purchase
path return the same text; so the text encoded at purchase, for the ticket
with its attendee set, equals the text encoded at creation, for the ticket
before its image was stored, when the event and organizer data are the
same. -/
theorem generateQRData_same_function (env : Env) :
    (∀ (t : Ticket) (ev : Option PopulatedEvent),
      Attendee.generateQRData env t ev = Organizer.generateQRData env t ev) ∧
    (∀ (created : Ticket) (a : ObjectId) (ev : Option PopulatedEvent),
      Attendee.generateQRData env
        { created with attendeeId := some a, isAvailable := false } ev =
      Organizer.generateQRData env { created with qrCode := none } ev) :=
  ⟨fun t ev => generateQRData_paths_agree env t ev,
   fun created a ev => by
     rw [generateQRData_paths_agree]
     exact Organizer.generateQRData_creation_congr env _ _ ev rfl rfl rfl⟩

set_option maxRecDepth 100000 in
/-- Instance of C26 on the sample data: the text `buyTicket` encodes for `vip`
bought by `bob` is the text `createTicket` encoded, and the stored images
agree. -/
theorem generateQRData_same_function_instance :
    Attendee.generateQRData sampleEnv
      { vip with attendeeId := some bob._id, isAvailable := false }
      (populateEvent sampleStore vip.eventId) =
    Organizer.generateQRData sampleEnv { vip with qrCode := none }
      (populateEvent sampleStore vip.eventId) ∧
    (Ticket.findById (Attendee.buyTicket sampleEnv (some vip._id) bob sampleStore).2.tickets
      vip._id).bind (fun d => d.qrCode) =
    (Ticket.findById sampleStore.tickets vip._id).bind (fun d => d.qrCode) :=
  ⟨(generateQRData_same_function sampleEnv).2 vip bob._id
     (populateEvent sampleStore vip.eventId), by decide⟩

/-! ## Shape of the payload text -/

/-- Trimming is dropping white space on the left, then on the right. -/
theorem JS.trimChars_eq (cs : List Char) :
    JS.trimChars cs = (cs.dropWhile JS.isWhiteSpace).rdropWhile JS.isWhiteSpace := rfl

/-- Dropping white space on the right does not reach past a character that is
not white space. -/
theorem JS.rdropWhile_append_of_exists (front back : List Char)
    (h : ∃ x ∈ back, JS.isWhiteSpace x = false) :
    (front ++ back).rdropWhile JS.isWhiteSpace =
      front ++ back.rdropWhile JS.isWhiteSpace := by
  obtain ⟨x, hx, hws⟩ := h
  have hne : ¬ (back.reverse.dropWhile JS.isWhiteSpace).isEmpty = true := by
    rw [List.isEmpty_iff, List.dropWhile_eq_nil_iff]
    intro hall
    have := hall x (List.mem_reverse.mpr hx)
    rw [hws] at this
    cases this
  simp only [List.rdropWhile, List.reverse_append, List.dropWhile_append, hne, if_false,
    List.reverse_reverse, Bool.false_eq_true]

/-- Dropping white space on the right removes a trailing block of white
space. -/
theorem JS.rdropWhile_append_of_all (front back : List Char)
    (h : ∀ x ∈ back, JS.isWhiteSpace x = true) :
    (front ++ back).rdropWhile JS.isWhiteSpace = front.rdropWhile JS.isWhiteSpace := by
  simp only [List.rdropWhile, List.reverse_append]
  rw [List.dropWhile_append_of_pos]
  intro a ha
  exact h a (List.mem_reverse.mp ha)

/-- Every character of `indent` is white space. -/
theorem JS.indent_all_whiteSpace : ∀ x ∈ JS.indent, JS.isWhiteSpace x = true := by
  decide

/-- The form of `indent`: a line feed and six spaces. -/
theorem JS.indent_eq : JS.indent = JS.newline :: List.replicate 6 (Char.ofNat 32) := by
  decide

/-- What `startsTight` says of a text: it has a first character and that
character is not white space. -/
theorem JS.startsTight_iff (l : List Char) :
    JS.startsTight l = true ↔ ∃ a m, l = a :: m ∧ JS.isWhiteSpace a = false := by
  cases l with
  | nil => simp [JS.startsTight]
  | cons a m => simp [JS.startsTight]

/-- What `endsTight` says of a text: it has a last character and that
character is not white space. -/
theorem JS.endsTight_iff (l : List Char) :
    JS.endsTight l = true ↔ ∃ (h : l ≠ []), JS.isWhiteSpace (l.getLast h) = false := by
  cases hl : l.getLast? with
  | none =>
    have : l = [] := List.getLast?_eq_none_iff.mp hl
    subst this
    simp [JS.endsTight]
  | some b =>
    have hne : l ≠ [] := by
      intro h
      rw [h] at hl
      simp at hl
    have hb : l.getLast hne = b := by
      have := List.getLast?_eq_getLast l hne
      rw [hl] at this
      exact (Option.some.inj this).symm
    simp [JS.endsTight, hl, hne, hb]

/-- Trimming a text that starts with a character that is not white space
gives a text that starts and ends with such a character. -/
theorem JS.trimChars_tight (l : List Char) (h : JS.startsTight l = true) :
    JS.startsTight (JS.trimChars l) = true ∧ JS.endsTight (JS.trimChars l) = true := by
  obtain ⟨a, m, rfl, ha⟩ := (JS.startsTight_iff l).mp h
  have hdrop : (a :: m).dropWhile JS.isWhiteSpace = a :: m := by
    rw [List.dropWhile_cons_of_neg]
    simp [ha]
  have hne : (a :: m).rdropWhile JS.isWhiteSpace ≠ [] := by
    intro hnil
    have := List.rdropWhile_eq_nil_iff.mp hnil a (List.mem_cons_self _ _)
    rw [ha] at this
    cases this
  have hpre : (a :: m).rdropWhile JS.isWhiteSpace <+: a :: m := List.rdropWhile_prefix _ _
  rw [JS.trimChars_eq, hdrop]
  constructor
  · rw [JS.startsTight_iff]
    cases hr : (a :: m).rdropWhile JS.isWhiteSpace with
    | nil => exact absurd hr hne
    | cons b r =>
      rw [hr] at hpre
      obtain ⟨t, ht⟩ := hpre
      simp only [List.cons_append, List.cons.injEq] at ht
      exact ⟨b, r, rfl, ht.1 ▸ ha⟩
  · rw [JS.endsTight_iff]
    refine ⟨hne, ?_⟩
    have := List.rdropWhile_last_not (p := JS.isWhiteSpace) (l := a :: m) hne
    simpa using this

/-- A text that ends tight holds a character that is not white space. -/
theorem JS.exists_not_whiteSpace_of_endsTight (l : List Char) (h : JS.endsTight l = true) :
    ∃ x ∈ l, JS.isWhiteSpace x = false := by
  obtain ⟨hne, hl⟩ := (JS.endsTight_iff l).mp h
  exact ⟨_, List.getLast_mem hne, hl⟩

/-- Dropping trailing white space leaves a text that ends tight as it is. -/
theorem JS.rdropWhile_of_endsTight (l : List Char) (h : JS.endsTight l = true) :
    l.rdropWhile JS.isWhiteSpace = l := by
  obtain ⟨hne, hl⟩ := (JS.endsTight_iff l).mp h
  rw [List.rdropWhile_eq_self_iff]
  intro _
  simp [hl]

/-- Dropping the trailing white space of the template text of lines that end
tight leaves the indentation followed by the joined lines. -/
theorem JS.rdropWhile_templateChars (ls : List (List Char)) (l : List Char)
    (h : ∀ x ∈ l :: ls, JS.endsTight x = true) :
    (l ++ JS.templateChars ls).rdropWhile JS.isWhiteSpace = JS.joinLines (l :: ls) := by
  induction ls generalizing l with
  | nil =>
    simp only [JS.templateChars, JS.joinLines]
    rw [JS.rdropWhile_append_of_all l JS.indent JS.indent_all_whiteSpace]
    exact JS.rdropWhile_of_endsTight l (h l (List.mem_cons_self _ _))
  | cons m ms ih =>
    have hm : JS.endsTight m = true := h m (by simp)
    have hrest : ∀ x ∈ m :: ms, JS.endsTight x = true :=
      fun x hx => h x (List.mem_cons_of_mem _ hx)
    obtain ⟨x, hx, hws⟩ := JS.exists_not_whiteSpace_of_endsTight m hm
    have hsplit : l ++ JS.templateChars (m :: ms) =
        (l ++ JS.indent) ++ (m ++ JS.templateChars ms) := by
      simp [JS.templateChars, List.append_assoc]
    rw [hsplit, JS.rdropWhile_append_of_exists _ _
      ⟨x, List.mem_append_left _ hx, hws⟩, ih m hrest]
    simp [JS.joinLines, List.append_assoc]

/-- Trimming the template text of lines that end tight, the first of which
starts tight, gives the joined lines. -/
theorem JS.trimChars_templateChars (l : List Char) (ls : List (List Char))
    (hstart : JS.startsTight l = true) (h : ∀ x ∈ l :: ls, JS.endsTight x = true) :
    JS.trimChars (JS.templateChars (l :: ls)) = JS.joinLines (l :: ls) := by
  obtain ⟨a, m, rfl, ha⟩ := (JS.startsTight_iff l).mp hstart
  rw [JS.trimChars_eq]
  have hdrop : (JS.templateChars ((a :: m) :: ls)).dropWhile JS.isWhiteSpace =
      (a :: m) ++ JS.templateChars ls := by
    simp only [JS.templateChars, List.append_assoc]
    rw [List.dropWhile_append_of_pos (fun x hx => JS.indent_all_whiteSpace x hx)]
    rw [List.cons_append, List.dropWhile_cons_of_neg]
    simp [ha]
  rw [hdrop]
  exact JS.rdropWhile_templateChars ls (a :: m) h

/-- Splitting never yields an empty list of pieces. -/
theorem JS.splitOnNewline_ne_nil (cs : List Char) : JS.splitOnNewline cs ≠ [] := by
  induction cs with
  | nil => simp [JS.splitOnNewline]
  | cons ch cs ih =>
    simp only [JS.splitOnNewline]
    split
    · simp
    · split
      · simp
      · simp

/-- A piece without line feed that is followed by a line feed is the first
piece. -/
theorem JS.splitOnNewline_append_newline (l rest : List Char)
    (h : ∀ x ∈ l, x ≠ JS.newline) :
    JS.splitOnNewline (l ++ JS.newline :: rest) = l :: JS.splitOnNewline rest := by
  induction l with
  | nil => simp [JS.splitOnNewline]
  | cons ch l ih =>
    have hch : ch ≠ JS.newline := h ch (List.mem_cons_self _ _)
    have := ih (fun x hx => h x (List.mem_cons_of_mem _ hx))
    simp [JS.splitOnNewline, hch, this]

/-- A text without line feed is one piece. -/
theorem JS.splitOnNewline_of_no_newline (l : List Char) (h : ∀ x ∈ l, x ≠ JS.newline) :
    JS.splitOnNewline l = [l] := by
  induction l with
  | nil => simp [JS.splitOnNewline]
  | cons ch l ih =>
    have hch : ch ≠ JS.newline := h ch (List.mem_cons_self _ _)
    have := ih (fun x hx => h x (List.mem_cons_of_mem _ hx))
    simp [JS.splitOnNewline, hch, this]

/-- The pieces of joined lines without line feed: the first line, and every
later line behind six spaces. -/
theorem JS.splitOnNewline_joinLines (ls : List (List Char)) (l : List Char)
    (h : ∀ x ∈ l :: ls, ∀ ch ∈ x, ch ≠ JS.newline) :
    JS.splitOnNewline (JS.joinLines (l :: ls)) =
      l :: ls.map (fun m => List.replicate 6 (Char.ofNat 32) ++ m) := by
  induction ls generalizing l with
  | nil =>
    simp only [JS.joinLines, List.map_nil]
    exact JS.splitOnNewline_of_no_newline l (h l (List.mem_cons_self _ _))
  | cons m ms ih =>
    have hl : ∀ ch ∈ l, ch ≠ JS.newline := h l (List.mem_cons_self _ _)
    have hsix : ∀ ch ∈ List.replicate 6 (Char.ofNat 32), ch ≠ JS.newline := by decide
    have hjoin : JS.joinLines (l :: m :: ms) =
        l ++ JS.newline :: JS.joinLines ((List.replicate 6 (Char.ofNat 32) ++ m) :: ms) := by
      cases ms with
      | nil => simp [JS.joinLines, JS.indent_eq]
      | cons k ks => simp [JS.joinLines, JS.indent_eq, List.append_assoc]
    rw [hjoin, JS.splitOnNewline_append_newline l _ hl, ih]
    · simp
    · intro x hx ch hch
      rcases List.mem_cons.mp hx with rfl | hx
      · rcases List.mem_append.mp hch with h1 | h1
        · exact hsix ch h1
        · exact h m (by simp) ch h1
      · exact h x (by simp [hx]) ch hch

/-- The characters of a payload line: the padded label, a colon, a space, the
value. -/
theorem Organizer.line_data (label value : String) :
    (Organizer.line label value).data =
      label.data ++ List.replicate (15 - label.data.length) (Char.ofNat 32) ++
        [Char.ofNat 58, Char.ofNat 32] ++ value.data := by
  simp [Organizer.line, JS.padEnd, String.data_append]

/-- A payload line starts with the first character of its label. -/
theorem Organizer.line_startsTight (label value : String)
    (h : JS.startsTight label.data = true) :
    JS.startsTight (Organizer.line label value).data = true := by
  obtain ⟨a, m, hl, ha⟩ := (JS.startsTight_iff _).mp h
  rw [Organizer.line_data, hl]
  simp [JS.startsTight, ha]

/-- The payload text in closed form: the eight trimmed lines joined by a line
feed and six spaces. -/
theorem Organizer.generateQRData_closed (env : Env) (t : Ticket) (ev : PopulatedEvent)
    (org : PopulatedOrganizer) (hev : ev.organizerId = some org) :
    Organizer.generateQRData env t (some ev) = some ⟨JS.joinLines
      [JS.trimChars (Organizer.line "Ticket ID" t._id).data,
       JS.trimChars (Organizer.line "Ticket Type" t.ticketType).data,
       JS.trimChars (Organizer.line "Event Name" ev.name).data,
       JS.trimChars (Organizer.line "Event Genre" ev.genre).data,
       JS.trimChars (Organizer.line "Event Price"
         ("$" ++ env.numberToString ev.price)).data,
       JS.trimChars (Organizer.line "Organizer Name" (JS.orNA org.name)).data,
       JS.trimChars (Organizer.line "Organizer Email" (JS.orNA org.email)).data,
       JS.trimChars (Organizer.line "Created At"
         (env.toLocaleString t.createdAt)).data]⟩ := by
  have htmpl : ∀ a1 a2 a3 a4 a5 a6 a7 a8 : String,
      JS.trim ("\n      " ++ JS.trim a1 ++ "\n      " ++ JS.trim a2 ++ "\n      " ++
        JS.trim a3 ++ "\n      " ++ JS.trim a4 ++ "\n      " ++ JS.trim a5 ++
        "\n      " ++ JS.trim a6 ++ "\n      " ++ JS.trim a7 ++ "\n      " ++
        JS.trim a8 ++ "\n      ") =
      ⟨JS.trimChars (JS.templateChars
        [JS.trimChars a1.data, JS.trimChars a2.data, JS.trimChars a3.data,
         JS.trimChars a4.data, JS.trimChars a5.data, JS.trimChars a6.data,
         JS.trimChars a7.data, JS.trimChars a8.data])⟩ := by
    intro a1 a2 a3 a4 a5 a6 a7 a8
    simp only [JS.trim, JS.templateChars, JS.indent, String.data_append, List.append_assoc]
  have hstart : ∀ (label value : String), JS.startsTight label.data = true →
      JS.startsTight (JS.trimChars (Organizer.line label value).data) = true ∧
      JS.endsTight (JS.trimChars (Organizer.line label value).data) = true :=
    fun label value h => JS.trimChars_tight _ (Organizer.line_startsTight label value h)
  simp only [Organizer.generateQRData, hev, htmpl]
  rw [JS.trimChars_templateChars _ _ (hstart _ _ (by decide)).1]
  intro x hx
  simp only [List.mem_cons, List.mem_singleton, List.not_mem_nil, or_false] at hx
  rcases hx with rfl | rfl | rfl | rfl | rfl | rfl | rfl | rfl
  all_goals exact (hstart _ _ (by decide)).2

/-- A text that starts and ends with a character that is not white space is
left as it is by trimming. -/
theorem JS.trimChars_of_tight (l : List Char) (hs : JS.startsTight l = true)
    (he : JS.endsTight l = true) : JS.trimChars l = l := by
  obtain ⟨a, m, rfl, ha⟩ := (JS.startsTight_iff l).mp hs
  rw [JS.trimChars_eq, List.dropWhile_cons_of_neg (by simp [ha])]
  exact JS.rdropWhile_of_endsTight _ he

/-- What `endsClean` says of the characters of a value. -/
theorem JS.endsClean_iff (v : String) :
    JS.endsClean v = true ↔
      JS.endsTight v.data = true ∧ ∀ ch ∈ v.data, ch ≠ JS.newline := by
  cases hl : v.data.getLast? with
  | none => simp [JS.endsClean, JS.endsTight, hl]
  | some b => simp [JS.endsClean, JS.endsTight, hl]

/-- A clean value also ends clean, and is not empty. -/
theorem JS.endsClean_of_isClean (v : String) (h : JS.isClean v = true) :
    JS.endsClean v = true ∧ v ≠ "" := by
  cases hh : v.data.head? with
  | none => simp [JS.isClean, hh] at h
  | some a =>
    simp only [JS.isClean, hh, Bool.and_eq_true] at h
    refine ⟨h.2, ?_⟩
    intro hv
    rw [hv] at hh
    simp at hh

/-- A value that ends clean still ends clean behind a prefix without line
feed. -/
theorem JS.endsClean_append (pre v : String) (hpre : ∀ ch ∈ pre.data, ch ≠ JS.newline)
    (hv : JS.endsClean v = true) : JS.endsClean (pre ++ v) = true := by
  rw [JS.endsClean_iff] at hv ⊢
  obtain ⟨hne, hl⟩ := (JS.endsTight_iff _).mp hv.1
  constructor
  · rw [JS.endsTight_iff]
    refine ⟨by simp [String.data_append, hne], ?_⟩
    simp only [String.data_append]
    rw [List.getLast_append_of_ne_nil hne]
    exact hl
  · intro ch hch
    simp only [String.data_append, List.mem_append] at hch
    rcases hch with h1 | h1
    · exact hpre ch h1
    · exact hv.2 ch h1

/-- A payload line whose label starts with a character that is not white
space and has no line feed, and whose value ends clean, is left as it is by
trimming and has no line feed. -/
theorem Organizer.line_of_endsClean (label value : String)
    (hstart : JS.startsTight label.data = true)
    (hlabel : ∀ ch ∈ label.data, ch ≠ JS.newline) (hv : JS.endsClean value = true) :
    JS.trimChars (Organizer.line label value).data = (Organizer.line label value).data ∧
    ∀ ch ∈ (Organizer.line label value).data, ch ≠ JS.newline := by
  have hv2 := (JS.endsClean_iff value).mp hv
  obtain ⟨hne, hl⟩ := (JS.endsTight_iff _).mp hv2.1
  constructor
  · apply JS.trimChars_of_tight _ (Organizer.line_startsTight label value hstart)
    rw [JS.endsTight_iff, ]
    refine ⟨by rw [Organizer.line_data]; simp [hne], ?_⟩
    simp only [Organizer.line_data]
    rw [List.getLast_append_of_ne_nil hne]
    exact hl
  · intro ch hch
    rw [Organizer.line_data] at hch
    simp only [List.mem_append, List.mem_replicate, List.mem_cons, List.mem_singleton,
      List.not_mem_nil, or_false] at hch
    rcases hch with ((h1 | h1) | h1) | h1
    · exact hlabel ch h1
    · rw [h1.2]; decide
    · rcases h1 with h1 | h1 <;> rw [h1] <;> decide
    · exact hv2.2 ch h1

/-- The lines of the payload text when the eight values end clean. -/
theorem Organizer.generateQRData_lines (env : Env) (t : Ticket) (ev : PopulatedEvent)
    (org : PopulatedOrganizer) (hev : ev.organizerId = some org)
    (h1 : JS.endsClean t._id = true) (h2 : JS.endsClean t.ticketType = true)
    (h3 : JS.endsClean ev.name = true) (h4 : JS.endsClean ev.genre = true)
    (h5 : JS.endsClean ("$" ++ env.numberToString ev.price) = true)
    (h6 : JS.endsClean (JS.orNA org.name) = true)
    (h7 : JS.endsClean (JS.orNA org.email) = true)
    (h8 : JS.endsClean (env.toLocaleString t.createdAt) = true) :
    ∃ text, Organizer.generateQRData env t (some ev) = some text ∧
      JS.lines text =
        [Organizer.line "Ticket ID" t._id,
         "      " ++ Organizer.line "Ticket Type" t.ticketType,
         "      " ++ Organizer.line "Event Name" ev.name,
         "      " ++ Organizer.line "Event Genre" ev.genre,
         "      " ++ Organizer.line "Event Price" ("$" ++ env.numberToString ev.price),
         "      " ++ Organizer.line "Organizer Name" (JS.orNA org.name),
         "      " ++ Organizer.line "Organizer Email" (JS.orNA org.email),
         "      " ++ Organizer.line "Created At" (env.toLocaleString t.createdAt)] := by
  have k1 := Organizer.line_of_endsClean "Ticket ID" _ (by decide) (by decide) h1
  have k2 := Organizer.line_of_endsClean "Ticket Type" _ (by decide) (by decide) h2
  have k3 := Organizer.line_of_endsClean "Event Name" _ (by decide) (by decide) h3
  have k4 := Organizer.line_of_endsClean "Event Genre" _ (by decide) (by decide) h4
  have k5 := Organizer.line_of_endsClean "Event Price" _ (by decide) (by decide) h5
  have k6 := Organizer.line_of_endsClean "Organizer Name" _ (by decide) (by decide) h6
  have k7 := Organizer.line_of_endsClean "Organizer Email" _ (by decide) (by decide) h7
  have k8 := Organizer.line_of_endsClean "Created At" _ (by decide) (by decide) h8
  refine ⟨_, Organizer.generateQRData_closed env t ev org hev, ?_⟩
  simp only [JS.lines, k1.1, k2.1, k3.1, k4.1, k5.1, k6.1, k7.1, k8.1]
  rw [JS.splitOnNewline_joinLines]
  · simp only [List.map_cons, List.map_nil]
    rfl
  · intro x hx
    simp only [List.mem_cons, List.mem_singleton, List.not_mem_nil, or_false] at hx
    rcases hx with rfl | rfl | rfl | rfl | rfl | rfl | rfl | rfl
    · exact k1.2
    · exact k2.2
    · exact k3.2
    · exact k4.2
    · exact k5.2
    · exact k6.2
    · exact k7.2
    · exact k8.2

/-! ## Layout of the payload text -/

/-- A clean value behind the dollar sign ends clean. -/
theorem JS.endsClean_dollar (v : String) (h : JS.isClean v = true) :
    JS.endsClean ("$" ++ v) = true :=
  JS.endsClean_append "$" v (by decide) (JS.endsClean_of_isClean v h).1

/-- The value `name || "N/A"` of a clean name is the name. -/
theorem JS.orNA_of_isClean (v : String) (h : JS.isClean v = true) :
    JS.orNA (some v) = v := by
  simp [JS.orNA, (JS.endsClean_of_isClean v h).2]

/-- C21. Payload layout: for a ticket and an event with organizer whose eight
field values (ticket id, ticket type, event name, genre, printed price,
organizer name, organizer email, printed creation date) are clean, that is
non-empty, without leading or trailing white space and without line feed, both
`generateQRData` functions return a text of exactly eight lines, in the order
Ticket ID, Ticket Type, Event Name, Event Genre, Event Price, Organizer Name,
Organizer Email, Created At; each line holds its label padded to 15
characters, then ": ", then the value (the price value being "$" followed by
the printed price); the lines after the first begin with the six spaces of the
template. -/
theorem payload_layout (env : Env) (t : Ticket) (ev : PopulatedEvent) (name email : String)
    (hev : ev.organizerId = some { name := some name, email := some email })
    (h1 : JS.isClean t._id = true) (h2 : JS.isClean t.ticketType = true)
    (h3 : JS.isClean ev.name = true) (h4 : JS.isClean ev.genre = true)
    (h5 : JS.isClean (env.numberToString ev.price) = true)
    (h6 : JS.isClean name = true) (h7 : JS.isClean email = true)
    (h8 : JS.isClean (env.toLocaleString t.createdAt) = true) :
    ∃ text, Organizer.generateQRData env t (some ev) = some text ∧
      Attendee.generateQRData env t (some ev) = some text ∧
      JS.lines text =
        [JS.padEnd "Ticket ID" 15 ++ ": " ++ t._id,
         "      " ++ (JS.padEnd "Ticket Type" 15 ++ ": " ++ t.ticketType),
         "      " ++ (JS.padEnd "Event Name" 15 ++ ": " ++ ev.name),
         "      " ++ (JS.padEnd "Event Genre" 15 ++ ": " ++ ev.genre),
         "      " ++ (JS.padEnd "Event Price" 15 ++ ": " ++ ("$" ++ env.numberToString ev.price)),
         "      " ++ (JS.padEnd "Organizer Name" 15 ++ ": " ++ name),
         "      " ++ (JS.padEnd "Organizer Email" 15 ++ ": " ++ email),
         "      " ++ (JS.padEnd "Created At" 15 ++ ": " ++ env.toLocaleString t.createdAt)] ∧
      ∀ label ∈ ["Ticket ID", "Ticket Type", "Event Name", "Event Genre", "Event Price",
          "Organizer Name", "Organizer Email", "Created At"],
        (JS.padEnd label 15).length = 15 := by
  obtain ⟨text, htext, hlines⟩ := Organizer.generateQRData_lines env t ev _ hev
    (JS.endsClean_of_isClean _ h1).1 (JS.endsClean_of_isClean _ h2).1
    (JS.endsClean_of_isClean _ h3).1 (JS.endsClean_of_isClean _ h4).1
    (JS.endsClean_dollar _ h5)
    (by rw [JS.orNA_of_isClean _ h6]; exact (JS.endsClean_of_isClean _ h6).1)
    (by rw [JS.orNA_of_isClean _ h7]; exact (JS.endsClean_of_isClean _ h7).1)
    (JS.endsClean_of_isClean _ h8).1
  refine ⟨text, htext, (generateQRData_paths_agree env t (some ev)).trans htext, ?_, by decide⟩
  rw [hlines, JS.orNA_of_isClean _ h6, JS.orNA_of_isClean _ h7]
  rfl

set_option maxRecDepth 100000 in
/-- Witness of C21 on the sample data: the ticket `vip` of the event "Gala". -/
theorem payload_layout_witness :
    ∃ text, Organizer.generateQRData sampleEnv vip (some galaPopulated) = some text ∧
      Attendee.generateQRData sampleEnv vip (some galaPopulated) = some text ∧
      JS.lines text =
        [JS.padEnd "Ticket ID" 15 ++ ": " ++ vip._id,
         "      " ++ (JS.padEnd "Ticket Type" 15 ++ ": " ++ vip.ticketType),
         "      " ++ (JS.padEnd "Event Name" 15 ++ ": " ++ galaPopulated.name),
         "      " ++ (JS.padEnd "Event Genre" 15 ++ ": " ++ galaPopulated.genre),
         "      " ++ (JS.padEnd "Event Price" 15 ++ ": " ++
           ("$" ++ sampleEnv.numberToString galaPopulated.price)),
         "      " ++ (JS.padEnd "Organizer Name" 15 ++ ": " ++ "Ann"),
         "      " ++ (JS.padEnd "Organizer Email" 15 ++ ": " ++ "ann@example.com"),
         "      " ++ (JS.padEnd "Created At" 15 ++ ": " ++
           sampleEnv.toLocaleString vip.createdAt)] ∧
      ∀ label ∈ ["Ticket ID", "Ticket Type", "Event Name", "Event Genre", "Event Price",
          "Organizer Name", "Organizer Email", "Created At"],
        (JS.padEnd label 15).length = 15 :=
  payload_layout sampleEnv vip galaPopulated "Ann" "ann@example.com" rfl
    (by decide) (by decide) (by decide) (by decide) (by decide) (by decide) (by decide)
    (by decide)

/-- Splitting at a line feed: the pieces of the text before it, then the
pieces of the text behind it. -/
theorem JS.splitOnNewline_append (x r : List Char) :
    JS.splitOnNewline (x ++ JS.newline :: r) = JS.splitOnNewline x ++ JS.splitOnNewline r := by
  induction x with
  | nil => simp [JS.splitOnNewline]
  | cons ch x ih =>
    by_cases hch : ch = JS.newline
    · simp [JS.splitOnNewline, hch, ih]
    · simp only [List.cons_append, JS.splitOnNewline, hch, if_false, List.append_eq]
      rw [ih]
      cases hx : JS.splitOnNewline x with
      | nil => exact absurd hx (JS.splitOnNewline_ne_nil x)
      | cons l ls => simp

/-- The first piece of a text that starts with a character other than the
line feed starts with that character. -/
theorem JS.splitOnNewline_head (ch : Char) (cs : List Char) (hch : ch ≠ JS.newline) :
    ∃ l ls, JS.splitOnNewline (ch :: cs) = (ch :: l) :: ls := by
  simp only [JS.splitOnNewline, hch, if_false]
  cases hx : JS.splitOnNewline cs with
  | nil => exact ⟨[], [], rfl⟩
  | cons l ls => exact ⟨l, ls, rfl⟩

/-- A space right behind a line feed starts a piece. -/
theorem JS.splitOnNewline_indented (x rest : List Char) :
    ∃ l ∈ JS.splitOnNewline (x ++ JS.newline :: Char.ofNat 32 :: rest),
      l.head? = some (Char.ofNat 32) := by
  obtain ⟨l, ls, hl⟩ := JS.splitOnNewline_head (Char.ofNat 32) rest (by decide)
  refine ⟨Char.ofNat 32 :: l, ?_, rfl⟩
  rw [JS.splitOnNewline_append, hl]
  exact List.mem_append_right _ (List.mem_cons_self _ _)

/-- The joined lines, when there are at least two: the first line, a line
feed, a space, and the rest. -/
theorem JS.joinLines_cons_cons (a b : List Char) (ls : List (List Char)) :
    JS.joinLines (a :: b :: ls) =
      a ++ JS.newline :: Char.ofNat 32 ::
        (List.replicate 5 (Char.ofNat 32) ++ JS.joinLines (b :: ls)) := by
  simp only [JS.joinLines, JS.indent_eq, List.append_assoc, List.cons_append]
  rfl

/-- Every payload text has a line that begins with a space. -/
theorem Organizer.generateQRData_indented_line (env : Env) (t : Ticket) (ev : PopulatedEvent)
    (org : PopulatedOrganizer) (hev : ev.organizerId = some org) :
    ∃ text, Organizer.generateQRData env t (some ev) = some text ∧
      ∃ l ∈ JS.lines text, l.data.head? = some (Char.ofNat 32) := by
  refine ⟨_, Organizer.generateQRData_closed env t ev org hev, ?_⟩
  simp only [JS.lines, List.mem_map]
  rw [JS.joinLines_cons_cons]
  obtain ⟨l, hl, hhead⟩ := JS.splitOnNewline_indented
    (JS.trimChars (Organizer.line "Ticket ID" t._id).data)
    (List.replicate 5 (Char.ofNat 32) ++ JS.joinLines
      [JS.trimChars (Organizer.line "Ticket Type" t.ticketType).data,
       JS.trimChars (Organizer.line "Event Name" ev.name).data,
       JS.trimChars (Organizer.line "Event Genre" ev.genre).data,
       JS.trimChars (Organizer.line "Event Price" ("$" ++ env.numberToString ev.price)).data,
       JS.trimChars (Organizer.line "Organizer Name" (JS.orNA org.name)).data,
       JS.trimChars (Organizer.line "Organizer Email" (JS.orNA org.email)).data,
       JS.trimChars (Organizer.line "Created At" (env.toLocaleString t.createdAt)).data])
  exact ⟨⟨l⟩, ⟨l, hl, rfl⟩, hhead⟩

/-- C22 (fails in the code). Per-line trimming is undone by the template: for
every ticket and every event with organizer, the text that both
`generateQRData` functions return has a line that begins with a space.  Each
interpolated line is trimmed, but the template literal puts six spaces before
it, and the final `trim` removes only those before the first line. -/
theorem payload_lines_keep_indentation (env : Env) (t : Ticket) (ev : PopulatedEvent)
    (org : PopulatedOrganizer) (hev : ev.organizerId = some org) :
    ∀ gen ∈ [Organizer.generateQRData, Attendee.generateQRData],
      ∃ text, gen env t (some ev) = some text ∧
        ∃ l ∈ JS.lines text, l.data.head? = some (Char.ofNat 32) := by
  intro gen hgen
  simp only [List.mem_cons, List.mem_singleton, List.not_mem_nil, or_false] at hgen
  rcases hgen with rfl | rfl
  · exact Organizer.generateQRData_indented_line env t ev org hev
  · exact Organizer.generateQRData_indented_line env t ev org hev

set_option maxRecDepth 100000 in
/-- Witness of C22 on the sample data: the text for the ticket `vip`, from the
generator of either controller. -/
theorem payload_lines_keep_indentation_witness :
    (∃ text, Organizer.generateQRData sampleEnv vip (some galaPopulated) = some text ∧
      ∃ l ∈ JS.lines text, l.data.head? = some (Char.ofNat 32)) ∧
    (∃ text, Attendee.generateQRData sampleEnv vip (some galaPopulated) = some text ∧
      ∃ l ∈ JS.lines text, l.data.head? = some (Char.ofNat 32)) :=
  ⟨payload_lines_keep_indentation sampleEnv vip galaPopulated
      { name := some "Ann", email := some "ann@example.com" } rfl
      Organizer.generateQRData (List.mem_cons_self _ _),
   payload_lines_keep_indentation sampleEnv vip galaPopulated
      { name := some "Ann", email := some "ann@example.com" } rfl
      Attendee.generateQRData (List.mem_cons_of_mem _ (List.mem_cons_self _ _))⟩

set_option maxRecDepth 100000 in
/-- The lines of the sample payload: all but the first begin with six
spaces. -/
theorem sample_payload_lines :
    (Organizer.generateQRData sampleEnv vip (some galaPopulated)).map JS.lines =
      some ["Ticket ID      : 65a000000000000000000f01",
            "      Ticket Type    : VIP",
            "      Event Name     : Gala",
            "      Event Genre    : Music",
            "      Event Price    : $25",
            "      Organizer Name : Ann",
            "      Organizer Email: ann@example.com",
            "      Created At     : 1/1/2025, 12:00:00 AM"] := by
  decide

/-- A payload text comes from an event with a populated organizer. -/
theorem Organizer.generateQRData_eq_some (env : Env) (t : Ticket)
    (ev : Option PopulatedEvent) (text : String)
    (h : Organizer.generateQRData env t ev = some text) :
    ∃ ev1 org, ev = some ev1 ∧ ev1.organizerId = some org := by
  cases ev with
  | none => simp [Organizer.generateQRData] at h
  | some ev1 =>
    cases horg : ev1.organizerId with
    | none => simp [Organizer.generateQRData, horg] at h
    | some org => exact ⟨ev1, org, rfl, horg⟩

/-- The trimmed "Ticket ID" line of an id without white space: the padded
label and the colon, followed by a space and the id unless the id is empty. -/
theorem Organizer.trimChars_idLine (i : String)
    (hi : ∀ ch ∈ i.data, JS.isWhiteSpace ch = false) :
    JS.trimChars (Organizer.line "Ticket ID" i).data =
      "Ticket ID      :".data ++ (if i.data = [] then [] else Char.ofNat 32 :: i.data) := by
  by_cases h0 : i.data = []
  · rw [Organizer.line_data, h0, if_pos rfl]
    decide
  · rw [if_neg h0, JS.trimChars_of_tight _ (Organizer.line_startsTight _ _ (by decide))]
    · rw [Organizer.line_data]
      simp only [List.append_assoc]
      rfl
    · rw [JS.endsTight_iff]
      refine ⟨by rw [Organizer.line_data]; simp [h0], ?_⟩
      simp only [Organizer.line_data]
      rw [List.getLast_append_of_ne_nil h0]
      exact hi _ (List.getLast_mem h0)

/-- Two texts without line feed that are followed by a line feed in the same
text are equal. -/
theorem JS.eq_of_append_newline_eq (x y r1 r2 : List Char)
    (hx : ∀ ch ∈ x, ch ≠ JS.newline) (hy : ∀ ch ∈ y, ch ≠ JS.newline)
    (h : x ++ JS.newline :: r1 = y ++ JS.newline :: r2) : x = y := by
  have h1 := JS.splitOnNewline_append_newline x r1 hx
  have h2 := JS.splitOnNewline_append_newline y r2 hy
  rw [h, h2] at h1
  exact (List.cons.inj h1).1.symm

/-- The start of a payload text for an id without white space: the trimmed
"Ticket ID" line, then a line feed. -/
theorem Organizer.generateQRData_start (env : Env) (t : Ticket)
    (ev : Option PopulatedEvent) (text : String)
    (hid : ∀ ch ∈ t._id.data, JS.isWhiteSpace ch = false)
    (h : Organizer.generateQRData env t ev = some text) :
    ∃ rest, text.data = "Ticket ID      :".data ++
      ((if t._id.data = [] then [] else Char.ofNat 32 :: t._id.data) ++
        JS.newline :: rest) := by
  obtain ⟨e, o, rfl, ho⟩ := Organizer.generateQRData_eq_some env t ev text h
  rw [Organizer.generateQRData_closed env t e o ho] at h
  rw [← Option.some.inj h]
  simp only []
  rw [JS.joinLines_cons_cons, Organizer.trimChars_idLine _ hid, List.append_assoc]
  exact ⟨_, rfl⟩

/-- The ticket id is read off the payload text: two payload texts that are
equal come from the same ticket id, when the ids have no white space. -/
theorem Organizer.generateQRData_id_injective (env1 env2 : Env) (t1 t2 : Ticket)
    (ev1 ev2 : Option PopulatedEvent) (text : String)
    (hid1 : ∀ ch ∈ t1._id.data, JS.isWhiteSpace ch = false)
    (hid2 : ∀ ch ∈ t2._id.data, JS.isWhiteSpace ch = false)
    (h1 : Organizer.generateQRData env1 t1 ev1 = some text)
    (h2 : Organizer.generateQRData env2 t2 ev2 = some text) : t1._id = t2._id := by
  obtain ⟨r1, hr1⟩ := Organizer.generateQRData_start env1 t1 ev1 text hid1 h1
  obtain ⟨r2, hr2⟩ := Organizer.generateQRData_start env2 t2 ev2 text hid2 h2
  have h3 := List.append_cancel_left (hr1.symm.trans hr2)
  have hfree : ∀ i : List Char, (∀ ch ∈ i, JS.isWhiteSpace ch = false) →
      ∀ ch ∈ (if i = [] then [] else Char.ofNat 32 :: i), ch ≠ JS.newline := by
    intro i hi ch hch
    by_cases h0 : i = []
    · simp [h0] at hch
    · rw [if_neg h0] at hch
      rcases List.mem_cons.mp hch with rfl | hmem
      · decide
      · intro hnl
        have := hi ch hmem
        rw [hnl] at this
        exact absurd this (by decide)
  have h4 := JS.eq_of_append_newline_eq _ _ _ _ (hfree _ hid1) (hfree _ hid2) h3
  apply String.ext
  by_cases a1 : t1._id.data = [] <;> by_cases a2 : t2._id.data = []
  · rw [a1, a2]
  · simp [a1, a2] at h4
  · simp [a1, a2] at h4
  · simp only [a1, a2, if_false] at h4
    exact (List.cons.inj h4).2

/-- C30. The payload identifies its ticket: for ticket ids without white
space and without line break, `generateQRData` (of either controller) is
injective in the ticket id: whatever the renderers of numbers and dates, the
other ticket fields and the events are, two calls that return the same text
were given the same ticket id. -/
theorem payload_identifies_ticket (env1 env2 : Env) (t1 t2 : Ticket)
    (ev1 ev2 : Option PopulatedEvent) (text : String)
    (hid1 : ∀ ch ∈ t1._id.data, JS.isWhiteSpace ch = false)
    (hid2 : ∀ ch ∈ t2._id.data, JS.isWhiteSpace ch = false) :
    ∀ gen1 ∈ [Organizer.generateQRData, Attendee.generateQRData],
    ∀ gen2 ∈ [Organizer.generateQRData, Attendee.generateQRData],
      gen1 env1 t1 ev1 = some text → gen2 env2 t2 ev2 = some text → t1._id = t2._id := by
  intro gen1 hgen1 gen2 hgen2 h1 h2
  simp only [List.mem_cons, List.mem_singleton, List.not_mem_nil, or_false] at hgen1 hgen2
  rcases hgen1 with rfl | rfl <;> rcases hgen2 with rfl | rfl <;>
    exact Organizer.generateQRData_id_injective env1 env2 t1 t2 ev1 ev2 text hid1 hid2 h1 h2

set_option maxRecDepth 100000 in
/-- Witness of C30 on the sample data: the ticket `vip` before and after its
sale gets the same text, and has the same id. -/
theorem payload_identifies_ticket_witness :
    (∀ ch ∈ vip._id.data, JS.isWhiteSpace ch = false) ∧
    (∀ ch ∈ vipSold._id.data, JS.isWhiteSpace ch = false) ∧
    Organizer.generateQRData sampleEnv vip (some galaPopulated) =
      Attendee.generateQRData sampleEnv vipSold (some galaPopulated) ∧
    vip._id = vipSold._id :=
  ⟨by decide, by decide, by decide,
    payload_identifies_ticket sampleEnv sampleEnv vip vipSold (some galaPopulated)
      (some galaPopulated)
      ("Ticket ID      : 65a000000000000000000f01\n      Ticket Type    : VIP\n" ++
       "      Event Name     : Gala\n      Event Genre    : Music\n" ++
       "      Event Price    : $25\n      Organizer Name : Ann\n" ++
       "      Organizer Email: ann@example.com\n      Created At     : 1/1/2025, 12:00:00 AM")
      (by decide) (by decide)
      Organizer.generateQRData (List.mem_cons_self _ _)
      Attendee.generateQRData (List.mem_cons_of_mem _ (List.mem_cons_self _ _))
      (by decide) (by decide)⟩

/-- The payload text when the organizer name is absent or empty: the sixth of
the eight joined lines is "Organizer Name : N/A". -/
theorem Organizer.generateQRData_missing_name (env : Env) (t : Ticket) (ev : PopulatedEvent)
    (org : PopulatedOrganizer) (missing : Option String)
    (hmissing : missing = none ∨ missing = some "") :
    Organizer.generateQRData env t
        (some { ev with organizerId := some { org with name := missing } }) =
      some ⟨JS.joinLines
        ([JS.trimChars (Organizer.line "Ticket ID" t._id).data,
          JS.trimChars (Organizer.line "Ticket Type" t.ticketType).data,
          JS.trimChars (Organizer.line "Event Name" ev.name).data,
          JS.trimChars (Organizer.line "Event Genre" ev.genre).data,
          JS.trimChars (Organizer.line "Event Price" ("$" ++ env.numberToString ev.price)).data,
          JS.trimChars (Organizer.line "Organizer Name" (JS.orNA org.name)).data,
          JS.trimChars (Organizer.line "Organizer Email" (JS.orNA org.email)).data,
          JS.trimChars (Organizer.line "Created At" (env.toLocaleString t.createdAt)).data].set
          5 "Organizer Name : N/A".data)⟩ := by
  rw [Organizer.generateQRData_closed env t _ _ rfl]
  have h : JS.orNA missing = "N/A" := by
    rcases hmissing with rfl | rfl <;> rfl
  have h2 : JS.trimChars (Organizer.line "Organizer Name" "N/A").data =
      "Organizer Name : N/A".data := by decide
  simp only [h, h2, List.set_cons_succ, List.set_cons_zero]

/-- The payload text when the organizer email is absent or empty: the seventh
of the eight joined lines is "Organizer Email: N/A". -/
theorem Organizer.generateQRData_missing_email (env : Env) (t : Ticket) (ev : PopulatedEvent)
    (org : PopulatedOrganizer) (missing : Option String)
    (hmissing : missing = none ∨ missing = some "") :
    Organizer.generateQRData env t
        (some { ev with organizerId := some { org with email := missing } }) =
      some ⟨JS.joinLines
        ([JS.trimChars (Organizer.line "Ticket ID" t._id).data,
          JS.trimChars (Organizer.line "Ticket Type" t.ticketType).data,
          JS.trimChars (Organizer.line "Event Name" ev.name).data,
          JS.trimChars (Organizer.line "Event Genre" ev.genre).data,
          JS.trimChars (Organizer.line "Event Price" ("$" ++ env.numberToString ev.price)).data,
          JS.trimChars (Organizer.line "Organizer Name" (JS.orNA org.name)).data,
          JS.trimChars (Organizer.line "Organizer Email" (JS.orNA org.email)).data,
          JS.trimChars (Organizer.line "Created At" (env.toLocaleString t.createdAt)).data].set
          6 "Organizer Email: N/A".data)⟩ := by
  rw [Organizer.generateQRData_closed env t _ _ rfl]
  have h : JS.orNA missing = "N/A" := by
    rcases hmissing with rfl | rfl <;> rfl
  have h2 : JS.trimChars (Organizer.line "Organizer Email" "N/A").data =
      "Organizer Email: N/A".data := by decide
  simp only [h, h2, List.set_cons_succ, List.set_cons_zero]

/-- C23. Missing organizer data renders as N/A: let the organizer name
(respectively email) be absent or empty.  Then both `generateQRData` functions
succeed, and the text is the one for the same ticket and event with any
organizer name (email) in which the sixth (seventh) of the eight joined lines,
the Organizer Name (Organizer Email) line, is replaced by
"Organizer Name : N/A" ("Organizer Email: N/A"); the other seven are the
same. -/
theorem missing_organizer_data_renders_NA (env : Env) (t : Ticket) (ev : PopulatedEvent)
    (org : PopulatedOrganizer) (missing : Option String)
    (hmissing : missing = none ∨ missing = some "") :
    ∀ gen ∈ [Organizer.generateQRData, Attendee.generateQRData],
      ∃ ls : List (List Char), ls.length = 8 ∧
        ls[5]? = some (JS.trimChars (Organizer.line "Organizer Name" (JS.orNA org.name)).data) ∧
        ls[6]? = some (JS.trimChars (Organizer.line "Organizer Email" (JS.orNA org.email)).data) ∧
        gen env t (some { ev with organizerId := some org }) = some ⟨JS.joinLines ls⟩ ∧
        gen env t (some { ev with organizerId := some { org with name := missing } }) =
          some ⟨JS.joinLines (ls.set 5 "Organizer Name : N/A".data)⟩ ∧
        gen env t (some { ev with organizerId := some { org with email := missing } }) =
          some ⟨JS.joinLines (ls.set 6 "Organizer Email: N/A".data)⟩ := by
  intro gen hgen
  have key : ∃ ls : List (List Char), ls.length = 8 ∧
      ls[5]? = some (JS.trimChars (Organizer.line "Organizer Name" (JS.orNA org.name)).data) ∧
      ls[6]? = some (JS.trimChars (Organizer.line "Organizer Email" (JS.orNA org.email)).data) ∧
      Organizer.generateQRData env t (some { ev with organizerId := some org }) =
        some ⟨JS.joinLines ls⟩ ∧
      Organizer.generateQRData env t
          (some { ev with organizerId := some { org with name := missing } }) =
        some ⟨JS.joinLines (ls.set 5 "Organizer Name : N/A".data)⟩ ∧
      Organizer.generateQRData env t
          (some { ev with organizerId := some { org with email := missing } }) =
        some ⟨JS.joinLines (ls.set 6 "Organizer Email: N/A".data)⟩ := by
    refine ⟨_, ?_, ?_, ?_, Organizer.generateQRData_closed env t _ org rfl,
      Organizer.generateQRData_missing_name env t ev org missing hmissing,
      Organizer.generateQRData_missing_email env t ev org missing hmissing⟩ <;> rfl
  simp only [List.mem_cons, List.mem_singleton, List.not_mem_nil, or_false] at hgen
  rcases hgen with rfl | rfl
  · exact key
  · exact key

set_option maxRecDepth 100000 in
/-- Witness of C23 on the sample data: the ticket `vip` of "Gala" when the
organizer has no name, respectively no email, with the generator of the
creation path. -/
theorem missing_organizer_data_renders_NA_witness :
    ∃ ls : List (List Char), ls.length = 8 ∧
      ls[5]? = some "Organizer Name : Ann".data ∧
      ls[6]? = some "Organizer Email: ann@example.com".data ∧
      Organizer.generateQRData sampleEnv vip (some galaPopulated) = some ⟨JS.joinLines ls⟩ ∧
      Organizer.generateQRData sampleEnv vip (some { galaPopulated with
          organizerId := some { name := none, email := some "ann@example.com" } }) =
        some ⟨JS.joinLines (ls.set 5 "Organizer Name : N/A".data)⟩ ∧
      Organizer.generateQRData sampleEnv vip (some { galaPopulated with
          organizerId := some { name := some "Ann", email := none } }) =
        some ⟨JS.joinLines (ls.set 6 "Organizer Email: N/A".data)⟩ :=
  missing_organizer_data_renders_NA sampleEnv vip galaPopulated
    { name := some "Ann", email := some "ann@example.com" } none (Or.inl rfl)
    Organizer.generateQRData (List.mem_cons_self _ _)

/-! ## Ticket creation when rendering fails -/

/-- A non-empty text without white space is left as it is by trimming. -/
theorem JS.trimChars_of_all (l : List Char) (hne : l ≠ [])
    (h : ∀ x ∈ l, JS.isWhiteSpace x = false) : JS.trimChars l = l := by
  apply JS.trimChars_of_tight
  · cases l with
    | nil => exact absurd rfl hne
    | cons a m => simp [JS.startsTight, h a (List.mem_cons_self _ _)]
  · rw [JS.endsTight_iff]
    exact ⟨hne, h _ (List.getLast_mem hne)⟩

/-- The characters of `longTicketType`. -/
theorem longTicketType_data :
    longTicketType.data = List.replicate (2399 + 1) (Char.ofNat 97) := rfl

/-- Every character of `longTicketType` is the lower-case letter a. -/
theorem longTicketType_mem (ch : Char) (h : ch ∈ longTicketType.data) : ch = Char.ofNat 97 := by
  rw [longTicketType_data] at h
  exact List.eq_of_mem_replicate h

/-- The text `longTicketType` is not empty. -/
theorem longTicketType_data_ne_nil : longTicketType.data ≠ [] := by
  rw [longTicketType_data, List.replicate_succ]
  exact List.cons_ne_nil _ _

/-- The text `longTicketType` is not the empty string. -/
theorem longTicketType_ne_empty : longTicketType ≠ "" := by
  intro h
  exact longTicketType_data_ne_nil (congrArg String.data h)

/-- Trimming leaves `longTicketType` as it is. -/
theorem longTicketType_trim : JS.trim longTicketType = longTicketType := by
  have h : JS.trimChars longTicketType.data = longTicketType.data := by
    apply JS.trimChars_of_all _ longTicketType_data_ne_nil
    intro x hx
    rw [longTicketType_mem x hx]
    decide
  unfold JS.trim
  rw [h]

/-- The value `longTicketType` ends clean. -/
theorem longTicketType_endsClean : JS.endsClean longTicketType = true := by
  rw [JS.endsClean_iff, JS.endsTight_iff]
  refine ⟨⟨longTicketType_data_ne_nil, ?_⟩, ?_⟩
  · rw [longTicketType_mem _ (List.getLast_mem longTicketType_data_ne_nil)]
    decide
  · intro ch hch
    rw [longTicketType_mem ch hch]
    decide

/-- A payload text has at least as many characters of a kind as its trimmed
"Ticket Type" line. -/
theorem Organizer.generateQRData_countP (p : Char → Bool) (env : Env) (t : Ticket)
    (ev : Option PopulatedEvent) (text : String)
    (h : Organizer.generateQRData env t ev = some text) :
    (JS.trimChars (Organizer.line "Ticket Type" t.ticketType).data).countP p ≤
      text.data.countP p := by
  obtain ⟨e, o, rfl, ho⟩ := Organizer.generateQRData_eq_some env t ev text h
  rw [Organizer.generateQRData_closed env t e o ho] at h
  rw [← Option.some.inj h]
  simp only [JS.joinLines, List.countP_append]
  omega

/-- The payload text of a ticket of type `longTicketType` has more than 2331
characters that only byte mode can encode. -/
theorem Organizer.generateQRData_long (env : Env) (t : Ticket)
    (ev : Option PopulatedEvent) (text : String) (ht : t.ticketType = longTicketType)
    (h : Organizer.generateQRData env t ev = some text) :
    2331 < QR.byteModeCount text := by
  have h1 := Organizer.generateQRData_countP (fun c => !QR.isAlphanumeric c) env t ev text h
  have h2 : longTicketType.data.countP (fun c => !QR.isAlphanumeric c) =
      longTicketType.data.length := by
    rw [List.countP_eq_length]
    intro ch hch
    rw [longTicketType_mem ch hch]
    decide
  have h3 : longTicketType.data.length = 2400 := by
    rw [longTicketType_data, List.length_replicate]
  rw [ht, (Organizer.line_of_endsClean "Ticket Type" longTicketType (by decide) (by decide)
    longTicketType_endsClean).1, Organizer.line_data] at h1
  simp only [List.countP_append, h2, h3] at h1
  unfold QR.byteModeCount
  omega

/-- The renderer of `limitedEnv` fails on the payload text of a ticket of type
`longTicketType`. -/
theorem limitedEnv_fails_on_long (t : Ticket) (ev : Option PopulatedEvent) (text : String)
    (ht : t.ticketType = longTicketType)
    (h : Organizer.generateQRData limitedEnv t ev = some text) :
    limitedEnv.toDataURL text = none := by
  have h1 := Organizer.generateQRData_long limitedEnv t ev text ht h
  show (if QR.byteModeCount text ≤ 2331 then _ else none) = none
  rw [if_neg (by omega)]

/-- The outcome of `createTicket` when the request passes the checks and the
payload cannot be rendered: the answer is 500 and the new ticket, without QR
code, is stored. -/
theorem Organizer.createTicket_of_render_failure (env : Env) (s : Store)
    (eid : ObjectId) (ticketType : String) (user : User) (newId : ObjectId) (now : Date)
    (event : Event) (htype : ticketType ≠ "") (htrim : JS.trim ticketType ≠ "")
    (hfresh : s.tickets.any (fun d => d._id == newId) = false)
    (hfind : Mongo.findOne (fun e => e._id == eid && e.organizerId == user._id) s.events =
      some event)
    (hrender : ∀ text,
      Organizer.generateQRData env
        { _id := newId, eventId := eid, ticketType := JS.trim ticketType, attendeeId := none,
          qrCode := none, isAvailable := true, createdAt := now }
        (some (populateOrganizer s.users event)) = some text →
      env.toDataURL text = none) :
    Organizer.createTicket env (some eid) (some ticketType) user newId now s =
      ({ status := 500, error := some "Server error while creating ticket" },
       { s with tickets := s.tickets ++
          [{ _id := newId, eventId := eid, ticketType := JS.trim ticketType,
             attendeeId := none, qrCode := none, isAvailable := true, createdAt := now }] }) := by
  simp only [Organizer.createTicket, htype, htrim, hfresh, hfind, if_false, Bool.or_false,
    decide_False, Bool.false_eq_true]
  cases htext : Organizer.generateQRData env
      { _id := newId, eventId := eid, ticketType := JS.trim ticketType, attendeeId := none,
        qrCode := none, isAvailable := true, createdAt := now }
      (some (populateOrganizer s.users event)) with
  | none => rfl
  | some text => simp only [hrender text htext]

/-- C29 (fails in the code). Ticket creation is not atomic when rendering
fails: if the request passes the checks of `createTicket` (ticket type given
and not blank, event found and owned by the caller, fresh id) and the QR
renderer fails on the payload text, the answer is 500 "Server error while
creating ticket" and the new ticket, without QR code, has been added to the
store: `Ticket.create` runs before `QRCode.toDataURL`. -/
theorem createTicket_keeps_ticket_on_render_failure (env : Env) (s : Store)
    (eid : ObjectId) (ticketType : String) (user : User) (newId : ObjectId) (now : Date)
    (event : Event) (htype : ticketType ≠ "") (htrim : JS.trim ticketType ≠ "")
    (hfresh : s.tickets.any (fun d => d._id == newId) = false)
    (hfind : Mongo.findOne (fun e => e._id == eid && e.organizerId == user._id) s.events =
      some event)
    (hrender : ∀ text,
      Organizer.generateQRData env
        { _id := newId, eventId := eid, ticketType := JS.trim ticketType, attendeeId := none,
          qrCode := none, isAvailable := true, createdAt := now }
        (some (populateOrganizer s.users event)) = some text →
      env.toDataURL text = none) :
    (Organizer.createTicket env (some eid) (some ticketType) user newId now s).1 =
      { status := 500, error := some "Server error while creating ticket" } ∧
    (Organizer.createTicket env (some eid) (some ticketType) user newId now s).2.tickets =
      s.tickets ++
        [{ _id := newId, eventId := eid, ticketType := JS.trim ticketType,
           attendeeId := none, qrCode := none, isAvailable := true, createdAt := now }] ∧
    (Organizer.createTicket env (some eid) (some ticketType) user newId now s).2.tickets.length =
      s.tickets.length + 1 := by
  rw [Organizer.createTicket_of_render_failure env s eid ticketType user newId now event htype
    htrim hfresh hfind hrender]
  exact ⟨rfl, rfl, by simp⟩

/-- Witness of C29: the organizer `ann` asks for a ticket of her event "Gala"
whose type is 2400 lower-case letters, more bytes than the renderer of
`limitedEnv` can encode; the store had no ticket and has one afterwards,
although the answer is 500. -/
theorem createTicket_keeps_ticket_on_render_failure_witness :
    (Organizer.createTicket limitedEnv (some gala._id) (some longTicketType) ann
        "65a000000000000000000f02" 1735689600000 emptyTicketStore).1 =
      { status := 500, error := some "Server error while creating ticket" } ∧
    (Organizer.createTicket limitedEnv (some gala._id) (some longTicketType) ann
        "65a000000000000000000f02" 1735689600000 emptyTicketStore).2.tickets =
      emptyTicketStore.tickets ++
        [{ _id := "65a000000000000000000f02", eventId := gala._id,
           ticketType := JS.trim longTicketType, attendeeId := none, qrCode := none,
           isAvailable := true, createdAt := 1735689600000 }] ∧
    (Organizer.createTicket limitedEnv (some gala._id) (some longTicketType) ann
        "65a000000000000000000f02" 1735689600000 emptyTicketStore).2.tickets.length =
      emptyTicketStore.tickets.length + 1 :=
  createTicket_keeps_ticket_on_render_failure limitedEnv emptyTicketStore gala._id
    longTicketType ann "65a000000000000000000f02" 1735689600000 gala
    longTicketType_ne_empty (by rw [longTicketType_trim]; exact longTicketType_ne_empty)
    (by decide) (by decide)
    (fun text h => limitedEnv_fails_on_long
      { _id := "65a000000000000000000f02", eventId := gala._id,
        ticketType := JS.trim longTicketType, attendeeId := none, qrCode := none,
        isAvailable := true, createdAt := 1735689600000 }
      (some (populateOrganizer emptyTicketStore.users gala)) text longTicketType_trim h)

end EventHub
